import Mathlib

/-!
# Knot DNS: changesets, DDNS batch processing, the remote control protocol and zone transfers

A shallow embedding of

* `src/libknot/updates/changesets.c` (changeset lists, adding an RRset or an
  RR),
* `src/knot/nameserver/update.c` (DDNS batch: prerequisites, update, apply,
  sign, journal, publish; `update_answer`),
* `src/knot/ctl/remote.c` (control queries `<cmd>.knot.` in class CH, their
  access check, the command handlers and the TXT response),
* `src/knot/server/xfr-handler.c` (TSIG check of a transfer query, events of
  an incoming transfer, answering an IXFR),
* `src/utils/nsupdate/nsupdate_params.c` (the command line of nsupdate),
* the table of domain names of `dnslib/dname-table.c`, as
  `src/dnslib/tests/dnslib/dname_table_tests.c` uses it.

Conventions of the embedding.

* A C `int` is an `Int`; a C truth value is an `Int` that is zero or not.
* A pointer that the code tests against `NULL` is an `Option`.
* Functions of the repository that these files call but that are not part of
  the sources at hand are fields of an environment structure (`update_env`,
  `update_answer_env`, `remote_env`, `remote_io_env`, `remote_process_env`,
  `tsig_env`, `xfr_tsig_env`, `xfr_env`, `xfr_answer_env`, `changeset_env`,
  `nsupdate_env`): the theorems hold for every environment.
* What a function does to the outside (calls of collaborators, events put on
  the zone's schedule, messages sent) is recorded, in program order, in a
  trace that the function returns next to its C return value.
* A collaborator acts only through what its field returns: it changes
  neither the zone nor the requests behind the caller's back.
* `assert(e)` with `e` false ends the run: the function yields `none`.
-/

set_option autoImplicit false

namespace Knot

/-! ## Error codes, RCODEs, classes and types -/

/-- Modelled from the spec: `libknot/errcode.h` is not among the sources; the
codes are numbered as errno values and as an enumeration from -10000. Only
the fact that they are pairwise distinct is used. -/
def KNOT_EOK : Int := 0

/-- Out of memory (`-ENOMEM`). -/
def KNOT_ENOMEM : Int := -12

/-- Access denied (`-EACCES`). -/
def KNOT_EACCES : Int := -13

/-- Invalid parameter (`-EINVAL`). -/
def KNOT_EINVAL : Int := -22

/-- Operation not supported (`-ENOTSUP`). -/
def KNOT_ENOTSUP : Int := -95

/-- General error. -/
def KNOT_ERROR : Int := -10000

/-- Malformed data. -/
def KNOT_EMALF : Int := -9993

/-- TTL mismatch. -/
def KNOT_ETTL : Int := -9979

/-- Control state: the server is asked to stop. -/
def KNOT_CTL_STOP : Int := -9960

def KNOT_RCODE_NOERROR : Nat := 0
def KNOT_RCODE_FORMERR : Nat := 1
def KNOT_RCODE_SERVFAIL : Nat := 2
def KNOT_RCODE_NXDOMAIN : Nat := 3
def KNOT_RCODE_NOTIMPL : Nat := 4
def KNOT_RCODE_REFUSED : Nat := 5
def KNOT_RCODE_YXDOMAIN : Nat := 6
def KNOT_RCODE_YXRRSET : Nat := 7
def KNOT_RCODE_NXRRSET : Nat := 8
def KNOT_RCODE_NOTAUTH : Nat := 9
def KNOT_RCODE_NOTZONE : Nat := 10

def KNOT_CLASS_IN : Nat := 1
def KNOT_CLASS_CH : Nat := 3

def KNOT_RRTYPE_NS : Nat := 2
def KNOT_RRTYPE_SOA : Nat := 6
def KNOT_RRTYPE_TXT : Nat := 16
def KNOT_RRTYPE_RRSIG : Nat := 46
def KNOT_RRTYPE_DNSKEY : Nat := 48
def KNOT_RRTYPE_NSEC3PARAM : Nat := 51
def KNOT_RRTYPE_ANY : Nat := 255

/-! ## Resource record sets -/

/-- An RRset: owner name in wire format (octets), type, class and the list
of RDATA, each a string of octets. -/
structure knot_rrset_t where
  owner : List Nat
  type : Nat
  rclass : Nat
  rrs : List (List Nat)
  deriving DecidableEq, Repr

/-! ## C truth values -/

/-- The C operator `a && b` on integers. -/
def c_land (a b : Int) : Int := if a ≠ 0 ∧ b ≠ 0 then 1 else 0

/-- The C operator `a == b` on integers. -/
def c_eq (a b : Int) : Int := if a = b then 1 else 0

/-! ## `libknot/updates/changesets.c` -/

/-- The changeset of `changesets.c`: the two SOA records with their serials,
the ordered lists of RRsets to add and to remove, and the flags. -/
structure knot_changeset_t where
  soa_from : Option knot_rrset_t
  soa_to : Option knot_rrset_t
  serial_from : Nat
  serial_to : Nat
  add : List knot_rrset_t
  remove : List knot_rrset_t
  flags : Nat
  deriving DecidableEq, Repr

/-- Modelled from the spec: `list_is_empty` of `common/lists.h`, which is not
among the sources: non-zero exactly for a list without elements. -/
def list_is_empty (l : List knot_rrset_t) : Int := if l = [] then 1 else 0

/-- `knot_changeset_is_empty`. In C, `==` binds tighter than `&&`, so the
returned expression is
`list_is_empty(&add) && (list_is_empty(&remove) == 0)`.
The list test is a parameter, see `list_is_empty`. -/
def knot_changeset_is_empty (is_empty : List knot_rrset_t → Int)
    (changeset : Option knot_changeset_t) : Int :=
  match changeset with
  | none => 0
  | some ch => c_land (is_empty ch.add) (c_eq (is_empty ch.remove) 0)

/-! ## DNS messages -/

/-- The parts of a parsed DNS message that the code reads or writes: the
header fields ID, QR and RCODE, the question (QNAME in wire format, QCLASS,
QTYPE), the RRsets of the authority section and the TSIG record. -/
structure knot_pkt_t where
  id : Nat
  qr : Bool
  rcode : Nat
  qname : List Nat
  qclass : Nat
  qtype : Nat
  authority : List knot_rrset_t
  tsig_rr : Option knot_rrset_t
  deriving DecidableEq, Repr

/-- Modelled from the spec: `knot_wire_set_rcode` of `libknot/packet/wire.h`
(not among the sources) stores the RCODE in the header of the message. -/
def knot_wire_set_rcode (pkt : knot_pkt_t) (rcode : Nat) : knot_pkt_t :=
  { pkt with rcode := rcode }

/-- Modelled from the spec: `knot_wire_get_rcode`, the RCODE of the header. -/
def knot_wire_get_rcode (pkt : knot_pkt_t) : Nat := pkt.rcode

/-! ## Zones -/

/-- Modelled from the spec: the event types of `knot/zone/events.h` (not
among the sources), as the spec lists them. -/
inductive zone_event_type_t where
  | ZONE_EVENT_REFRESH
  | ZONE_EVENT_XFER
  | ZONE_EVENT_FLUSH
  | ZONE_EVENT_DNSSEC
  | ZONE_EVENT_NOTIFY
  | ZONE_EVENT_EXPIRE
  | ZONE_EVENT_UPDATE
  deriving DecidableEq, Repr

/-- The time argument `ZONE_EVENT_NOW` of `zone_events_schedule`. -/
def ZONE_EVENT_NOW : Int := 0

/-- A zone node: its RRsets, one per type. -/
structure zone_node_t where
  rrs : List knot_rrset_t
  deriving DecidableEq, Repr

/-- Zone contents (a snapshot): the apex node and the remaining nodes. -/
structure zone_contents_t where
  apex : zone_node_t
  nodes : List zone_node_t
  deriving DecidableEq, Repr

/-- The zone's configuration: name, automatic DNSSEC signing, the zone file
synchronisation timeout and whether a master is configured. -/
structure conf_zone_t where
  name : List Nat
  dnssec_enable : Bool
  dbsync_timeout : Int
  master : Option Nat
  deriving DecidableEq, Repr

/-- The zone object: configuration, published contents (`NULL` when the zone
has none) and flags. -/
structure zone_t where
  conf : conf_zone_t
  contents : Option zone_contents_t
  flags : Nat
  deriving DecidableEq, Repr

/-! ## `knot/nameserver/update.c` -/

/-- The changeset of `update.c`: the SOA pair and the ordered lists of
RRsets to add and to remove. -/
structure changeset_t where
  soa_from : Option knot_rrset_t
  soa_to : Option knot_rrset_t
  add : List knot_rrset_t
  remove : List knot_rrset_t
  deriving DecidableEq, Repr

/-- The changeset that `changesets_create(1)` hands out: no SOA, no RRsets. -/
def changeset_init : changeset_t :=
  { soa_from := none, soa_to := none, add := [], remove := [] }

/-- Modelled from the spec: `changeset_is_empty` of `knot/updates/changesets.c`
in the version `update.c` is written against (not among the sources). The
spec: "Empty changeset ≡ removes ∪ adds = ∅". -/
def changeset_is_empty (ch : changeset_t) : Bool :=
  ch.add.isEmpty && ch.remove.isEmpty

/-- Modelled from the spec: `node_rrset` of `knot/zone/node.h` (not among the
sources): the node's RRset of the given type, an RRset without owner and data
when the node has none ("All RRsets with identical owner name, keyed by
type"). -/
def node_rrset (node : zone_node_t) (type : Nat) : knot_rrset_t :=
  match node.rrs.find? (fun rr => rr.type = type) with
  | some rr => rr
  | none => { owner := [], type := type, rclass := KNOT_CLASS_IN, rrs := [] }

/-- Modelled from the spec: `knot_rrset_equal` with `KNOT_RRSET_COMPARE_WHOLE`
(not among the sources): same owner, type, class and data. -/
def knot_rrset_equal_whole (r1 r2 : knot_rrset_t) : Bool := decide (r1 = r2)

/-- `apex_rr_changed`. -/
def apex_rr_changed (old_contents new_contents : zone_contents_t) (type : Nat) : Bool :=
  let old_rr := node_rrset old_contents.apex type
  let new_rr := node_rrset new_contents.apex type
  !knot_rrset_equal_whole old_rr new_rr

/-- `zones_dnskey_changed`. -/
def zones_dnskey_changed (old_contents new_contents : zone_contents_t) : Bool :=
  apex_rr_changed old_contents new_contents KNOT_RRTYPE_DNSKEY

/-- `zones_nsec3param_changed`. -/
def zones_nsec3param_changed (old_contents new_contents : zone_contents_t) : Bool :=
  apex_rr_changed old_contents new_contents KNOT_RRTYPE_NSEC3PARAM

/-- What `ddns_process_prereqs` hands back: return value and `*rcode`. -/
structure prereq_out where
  ret : Int
  rcode : Nat
  deriving DecidableEq, Repr

/-- What `ddns_process_update` hands back: return value, `*rcode` and the
changeset as it left it. -/
structure ddns_out where
  ret : Int
  rcode : Nat
  ch : changeset_t
  deriving DecidableEq, Repr

/-- What a signer hands back: return value, the signing changeset and
`refresh_at`. -/
structure signer_out where
  ret : Int
  sec_ch : changeset_t
  refresh_at : Int
  deriving DecidableEq, Repr

/-- The collaborators of `update.c` that are not among the sources. A
`changesets_create` field says whether that allocation succeeds. -/
structure update_env where
  changesets_create_ddns : Bool
  changesets_create_sec : Bool
  ddns_process_prereqs : knot_pkt_t → Option zone_contents_t → prereq_out
  ddns_process_update : zone_t → knot_pkt_t → changeset_t → Nat → ddns_out
  apply_changesets : zone_t → changeset_t → Int × Option zone_contents_t
  knot_dnssec_zone_sign : zone_contents_t → conf_zone_t → changeset_t → signer_out
  knot_dnssec_sign_changeset :
    zone_contents_t → conf_zone_t → changeset_t → changeset_t → signer_out
  apply_changesets_directly : zone_contents_t → changeset_t → Int × zone_contents_t
  changeset_merge : changeset_t → changeset_t → Int × changeset_t
  zone_events_get_time : zone_t → zone_event_type_t → Int
  time : Int
  zone_change_store : zone_t → changeset_t → Int
  zone_contents_serial : Option zone_contents_t → Nat

/-- The trace of `update.c`: each collaborator call with its return value,
the two places where `update.c` itself changes the batch or the zone
(`changeset_rollback`, `zone_switch_contents`), the return of `sign_update`
and each event put on the zone's schedule. -/
inductive update_event where
  | ddns_process_prereqs (ret : Int)
  | ddns_process_update (ret : Int)
  | changeset_rollback
  | apply_changesets (ret : Int)
  | knot_dnssec_zone_sign (ret : Int)
  | knot_dnssec_sign_changeset (ret : Int)
  | apply_changesets_directly (ret : Int)
  | changeset_merge (ret : Int)
  | sign_update (ret : Int)
  | zone_change_store (ret : Int)
  | update_rollback
  | zone_switch_contents
  | zone_events_schedule (type : zone_event_type_t) (time : Int)
  deriving DecidableEq, Repr

/-- `struct request_data`: the query and the response being prepared. -/
structure request_data where
  query : knot_pkt_t
  resp : knot_pkt_t
  deriving DecidableEq, Repr

/-- `struct changeset_state`: the saved SOA pair. -/
structure changeset_state where
  soa_from : Option knot_rrset_t
  soa_to : Option knot_rrset_t
  deriving DecidableEq, Repr

/-- `store_changeset_state`: copies of the two SOA records. -/
def store_changeset_state (ch : changeset_t) : changeset_state :=
  { soa_from := ch.soa_from, soa_to := ch.soa_to }

/-- `changeset_rollback`: both lists are initialised anew (`init_list`), and
each SOA that is not the saved one is replaced by the saved one. -/
def changeset_rollback (src : changeset_state) (ch : changeset_t) : changeset_t :=
  let ch1 : changeset_t := { ch with add := [], remove := [] }
  let ch2 : changeset_t :=
    if src.soa_from ≠ ch1.soa_from then { ch1 with soa_from := src.soa_from } else ch1
  if src.soa_to ≠ ch2.soa_to then { ch2 with soa_to := src.soa_to } else ch2

/-- Result of `process_single_update`. `ret` is `none` when control reaches
the closing brace of the function without a `return` statement. -/
structure single_result where
  ret : Option Int
  request : request_data
  ch : changeset_t
  trace : List update_event
  deriving DecidableEq, Repr

/-- `process_single_update`. The result is `none` when an `assert` fails. -/
def process_single_update (env : update_env) (request : request_data) (zone : zone_t)
    (ch : changeset_t) : Option single_result :=
  let p := env.ddns_process_prereqs request.query zone.contents
  if p.ret ≠ KNOT_EOK then
    if p.rcode ≠ KNOT_RCODE_NOERROR then
      some { ret := some p.ret,
             request := { request with resp := knot_wire_set_rcode request.resp p.rcode },
             ch := ch,
             trace := [update_event.ddns_process_prereqs p.ret] }
    else none
  else
    let st := store_changeset_state ch
    let u := env.ddns_process_update zone request.query ch p.rcode
    if u.ret ≠ KNOT_EOK then
      if u.rcode ≠ KNOT_RCODE_NOERROR then
        some { ret := none,
               request := { request with resp := knot_wire_set_rcode request.resp u.rcode },
               ch := changeset_rollback st u.ch,
               trace := [update_event.ddns_process_prereqs p.ret,
                         update_event.ddns_process_update u.ret,
                         update_event.changeset_rollback] }
      else none
    else
      some { ret := some KNOT_EOK,
             request := request,
             ch := u.ch,
             trace := [update_event.ddns_process_prereqs p.ret,
                       update_event.ddns_process_update u.ret] }

/-- `set_rcodes`: every response whose RCODE is still NOERROR gets `rcode`. -/
def set_rcodes (queries : List request_data) (rcode : Nat) : List request_data :=
  queries.map (fun query =>
    if knot_wire_get_rcode query.resp = KNOT_RCODE_NOERROR then
      { query with resp := knot_wire_set_rcode query.resp rcode }
    else query)

/-- What the `WALK_LIST` loop of `process_queries` leaves: the requests, the
batched changeset and the trace. -/
structure walk_result where
  queries : List request_data
  ch : changeset_t
  trace : List update_event
  deriving DecidableEq, Repr

/-- The `WALK_LIST` loop of `process_queries`: `process_single_update` on
each request in turn, all on the one changeset; its return value is dropped. -/
def process_queries_walk (env : update_env) (zone : zone_t) :
    List request_data → changeset_t → Option walk_result
  | [], ch => some { queries := [], ch := ch, trace := [] }
  | query :: rest, ch =>
    match process_single_update env query zone ch with
    | none => none
    | some r =>
      match process_queries_walk env zone rest r.ch with
      | none => none
      | some w =>
        some { queries := r.request :: w.queries, ch := w.ch, trace := r.trace ++ w.trace }

/-- Result of `sign_update`: return value, the new contents and the DDNS
changeset as the call left them, and the trace. -/
structure sign_result where
  ret : Int
  new_contents : zone_contents_t
  ddns_ch : changeset_t
  trace : List update_event
  deriving DecidableEq, Repr

/-- `sign_update`. The four `assert`s on its pointer arguments hold by the
types of the arguments. -/
def sign_update (env : update_env) (zone : zone_t) (old_contents new_contents : zone_contents_t)
    (ddns_ch : changeset_t) : sign_result :=
  if env.changesets_create_sec = false then
    { ret := KNOT_ENOMEM, new_contents := new_contents, ddns_ch := ddns_ch, trace := [] }
  else
    let sec_ch := changeset_init
    let full := zones_dnskey_changed old_contents new_contents
                  || zones_nsec3param_changed old_contents new_contents
    let s := if full then env.knot_dnssec_zone_sign new_contents zone.conf sec_ch
             else env.knot_dnssec_sign_changeset new_contents zone.conf ddns_ch sec_ch
    let tr := [if full then update_event.knot_dnssec_zone_sign s.ret
               else update_event.knot_dnssec_sign_changeset s.ret]
    if s.ret ≠ KNOT_EOK then
      { ret := s.ret, new_contents := new_contents, ddns_ch := ddns_ch, trace := tr }
    else
      let a := env.apply_changesets_directly new_contents s.sec_ch
      let tr := tr ++ [update_event.apply_changesets_directly a.1]
      if a.1 ≠ KNOT_EOK then
        { ret := a.1, new_contents := a.2, ddns_ch := ddns_ch, trace := tr }
      else
        let m := env.changeset_merge ddns_ch s.sec_ch
        let tr := tr ++ [update_event.changeset_merge m.1]
        if m.1 ≠ KNOT_EOK then
          { ret := m.1, new_contents := a.2, ddns_ch := m.2, trace := tr }
        else
          let resign_time := env.zone_events_get_time zone zone_event_type_t.ZONE_EVENT_DNSSEC
          if env.time + s.refresh_at < resign_time then
            { ret := m.1, new_contents := a.2, ddns_ch := m.2,
              trace := tr ++ [update_event.zone_events_schedule
                                zone_event_type_t.ZONE_EVENT_DNSSEC s.refresh_at] }
          else
            { ret := m.1, new_contents := a.2, ddns_ch := m.2, trace := tr }

/-- Result of `process_queries`: return value, the zone and the requests as
the call left them, and the trace. -/
structure process_result where
  ret : Int
  zone : zone_t
  queries : List request_data
  trace : List update_event
  deriving DecidableEq, Repr

/-- The end of `process_queries`, from the journal write on: store the
changeset, switch the zone contents, schedule FLUSH when the zone file is
synchronised immediately. -/
def process_queries_store (env : update_env) (zone : zone_t) (queries : List request_data)
    (ddns_ch : changeset_t) (new_contents : zone_contents_t) (tr : List update_event) :
    process_result :=
  let ret := env.zone_change_store zone ddns_ch
  let tr := tr ++ [update_event.zone_change_store ret]
  if ret ≠ KNOT_EOK then
    { ret := ret, zone := zone, queries := set_rcodes queries KNOT_RCODE_SERVFAIL,
      trace := tr ++ [update_event.update_rollback] }
  else
    let zone1 : zone_t := { zone with contents := some new_contents }
    let tr := tr ++ [update_event.zone_switch_contents]
    if zone1.conf.dbsync_timeout = 0 then
      { ret := ret, zone := zone1, queries := queries,
        trace := tr ++ [update_event.zone_events_schedule
                          zone_event_type_t.ZONE_EVENT_FLUSH ZONE_EVENT_NOW] }
    else
      { ret := ret, zone := zone1, queries := queries, trace := tr }

/-- The part of `process_queries` after `assert(new_contents)`: signing when
DNSSEC is enabled, then `process_queries_store`. The result is `none` when
`sign_update` is entered with `zone->contents == NULL` (its `assert`). -/
def process_queries_publish (env : update_env) (zone : zone_t) (queries : List request_data)
    (ddns_ch : changeset_t) (new_contents : zone_contents_t) (tr : List update_event) :
    Option process_result :=
  if zone.conf.dnssec_enable then
    match zone.contents with
    | none => none
    | some old_contents =>
      let sg := sign_update env zone old_contents new_contents ddns_ch
      let tr := tr ++ sg.trace ++ [update_event.sign_update sg.ret]
      if sg.ret ≠ KNOT_EOK then
        some { ret := sg.ret, zone := zone,
               queries := set_rcodes queries KNOT_RCODE_SERVFAIL,
               trace := tr ++ [update_event.update_rollback] }
      else
        some (process_queries_store env zone queries sg.ddns_ch sg.new_contents tr)
  else
    some (process_queries_store env zone queries ddns_ch new_contents tr)

/-- `process_queries`. The result is `none` when an `assert` fails. -/
def process_queries (env : update_env) (zone : zone_t) (queries : List request_data) :
    Option process_result :=
  if env.changesets_create_ddns = false then
    some { ret := KNOT_ENOMEM, zone := zone,
           queries := set_rcodes queries KNOT_RCODE_SERVFAIL, trace := [] }
  else
    match process_queries_walk env zone queries changeset_init with
    | none => none
    | some w =>
      let change_made := !changeset_is_empty w.ch
      if change_made then
        let a := env.apply_changesets zone w.ch
        let tr := w.trace ++ [update_event.apply_changesets a.1]
        if a.1 ≠ KNOT_EOK then
          if a.1 = KNOT_ETTL then
            some { ret := a.1, zone := zone,
                   queries := set_rcodes w.queries KNOT_RCODE_REFUSED, trace := tr }
          else
            some { ret := a.1, zone := zone,
                   queries := set_rcodes w.queries KNOT_RCODE_SERVFAIL, trace := tr }
        else
          match a.2 with
          | none => none
          | some new_contents =>
            process_queries_publish env zone w.queries w.ch new_contents tr
      else
        some { ret := KNOT_EOK, zone := zone, queries := w.queries, trace := w.trace }

/-- Result of `update_process_queries`. -/
structure update_result where
  ret : Int
  zone : Option zone_t
  queries : Option (List request_data)
  trace : List update_event
  deriving DecidableEq, Repr

/-- `update_process_queries`. The result is `none` when an `assert` fails. -/
def update_process_queries (env : update_env) (zone : Option zone_t)
    (queries : Option (List request_data)) : Option update_result :=
  match zone, queries with
  | some z, some qs =>
    let old_serial := env.zone_contents_serial z.contents
    match process_queries env z qs with
    | none => none
    | some r =>
      if r.ret ≠ KNOT_EOK then
        some { ret := r.ret, zone := some r.zone, queries := some r.queries, trace := r.trace }
      else
        let new_serial := env.zone_contents_serial r.zone.contents
        if new_serial = old_serial then
          some { ret := KNOT_EOK, zone := some r.zone, queries := some r.queries,
                 trace := r.trace }
        else
          some { ret := KNOT_EOK, zone := some r.zone, queries := some r.queries,
                 trace := r.trace ++ [update_event.zone_events_schedule
                                        zone_event_type_t.ZONE_EVENT_NOTIFY ZONE_EVENT_NOW] }
  | _, _ => some { ret := KNOT_EINVAL, zone := zone, queries := queries, trace := [] }

/-- The events that `process_single_update` leaves in the trace. -/
def update_event.per_query : update_event → Bool
  | update_event.ddns_process_prereqs _ => true
  | update_event.ddns_process_update _ => true
  | update_event.changeset_rollback => true
  | _ => false

/-- The events that `sign_update` leaves in the trace: the two signers,
applying and merging the signing changeset, scheduling the next re-sign. -/
def update_event.of_signing : update_event → Bool
  | update_event.knot_dnssec_zone_sign _ => true
  | update_event.knot_dnssec_sign_changeset _ => true
  | update_event.apply_changesets_directly _ => true
  | update_event.changeset_merge _ => true
  | update_event.zone_events_schedule zone_event_type_t.ZONE_EVENT_DNSSEC _ => true
  | _ => false

/-- The number of signer calls (`knot_dnssec_zone_sign`,
`knot_dnssec_sign_changeset`) in a trace. -/
def signer_calls : List update_event → Nat
  | [] => 0
  | update_event.knot_dnssec_zone_sign _ :: rest => signer_calls rest + 1
  | update_event.knot_dnssec_sign_changeset _ :: rest => signer_calls rest + 1
  | _ :: rest => signer_calls rest

/-- The FLUSH that ends the trace of a published batch. -/
def flush_segment (zone : zone_t) : List update_event :=
  if zone.conf.dbsync_timeout = 0 then
    [update_event.zone_events_schedule zone_event_type_t.ZONE_EVENT_FLUSH ZONE_EVENT_NOW]
  else []

/-! ## C strings and domain names -/

/-- The octets of a string literal. -/
def cstr (s : String) : List Nat := s.toList.map Char.toNat

/-- The C string that starts at the given octets: everything before the
first NUL. -/
def c_str (s : List Nat) : List Nat := s.takeWhile (fun c => c ≠ 0)

/-- `strlen`. -/
def strlen (s : List Nat) : Nat := (c_str s).length

/-- `strndup(s, n)`: at most `n` octets of the C string at `s`. -/
def strndup (s : List Nat) (n : Nat) : List Nat := c_str (s.take n)

/-- The labels of a name in presentation format: the text between the dots,
the text after the last dot included (`cur` collects the label being read). -/
def dname_str_labels : List Nat → List Nat → List (List Nat)
  | [], cur => [cur]
  | c :: rest, cur =>
    if c = 46 then cur :: dname_str_labels rest [] else dname_str_labels rest (cur ++ [c])

/-- Modelled from the spec: `knot_dname_from_str` of `libknot/dname.c` (not
among the sources). "A sequence of length-prefixed labels ending in a
zero-length root label; uncompressed wire length ≤ 255 bytes; label length
≤ 63." A final dot is optional, `.` alone is the root, every octet other
than the dot belongs to a label; `none` is the `NULL` result. -/
def knot_dname_from_str (name : List Nat) : Option (List Nat) :=
  if name = [] then none
  else if name = [46] then some [0]
  else
    let all := dname_str_labels name []
    let labels := if all.getLast? = some [] then all.dropLast else all
    let wire : List Nat := (labels.map (fun l => l.length :: l)).flatten ++ [0]
    if labels.all (fun l => decide (0 < l.length ∧ l.length ≤ 63)) && decide (wire.length ≤ 255)
    then some wire else none

/-- The labels of a name in wire format, the root label left out; at most
`fuel` labels are read. -/
def dname_wire_labels : Nat → List Nat → List (List Nat)
  | 0, _ => []
  | _ + 1, [] => []
  | fuel + 1, n :: rest =>
    if n = 0 then [] else rest.take n :: dname_wire_labels fuel (rest.drop n)

/-- Modelled from the spec: `knot_dname_is_sub` of `libknot/dname.c` (not
among the sources): `sub` is a proper subdomain of `domain`, that is, it has
more labels and its last labels are those of `domain`. -/
def knot_dname_is_sub (sub domain : List Nat) : Bool :=
  let s := dname_wire_labels sub.length sub
  let d := dname_wire_labels domain.length domain
  decide (d.length < s.length) && d.isSuffixOf s

/-! ## `knot/ctl/remote.c` -/

/-- `KNOT_CTL_REALM`. -/
def KNOT_CTL_REALM : List Nat := cstr "knot."

/-- `KNOT_CTL_REALM_EXT`, that is `"." KNOT_CTL_REALM`. -/
def KNOT_CTL_REALM_EXT : List Nat := cstr "." ++ KNOT_CTL_REALM

/-- `CMDARGS_BUFLEN`, 1 MiB. -/
def CMDARGS_BUFLEN : Nat := 1024 * 1024

/-- `struct remote_cmdargs_t`: the RRsets of the query's authority section
with their number, the RCODE, the response text and its length. -/
structure remote_cmdargs_t where
  arg : List knot_rrset_t
  argc : Nat
  rc : Nat
  resp : List Nat
  rlen : Nat
  deriving DecidableEq, Repr

/-- The server: its zone database. -/
structure server_t where
  zone_db : List zone_t
  deriving DecidableEq, Repr

/-- A TSIG key: name, algorithm and secret. -/
structure knot_tsig_key_t where
  name : List Nat
  algorithm : Nat
  secret : List Nat
  deriving DecidableEq, Repr

/-- The command handlers (`remote_cmdf_t` values) of `remote.c`. -/
inductive remote_cmdf_t where
  | remote_c_stop
  | remote_c_reload
  | remote_c_refresh
  | remote_c_retransfer
  | remote_c_status
  | remote_c_zonestatus
  | remote_c_flush
  | remote_c_signzone
  deriving DecidableEq, Repr

/-- `struct remote_cmd_t`: an item of the command table. -/
structure remote_cmd_t where
  name : List Nat
  f : remote_cmdf_t
  deriving DecidableEq, Repr

/-- `remote_cmd_tbl`, without the closing `{ NULL, NULL }` item. -/
def remote_cmd_tbl : List remote_cmd_t :=
  [ { name := cstr "stop", f := remote_cmdf_t.remote_c_stop },
    { name := cstr "reload", f := remote_cmdf_t.remote_c_reload },
    { name := cstr "refresh", f := remote_cmdf_t.remote_c_refresh },
    { name := cstr "retransfer", f := remote_cmdf_t.remote_c_retransfer },
    { name := cstr "status", f := remote_cmdf_t.remote_c_status },
    { name := cstr "zonestatus", f := remote_cmdf_t.remote_c_zonestatus },
    { name := cstr "flush", f := remote_cmdf_t.remote_c_flush },
    { name := cstr "signzone", f := remote_cmdf_t.remote_c_signzone } ]

/-- What a command handler leaves: its return value, the argument block and
the server. -/
structure remote_cmd_out where
  ret : Int
  args : remote_cmdargs_t
  server : server_t
  deriving DecidableEq, Repr

/-- What `remote.c` takes from outside: whether `knot_pkt_new` and the
`malloc` of the argument block succeed, the random message ID, the error
strings, and what a call `c->f(s, args)` of a handler does. -/
structure remote_env where
  knot_pkt_new : Bool
  malloc : Bool
  knot_random_uint16_t : Nat
  knot_strerror : Int → List Nat
  call : remote_cmdf_t → server_t → remote_cmdargs_t → remote_cmd_out

/-- The trace of `remote_answer`: each handler call and each call of
`remote_send_chunk` with the octets handed to it. -/
inductive remote_event where
  | cmd (f : remote_cmdf_t)
  | send_chunk (d : List Nat)
  deriving DecidableEq, Repr

/-- The handlers called, in order. -/
def remote_trace_cmds : List remote_event → List remote_cmdf_t
  | [] => []
  | remote_event.cmd f :: rest => f :: remote_trace_cmds rest
  | remote_event.send_chunk _ :: rest => remote_trace_cmds rest

/-- The chunks handed to `remote_send_chunk`, in order. -/
def remote_trace_chunks : List remote_event → List (List Nat)
  | [] => []
  | remote_event.cmd _ :: rest => remote_trace_chunks rest
  | remote_event.send_chunk d :: rest => d :: remote_trace_chunks rest

/-- The octets `buf[p] .. buf[p + len - 1]` of a buffer that is zero beyond
what was written to it. -/
def buf_read (buf : List Nat) (p len : Nat) : List Nat :=
  (List.range len).map (fun i => buf.getD (p + i) 0)

/-- `strlcpy(dst, src, size)`: the C string at `src`, cut to `size - 1`
octets, and a closing NUL are written at the start of `dst`. -/
def strlcpy (dst src : List Nat) (size : Nat) : List Nat :=
  let w := (c_str src).take (size - 1) ++ [0]
  w ++ dst.drop w.length

/-- The realm name that `remote_answer` compares with:
`knot_dname_from_str(KNOT_CTL_REALM)`. -/
def remote_realm : List Nat := (knot_dname_from_str KNOT_CTL_REALM).getD []

/-- The command of a control query: `cmd_len = *qname` and
`cmd = strndup(qname + 1, cmd_len)`, the leftmost label. -/
def remote_answer_cmd (qname : List Nat) : List Nat :=
  let cmd_len := qname.headD 0
  strndup (qname.drop 1) cmd_len

/-- The walk of `remote_answer` over the command table: the handler of the
first item whose name is the command (`strcmp(cmd, c->name) == 0`). -/
def remote_cmd_lookup : List remote_cmd_t → List Nat → Option remote_cmdf_t
  | [], _ => none
  | c :: rest, cmd => if cmd = c.name then some c.f else remote_cmd_lookup rest cmd

/-- The first loop of the response part of `remote_answer`:
`for (; p + chunk < rlen; p += chunk) remote_send_chunk(.., resp + p, chunk)`.
It yields the final `p` and the chunks sent; `fuel` bounds the iterations. -/
def remote_answer_chunks (resp : List Nat) (rlen chunk : Nat) :
    Nat → Nat → Nat × List (List Nat)
  | 0, p => (p, [])
  | fuel + 1, p =>
    if p + chunk < rlen then
      let r := remote_answer_chunks resp rlen chunk fuel (p + chunk)
      (r.1, buf_read resp p (chunk % 65536) :: r.2)
    else (p, [])

/-- Result of `remote_answer`: return value, the server as the handler left
it and the trace. -/
structure remote_result where
  ret : Int
  server : Option server_t
  trace : List remote_event
  deriving DecidableEq, Repr

/-- The response part of `remote_answer`, from "Prepare response" to the
last `remote_send_chunk`: the chunks handed to `remote_send_chunk`, in order.
The length parameter of `remote_send_chunk` is a `uint16_t`. -/
def remote_answer_response (env : remote_env) (ret : Int) (args0 : remote_cmdargs_t) :
    List (List Nat) :=
  let args : remote_cmdargs_t :=
    if ret ≠ KNOT_EOK ∨ args0.rlen = 0 then
      { args0 with rlen := strlen (env.knot_strerror ret),
                   resp := strlcpy args0.resp (env.knot_strerror ret) CMDARGS_BUFLEN }
    else args0
  let chunk := 16384
  let l := remote_answer_chunks args.resp args.rlen chunk args.rlen 0
  let r := args.rlen - l.1
  l.2 ++ (if 0 < r then [buf_read args.resp l.1 (r % 65536)] else [])

/-- `remote_answer`. Logging (`log_command`) is left out. -/
def remote_answer (env : remote_env) (sock : Int) (s : Option server_t)
    (pkt : Option knot_pkt_t) : remote_result :=
  match s, pkt with
  | some srv, some p =>
    if sock < 0 then { ret := KNOT_EINVAL, server := s, trace := [] }
    else
      let qname := p.qname
      if p.qclass ≠ KNOT_CLASS_CH then { ret := KNOT_EMALF, server := s, trace := [] }
      else if !knot_dname_is_sub qname remote_realm then
        { ret := KNOT_EMALF, server := s, trace := [] }
      else
        let cmd := remote_answer_cmd qname
        if env.malloc = false then { ret := KNOT_ENOMEM, server := s, trace := [] }
        else
          let args : remote_cmdargs_t :=
            { arg := p.authority, argc := p.authority.length, rc := KNOT_RCODE_NOERROR,
              resp := [], rlen := 0 }
          match remote_cmd_lookup remote_cmd_tbl cmd with
          | some f =>
            let o := env.call f srv args
            { ret := o.ret, server := some o.server,
              trace := remote_event.cmd f
                :: (remote_answer_response env o.ret o.args).map remote_event.send_chunk }
          | none =>
            { ret := KNOT_EOK, server := some srv,
              trace := (remote_answer_response env KNOT_EOK args).map remote_event.send_chunk }
  | _, _ => { ret := KNOT_EINVAL, server := s, trace := [] }

/-- `remote_query`: the control query for a command, `none` for `NULL`.
`strcdup(query, KNOT_CTL_REALM_EXT)` appends the realm to the command; the
question is put with class CH and type ANY (`knot_pkt_put_question`, which
"cannot return != KNOT_EOK"). The key only reserves room for the TSIG. -/
def remote_query (env : remote_env) (query : Option (List Nat))
    (_key : Option knot_tsig_key_t) : Option knot_pkt_t :=
  match query with
  | none => none
  | some q =>
    if env.knot_pkt_new = false then none
    else
      let qname := q ++ KNOT_CTL_REALM_EXT
      match knot_dname_from_str qname with
      | none => none
      | some dname =>
        some { id := env.knot_random_uint16_t, qr := false, rcode := KNOT_RCODE_NOERROR,
               qname := dname, qclass := KNOT_CLASS_CH, qtype := KNOT_RRTYPE_ANY,
               authority := [], tsig_rr := none }

/-! ## Sample inputs

Concrete collaborators and inputs on which the definitions are evaluated. -/

/-- An A RRset `a.example.` with one address. -/
def sample_rrset : knot_rrset_t :=
  { owner := [1, 97, 7, 101, 120, 97, 109, 112, 108, 101, 0], type := 1,
    rclass := KNOT_CLASS_IN, rrs := [[192, 0, 2, 1]] }

/-- A DNSKEY RRset at `example.`. -/
def sample_dnskey : knot_rrset_t :=
  { owner := [7, 101, 120, 97, 109, 112, 108, 101, 0], type := KNOT_RRTYPE_DNSKEY,
    rclass := KNOT_CLASS_IN, rrs := [[1, 1, 3, 8, 170]] }

/-- A message with the given QTYPE and authority section. -/
def sample_pkt (qtype : Nat) (authority : List knot_rrset_t) : knot_pkt_t :=
  { id := 1, qr := false, rcode := KNOT_RCODE_NOERROR,
    qname := [7, 101, 120, 97, 109, 112, 108, 101, 0], qclass := KNOT_CLASS_IN,
    qtype := qtype, authority := authority, tsig_rr := none }

/-- An UPDATE request with the given update section; QTYPE 0 in place of SOA
makes the sample prerequisites fail. -/
def sample_request (qtype : Nat) (authority : List knot_rrset_t) : request_data :=
  { query := sample_pkt qtype authority, resp := sample_pkt qtype [] }

/-- Sample collaborators. The prerequisites fail with NXRRSET for QTYPE 0.
The update section is the authority section: its RRsets are appended to the
add list, and an empty section is refused with FORMERR. Applying a changeset
puts its add list into the apex; signing and the journal succeed; the serial
is the number of RRsets of the apex. -/
def sample_update_env : update_env :=
  { changesets_create_ddns := true,
    changesets_create_sec := true,
    ddns_process_prereqs := fun query _ =>
      if query.qtype = 0 then { ret := KNOT_ERROR, rcode := KNOT_RCODE_NXRRSET }
      else { ret := KNOT_EOK, rcode := KNOT_RCODE_NOERROR },
    ddns_process_update := fun _ query ch rcode =>
      if query.authority = [] then { ret := KNOT_EMALF, rcode := KNOT_RCODE_FORMERR, ch := ch }
      else { ret := KNOT_EOK, rcode := rcode, ch := { ch with add := ch.add ++ query.authority } },
    apply_changesets := fun zone ch =>
      match zone.contents with
      | some c => (KNOT_EOK, some { c with apex := { rrs := c.apex.rrs ++ ch.add } })
      | none => (KNOT_EOK, some { apex := { rrs := ch.add }, nodes := [] }),
    knot_dnssec_zone_sign := fun _ _ sec_ch => { ret := KNOT_EOK, sec_ch := sec_ch, refresh_at := 0 },
    knot_dnssec_sign_changeset := fun _ _ _ sec_ch =>
      { ret := KNOT_EOK, sec_ch := sec_ch, refresh_at := 0 },
    apply_changesets_directly := fun c _ => (KNOT_EOK, c),
    changeset_merge := fun ch _ => (KNOT_EOK, ch),
    zone_events_get_time := fun _ _ => 0,
    time := 0,
    zone_change_store := fun _ _ => KNOT_EOK,
    zone_contents_serial := fun c =>
      match c with
      | some c => c.apex.rrs.length
      | none => 0 }

/-- The sample collaborators when the signing changeset cannot be
allocated. -/
def sample_update_env_no_memory : update_env :=
  { sample_update_env with changesets_create_sec := false }

/-- Zone contents whose apex holds the sample DNSKEY. -/
def sample_contents_dnskey : zone_contents_t :=
  { apex := { rrs := [sample_dnskey] }, nodes := [] }

/-- Zone contents with an empty apex. -/
def sample_contents_empty : zone_contents_t :=
  { apex := { rrs := [] }, nodes := [] }

/-- Sample surroundings of `remote.c`: allocations succeed, every error
string is `OK`, and a handler returns `KNOT_EOK` and leaves the argument
block and the server as they are. -/
def sample_remote_env : remote_env :=
  { knot_pkt_new := true,
    malloc := true,
    knot_random_uint16_t := 4660,
    knot_strerror := fun _ => cstr "OK",
    call := fun _ srv args => { ret := KNOT_EOK, args := args, server := srv } }

/-- The sample surroundings when the argument block cannot be allocated. -/
def sample_remote_env_no_memory : remote_env :=
  { sample_remote_env with malloc := false }

/-- A server without zones. -/
def sample_server : server_t := { zone_db := [] }

/-- A master zone `example.` with an empty apex; the zone file is
synchronised immediately (`dbsync_timeout` 0). -/
def sample_zone (dnssec_enable : Bool) : zone_t :=
  { conf := { name := [7, 101, 120, 97, 109, 112, 108, 101, 0],
              dnssec_enable := dnssec_enable, dbsync_timeout := 0, master := none },
    contents := some { apex := { rrs := [] }, nodes := [] },
    flags := 0 }

/-! ## `knot/ctl/remote.c`: TXT records -/

/-- The loop of `remote_create_txt`,
`for (; p + K < v_len; p += K) { raw[off++] = (uint8_t)K; memcpy(raw + off, v + p, K); off += K; }`.
It yields the final `p` and the octets written to `raw`, in the order of
`off`; `fuel` bounds the iterations. The text `v` lies in memory and `raw` on
the stack, so `v_len` stays below 2^32 and the `unsigned` counters do not
wrap. -/
def remote_create_txt_loop (v : List Nat) (K : Nat) : Nat → Nat → Nat × List Nat
  | 0, p => (p, [])
  | fuel + 1, p =>
    if p + K < v.length then
      let r := remote_create_txt_loop v K fuel (p + K)
      (r.1, (K % 256) :: ((v.drop p).take K ++ r.2))
    else (p, [])

/-- The buffer `raw[0 .. v_len + chunks - 1]` that `remote_create_txt` hands
to `knot_rrset_add_rdata` for the text `v` of `v_len` octets: what the code
writes at `off`, then the zeros that `memset` left. -/
def remote_create_txt_rdata (v : List Nat) : List Nat :=
  let K := 255
  let v_len := v.length
  let chunks := v_len / K + 1
  let l := if v_len > K then remote_create_txt_loop v K v_len 0 else (0, [])
  let p := l.1
  let r := v_len - p
  let last := if r > 0 then (r % 256) :: (v.drop p).take r else []
  let written := l.2 ++ last
  written ++ List.replicate (v_len + chunks - written.length) 0

/-- Modelled from the spec: `knot_rrset_add_rdata` of `libknot/rrset.c` (not
among the sources) adds the RDATA to the RRset and returns `KNOT_EOK`. -/
def knot_rrset_add_rdata (rr : knot_rrset_t) (rdata : List Nat) : Int × knot_rrset_t :=
  (KNOT_EOK, { rr with rrs := rr.rrs ++ [rdata] })

/-- `remote_create_txt`: `KNOT_EINVAL` for a `NULL` argument, else the RDATA
is added to the RRset. -/
def remote_create_txt (rr : Option knot_rrset_t) (v : Option (List Nat)) :
    Int × Option knot_rrset_t :=
  match rr, v with
  | some rr, some v =>
    let a := knot_rrset_add_rdata rr (remote_create_txt_rdata v)
    (a.1, some a.2)
  | _, _ => (KNOT_EINVAL, rr)

/-- The loop of `remote_print_txt` over an RDATA of `rlen` octets:
`while (parsed < rlen) { memcpy(buf, p + 1, *p); buf[*p] = 0; printf("%s", buf); parsed += *p + 1; p += *p + 1; }`.
`parsed` is a `uint16_t`, `p` is the offset of the pointer into the RDATA;
`printf("%s")` prints the octets before the first NUL. It yields the octets
printed. The result is `none` when a round reads outside the RDATA, or when
the loop has not ended after `fuel` rounds. -/
def remote_print_txt_loop (rdata : List Nat) (rlen : Nat) : Nat → Nat → Nat → Option (List Nat)
  | 0, _, _ => none
  | fuel + 1, parsed, p =>
    if parsed < rlen then
      match rdata.get? p with
      | none => none
      | some len =>
        if p + 1 + len ≤ rdata.length then
          let buf := (rdata.drop (p + 1)).take len
          (remote_print_txt_loop rdata rlen fuel ((parsed + (len + 1)) % 65536)
            (p + (len + 1))).map (fun out => c_str buf ++ out)
        else none
    else some []

/-- What `remote_print_txt` prints for an RDATA: `rlen` is the `uint16_t`
that holds the RDATA length. A loop whose `parsed` does not wrap around ends
within `rlen` rounds, each round adding 1 or more. -/
def remote_print_txt_rdata (rdata : List Nat) : Option (List Nat) :=
  remote_print_txt_loop rdata (rdata.length % 65536) (rdata.length % 65536 + 1) 0 0

/-- `remote_print_txt`: return value and the octets printed. The result is
`none` when the RRset has no RDATA number `i` (`knot_rdataset_at` has nothing
to hand out) or the loop reads outside the RDATA. -/
def remote_print_txt (rr : Option knot_rrset_t) (i : Nat) : Option (Int × List Nat) :=
  match rr with
  | none => some (-1, [])
  | some rr =>
    if rr.rrs.length < 1 then some (-1, [])
    else
      match rr.rrs.get? i with
      | none => none
      | some rdata => (remote_print_txt_rdata rdata).map (fun out => (KNOT_EOK, out))

/-- A length-prefixed character string: the length octet, then the string. -/
def txt_string (s : List Nat) : List Nat := s.length :: s

/-- The RDATA made of the given character strings, one after the other. -/
def txt_rdata (strs : List (List Nat)) : List Nat := (strs.map txt_string).flatten

/-- `remote_build_rr`: `KNOT_EINVAL` for a `NULL` key, `KNOT_ENOMEM` when
the key is no name, else an empty RRset of class CH with the key as owner. -/
def remote_build_rr (k : Option (List Nat)) (t : Nat) : Int × Option knot_rrset_t :=
  match k with
  | none => (KNOT_EINVAL, none)
  | some k =>
    match knot_dname_from_str k with
    | none => (KNOT_ENOMEM, none)
    | some key => (KNOT_EOK, some { owner := key, type := t, rclass := KNOT_CLASS_CH, rrs := [] })

/-- The empty TXT RRset `result.` of class CH. -/
def sample_result_rr : knot_rrset_t :=
  { owner := [6, 114, 101, 115, 117, 108, 116, 0], type := KNOT_RRTYPE_TXT,
    rclass := KNOT_CLASS_CH, rrs := [] }

/-! ## `knot/ctl/remote.c`: zone callbacks and command handlers -/

/-- Modelled from the spec: `ZONE_FORCE_AXFR` of `knot/zone/zone.h` (not among
the sources), the flag bit 0 that forces an AXFR as the next transfer. -/
def ZONE_FORCE_AXFR : Nat := 1

/-- Modelled from the spec: `ZONE_FORCE_RESIGN` of `knot/zone/zone.h`, the
flag bit 1 that forces a resign of the zone. -/
def ZONE_FORCE_RESIGN : Nat := 2

/-- Modelled from the spec: `zone_master` of `knot/zone/zone.h` (not among
the sources): the master of the zone, `none` for a zone without a master and
for `NULL`. -/
def zone_master (zone : Option zone_t) : Option Nat :=
  match zone with
  | none => none
  | some z => z.conf.master

/-- What a zone callback leaves: its return value, the zone and the events
it put on the zone's schedule, with their times. -/
structure zone_cb_out where
  ret : Int
  zone : Option zone_t
  sched : List (zone_event_type_t × Int)
  deriving DecidableEq, Repr

/-- `remote_zone_refresh`. -/
def remote_zone_refresh (zone : Option zone_t) : zone_cb_out :=
  if zone_master zone = none then { ret := KNOT_EINVAL, zone := zone, sched := [] }
  else
    { ret := KNOT_EOK, zone := zone,
      sched := [(zone_event_type_t.ZONE_EVENT_REFRESH, ZONE_EVENT_NOW)] }

/-- `remote_zone_retransfer`. -/
def remote_zone_retransfer (zone : Option zone_t) : zone_cb_out :=
  if zone_master zone = none then { ret := KNOT_EINVAL, zone := zone, sched := [] }
  else
    { ret := KNOT_EOK,
      zone := zone.map (fun z => { z with flags := z.flags ||| ZONE_FORCE_AXFR }),
      sched := [(zone_event_type_t.ZONE_EVENT_XFER, ZONE_EVENT_NOW)] }

/-- `remote_zone_flush`. -/
def remote_zone_flush (zone : Option zone_t) : zone_cb_out :=
  match zone with
  | none => { ret := KNOT_EINVAL, zone := none, sched := [] }
  | some z =>
    { ret := KNOT_EOK, zone := some z,
      sched := [(zone_event_type_t.ZONE_EVENT_FLUSH, ZONE_EVENT_NOW)] }

/-- `remote_zone_sign`. -/
def remote_zone_sign (zone : Option zone_t) : zone_cb_out :=
  match zone with
  | none => { ret := KNOT_EINVAL, zone := none, sched := [] }
  | some z =>
    if !z.conf.dnssec_enable then { ret := KNOT_EINVAL, zone := some z, sched := [] }
    else
      { ret := KNOT_EOK, zone := some { z with flags := z.flags ||| ZONE_FORCE_RESIGN },
        sched := [(zone_event_type_t.ZONE_EVENT_DNSSEC, ZONE_EVENT_NOW)] }

/-- An event on the schedule of a zone of the database: the place of the
zone in the database, the event type and the time. -/
structure zone_sched where
  zone : Nat
  type : zone_event_type_t
  time : Int
  deriving DecidableEq, Repr

/-- Modelled from the spec: `knot_zonedb_find` of `knot/zone/zonedb.c` (not
among the sources): the place of the zone with the given name, `none` when
the database has no such zone. -/
def knot_zonedb_find : List zone_t → List Nat → Option Nat
  | [], _ => none
  | z :: rest, dn =>
    if z.conf.name = dn then some 0 else (knot_zonedb_find rest dn).map (fun i => i + 1)

/-- What a command handler leaves, with the events put on the schedules of
the zones: return value, argument block, server and events. -/
structure remote_handler_out where
  ret : Int
  args : remote_cmdargs_t
  server : server_t
  sched : List zone_sched
  deriving DecidableEq, Repr

/-- One call `cb(zone)` on the zone at the given place of the database
(`NULL` for no place): the return value, the database and the events. A
callback reaches a zone only through its pointer, so the other zones stay. -/
def zone_cb_apply (cb : Option zone_t → zone_cb_out) (db : List zone_t) (i : Option Nat) :
    Int × List zone_t × List zone_sched :=
  match i with
  | none => ((cb none).ret, db, [])
  | some i =>
    match db.get? i with
    | none => ((cb none).ret, db, [])
    | some z =>
      let o := cb (some z)
      (o.ret, db.set i (o.zone.getD z),
        o.sched.map (fun e => { zone := i, type := e.1, time := e.2 }))

/-- Modelled from the spec: `knot_zonedb_foreach` of `knot/zone/zonedb.h`
(not among the sources) calls the function once on every zone of the
database, in order, and drops the return values. It yields the database and
the events. -/
def knot_zonedb_foreach (cb : Option zone_t → zone_cb_out) (db : List zone_t) :
    List zone_t × List zone_sched :=
  (db.map (fun z => (cb (some z)).zone.getD z),
   (db.enum.map (fun iz =>
      (cb (some iz.2)).sched.map (fun e => { zone := iz.1, type := e.1, time := e.2 }))).flatten)

/-- The inner loop of `remote_rdata_apply` over the RDATA of one NS RRset:
`zone = knot_zonedb_find(s->zone_db, dn); if (cb(zone) != KNOT_EOK) a->rc = KNOT_RCODE_SERVFAIL;`
where `dn = knot_ns_name(&rr->rrs, i)` is the name that is the RDATA. It
yields the database, `a->rc` and the events. -/
def remote_rdata_apply_rr (cb : Option zone_t → zone_cb_out) :
    List (List Nat) → List zone_t → Nat → List zone_t × Nat × List zone_sched
  | [], db, rc => (db, rc, [])
  | dn :: rest, db, rc =>
    let o := zone_cb_apply cb db (knot_zonedb_find db dn)
    let rc := if o.1 ≠ KNOT_EOK then KNOT_RCODE_SERVFAIL else rc
    let r := remote_rdata_apply_rr cb rest o.2.1 rc
    (r.1, r.2.1, o.2.2 ++ r.2.2)

/-- The outer loop of `remote_rdata_apply` over the RRsets at `a->arg`: an
RRset of a type other than NS is skipped. -/
def remote_rdata_apply_loop (cb : Option zone_t → zone_cb_out) :
    List knot_rrset_t → List zone_t → Nat → List zone_t × Nat × List zone_sched
  | [], db, rc => (db, rc, [])
  | rr :: rest, db, rc =>
    if rr.type ≠ KNOT_RRTYPE_NS then remote_rdata_apply_loop cb rest db rc
    else
      let o := remote_rdata_apply_rr cb rr.rrs db rc
      let r := remote_rdata_apply_loop cb rest o.1 o.2.1
      (r.1, r.2.1, o.2.2 ++ r.2.2)

/-- `remote_rdata_apply`: `KNOT_EINVAL` for a `NULL` argument; else the
callback is applied to the zone of every RDATA of the NS RRsets among
`a->arg[0 .. a->argc - 1]` and the result is `KNOT_EOK`. It yields the return
value, the server, the argument block and the events. `a->arg` holds
`a->argc` RRsets, as `remote_answer` sets both from the authority section. -/
def remote_rdata_apply (s : Option server_t) (a : Option remote_cmdargs_t)
    (cb : Option (Option zone_t → zone_cb_out)) :
    Int × Option server_t × Option remote_cmdargs_t × List zone_sched :=
  match s, a, cb with
  | some s, some a, some cb =>
    let r := remote_rdata_apply_loop cb (a.arg.take a.argc) s.zone_db a.rc
    (KNOT_EOK, some { s with zone_db := r.1 }, some { a with rc := r.2.1 }, r.2.2)
  | _, _, _ => (KNOT_EINVAL, s, a, [])

/-- What a handler leaves after `return remote_rdata_apply(s, a, cb)`. -/
def remote_rdata_apply_out (s : server_t) (a : remote_cmdargs_t)
    (cb : Option zone_t → zone_cb_out) : remote_handler_out :=
  let r := remote_rdata_apply (some s) (some a) (some cb)
  { ret := r.1, args := r.2.2.1.getD a, server := r.2.1.getD s, sched := r.2.2.2 }

/-- `remote_c_refresh`: without arguments every zone is refreshed and the
result is `KNOT_EOK`, else the zones of the arguments are refreshed. -/
def remote_c_refresh (s : server_t) (a : remote_cmdargs_t) : remote_handler_out :=
  if a.argc = 0 then
    let r := knot_zonedb_foreach remote_zone_refresh s.zone_db
    { ret := KNOT_EOK, args := a, server := { s with zone_db := r.1 }, sched := r.2 }
  else remote_rdata_apply_out s a remote_zone_refresh

/-- `remote_c_retransfer`: `KNOT_ENOTSUP` without arguments. -/
def remote_c_retransfer (s : server_t) (a : remote_cmdargs_t) : remote_handler_out :=
  if a.argc = 0 then { ret := KNOT_ENOTSUP, args := a, server := s, sched := [] }
  else remote_rdata_apply_out s a remote_zone_retransfer

/-- `remote_c_signzone`: `KNOT_ENOTSUP` without arguments. -/
def remote_c_signzone (server : server_t) (arguments : remote_cmdargs_t) :
    remote_handler_out :=
  if arguments.argc = 0 then
    { ret := KNOT_ENOTSUP, args := arguments, server := server, sched := [] }
  else remote_rdata_apply_out server arguments remote_zone_sign

/-- `remote_c_stop`. -/
def remote_c_stop (s : server_t) (a : remote_cmdargs_t) : remote_handler_out :=
  { ret := KNOT_CTL_STOP, args := a, server := s, sched := [] }

/-- `remote_c_status`. -/
def remote_c_status (s : server_t) (a : remote_cmdargs_t) : remote_handler_out :=
  { ret := KNOT_EOK, args := a, server := s, sched := [] }

/-- A slave zone `example.` of master 1 with an empty apex. -/
def sample_slave_zone : zone_t :=
  { sample_zone false with conf := { (sample_zone false).conf with master := some 1 } }

/-- A slave zone `other.` of master 1 with an empty apex. -/
def sample_other_zone : zone_t :=
  { sample_zone false with
    conf := { (sample_zone false).conf with name := [5, 111, 116, 104, 101, 114, 0],
                                            master := some 1 } }

/-- An NS RRset of class CH whose one RDATA names `example.`. -/
def sample_ns_example : knot_rrset_t :=
  { owner := [0], type := KNOT_RRTYPE_NS, rclass := KNOT_CLASS_CH,
    rrs := [[7, 101, 120, 97, 109, 112, 108, 101, 0]] }

/-- The argument block that `remote_answer` builds from an authority
section. -/
def sample_cmdargs (authority : List knot_rrset_t) : remote_cmdargs_t :=
  { arg := authority, argc := authority.length, rc := KNOT_RCODE_NOERROR, resp := [], rlen := 0 }

/-! ## `knot/ctl/remote.c`: sending the response -/

/-- What `remote_send_chunk` takes from outside: whether `knot_pkt_new`
gives a response packet, the return values of `knot_pkt_init_response` and
`knot_pkt_put`, and the return value of `tcp_send_msg` for a socket and a
message. -/
structure remote_io_env where
  knot_pkt_new : Bool
  knot_pkt_init_response : Int
  knot_pkt_put : Int
  tcp_send_msg : Int → knot_pkt_t → Int

/-- Modelled from the spec: the response that `knot_pkt_init_response` of
`libknot/packet/pkt.c` (not among the sources) sets up for a query: the ID
and the question of the query, QR set, empty sections. -/
def knot_pkt_init_response (query : knot_pkt_t) : knot_pkt_t :=
  { query with qr := true, authority := [], tsig_rr := none }

/-- `remote_send_chunk(c, query, d, len)`, with `d` the `len` octets of the
chunk: the return value and the message handed to `tcp_send_msg`, if any.
The response holds one TXT RRset `result.` in the authority section
(`knot_pkt_begin(resp, KNOT_AUTHORITY)` returns `KNOT_EOK`, as the code
asserts; a successful `knot_pkt_put` adds the RRset to that section). The
result is `none` when the assertion on `remote_create_txt` fails. -/
def remote_send_chunk (io : remote_io_env) (c : Int) (query : knot_pkt_t) (d : List Nat) :
    Option (Int × Option knot_pkt_t) :=
  if io.knot_pkt_new = false then some (KNOT_ENOMEM, none)
  else if io.knot_pkt_init_response ≠ KNOT_EOK then some (io.knot_pkt_init_response, none)
  else
    let resp := knot_pkt_init_response query
    let b := remote_build_rr (some (cstr "result.")) KNOT_RRTYPE_TXT
    if b.1 ≠ KNOT_EOK then some (b.1, none)
    else
      let t := remote_create_txt b.2 (some d)
      if t.1 ≠ KNOT_EOK then none
      else if io.knot_pkt_put ≠ KNOT_EOK then some (io.knot_pkt_put, none)
      else
        let resp := { resp with authority := resp.authority ++ t.2.toList }
        some (io.tcp_send_msg c resp, some resp)

/-- The "Prepare response" step of `remote_answer`: after an error, or when
the handler left no text, the text is the error string of `ret`. -/
def remote_answer_prepare (env : remote_env) (ret : Int) (args0 : remote_cmdargs_t) :
    remote_cmdargs_t :=
  if ret ≠ KNOT_EOK ∨ args0.rlen = 0 then
    { args0 with rlen := strlen (env.knot_strerror ret),
                 resp := strlcpy args0.resp (env.knot_strerror ret) CMDARGS_BUFLEN }
  else args0

/-- The messages that the response part of `remote_answer` hands to
`tcp_send_msg`, in order: one for each call of `remote_send_chunk` that gets
as far as `tcp_send_msg`. The return value of `remote_send_chunk` is
dropped. -/
def remote_answer_sent (env : remote_env) (io : remote_io_env) (sock : Int)
    (query : knot_pkt_t) (ret : Int) (args0 : remote_cmdargs_t) : List knot_pkt_t :=
  (remote_answer_response env ret args0).filterMap
    (fun d => (remote_send_chunk io sock query d).bind (fun r => r.2))

/-- Sample surroundings of `remote_send_chunk`: every step succeeds and
`tcp_send_msg` reports 1 octet sent. -/
def sample_remote_io_env : remote_io_env :=
  { knot_pkt_new := true, knot_pkt_init_response := KNOT_EOK, knot_pkt_put := KNOT_EOK,
    tcp_send_msg := fun _ _ => 1 }

/-- The sample surroundings when no response packet can be allocated. -/
def sample_remote_io_env_no_memory : remote_io_env :=
  { sample_remote_io_env with knot_pkt_new := false }

/-- A control query `status.knot.` of class CH. -/
def sample_ctl_query : knot_pkt_t :=
  { id := 4660, qr := false, rcode := KNOT_RCODE_NOERROR,
    qname := [6, 115, 116, 97, 116, 117, 115, 4, 107, 110, 111, 116, 0],
    qclass := KNOT_CLASS_CH, qtype := KNOT_RRTYPE_ANY, authority := [], tsig_rr := none }

/-- An argument block whose response text is `OK`. -/
def sample_cmdargs_ok : remote_cmdargs_t :=
  { arg := [], argc := 0, rc := KNOT_RCODE_NOERROR, resp := [79, 75], rlen := 2 }

/-! ## `knot/ctl/remote.c`: TSIG verification and `remote_process` -/

/-- TSIG errors of `libknot/errcode.h`. -/
def KNOT_TSIG_EBADSIG : Int := -9946

/-- The TSIG key is not the right one. -/
def KNOT_TSIG_EBADKEY : Int := -9945

/-- The time signed is outside the allowed window. -/
def KNOT_TSIG_EBADTIME : Int := -9944

/-- Connection refused (`-ECONNREFUSED`). -/
def KNOT_ECONNREFUSED : Int := -111

def KNOT_RCODE_BADSIG : Nat := 16
def KNOT_RCODE_BADKEY : Nat := 17
def KNOT_RCODE_BADTIME : Nat := 18

/-- What TSIG verification takes from outside (`libknot/tsig.h`,
`libknot/tsig-op.h`, `libknot/dname.h`): the algorithm, MAC length and time
signed of a TSIG record, the digest length of an algorithm (0 for an
algorithm that is not supported), the name comparison (0 for equal names),
and the check of the TSIG of a message with a key. -/
structure tsig_env where
  tsig_rdata_alg : knot_rrset_t → Nat
  knot_tsig_digest_length : Nat → Nat
  knot_dname_cmp : List Nat → List Nat → Int
  tsig_rdata_mac_length : knot_rrset_t → Nat
  tsig_rdata_time_signed : knot_rrset_t → Nat
  knot_tsig_server_check : knot_rrset_t → knot_pkt_t → knot_tsig_key_t → Int

/-- The trace of TSIG verification: each call of `knot_tsig_server_check`
with its return value. -/
inductive tsig_event where
  | knot_tsig_server_check (ret : Int)
  deriving DecidableEq, Repr

/-- What `zones_verify_tsig_query` leaves: the return value, the values
behind `rcode`, `tsig_rcode` and `tsig_prev_time_signed`, and the trace. -/
structure tsig_verify_out where
  ret : Int
  rcode : Nat
  tsig_rcode : Nat
  tsig_prev_time_signed : Nat
  trace : List tsig_event
  deriving DecidableEq, Repr

/-- `zones_verify_tsig_query`. The last three arguments are the values
behind the pointers `rcode`, `tsig_rcode` and `tsig_prev_time_signed` at the
call. The result is `none` when `assert(query != NULL)` or
`assert(key != NULL)` fails. -/
def zones_verify_tsig_query (env : tsig_env) (query : Option knot_pkt_t)
    (key : Option knot_tsig_key_t) (_rcode tsig_rcode tsig_prev_time_signed : Nat) :
    Option tsig_verify_out :=
  match query, key with
  | some query, some key =>
    match query.tsig_rr with
    | none =>
      some { ret := KNOT_TSIG_EBADKEY, rcode := KNOT_RCODE_REFUSED, tsig_rcode := tsig_rcode,
             tsig_prev_time_signed := tsig_prev_time_signed, trace := [] }
    | some tsig_rr =>
      let alg := env.tsig_rdata_alg tsig_rr
      if env.knot_tsig_digest_length alg = 0 then
        some { ret := KNOT_TSIG_EBADKEY, rcode := KNOT_RCODE_NOTAUTH,
               tsig_rcode := KNOT_RCODE_BADKEY,
               tsig_prev_time_signed := tsig_prev_time_signed, trace := [] }
      else
        let kname := tsig_rr.owner
        if ¬ (env.knot_dname_cmp key.name kname = 0 ∧ key.algorithm = alg) then
          some { ret := KNOT_TSIG_EBADKEY, rcode := KNOT_RCODE_NOTAUTH,
                 tsig_rcode := KNOT_RCODE_BADKEY,
                 tsig_prev_time_signed := tsig_prev_time_signed, trace := [] }
        else
          let digest_max_size := env.knot_tsig_digest_length key.algorithm
          let mac_len := env.tsig_rdata_mac_length tsig_rr
          if mac_len > digest_max_size then
            some { ret := KNOT_EMALF, rcode := KNOT_RCODE_FORMERR, tsig_rcode := tsig_rcode,
                   tsig_prev_time_signed := tsig_prev_time_signed, trace := [] }
          else
            let ret := env.knot_tsig_server_check tsig_rr query key
            let trace := [tsig_event.knot_tsig_server_check ret]
            if ret = KNOT_EOK then
              some { ret := ret, rcode := KNOT_RCODE_NOERROR, tsig_rcode := tsig_rcode,
                     tsig_prev_time_signed := tsig_prev_time_signed, trace := trace }
            else if ret = KNOT_TSIG_EBADKEY then
              some { ret := ret, rcode := KNOT_RCODE_NOTAUTH, tsig_rcode := KNOT_RCODE_BADKEY,
                     tsig_prev_time_signed := tsig_prev_time_signed, trace := trace }
            else if ret = KNOT_TSIG_EBADSIG then
              some { ret := ret, rcode := KNOT_RCODE_NOTAUTH, tsig_rcode := KNOT_RCODE_BADSIG,
                     tsig_prev_time_signed := tsig_prev_time_signed, trace := trace }
            else if ret = KNOT_TSIG_EBADTIME then
              some { ret := ret, rcode := KNOT_RCODE_NOTAUTH, tsig_rcode := KNOT_RCODE_BADTIME,
                     tsig_prev_time_signed := env.tsig_rdata_time_signed tsig_rr,
                     trace := trace }
            else if ret = KNOT_EMALF then
              some { ret := ret, rcode := KNOT_RCODE_FORMERR, tsig_rcode := tsig_rcode,
                     tsig_prev_time_signed := tsig_prev_time_signed, trace := trace }
            else
              some { ret := ret, rcode := KNOT_RCODE_SERVFAIL, tsig_rcode := tsig_rcode,
                     tsig_prev_time_signed := tsig_prev_time_signed, trace := trace }
  | _, _ => none

/-- The address family `AF_UNIX`. -/
def AF_UNIX : Nat := 1

/-- The address family `AF_INET`. -/
def AF_INET : Nat := 2

/-- `conf_iface_t`: a configured interface or ACL entry, with the family of
its address and its TSIG key, if any. -/
structure conf_iface_t where
  family : Nat
  key : Option knot_tsig_key_t
  deriving DecidableEq, Repr

/-- What `remote_process` takes from outside: the return values of
`tcp_accept`, `getpeername` and `tcp_recv_msg`, the address of the peer, the
return value of `knot_pkt_parse` with the message as parsed, and the entry
that `acl_find` gives in the control ACL for an address and a key name. -/
structure remote_process_env where
  tcp_accept : Int
  getpeername : Int
  tcp_recv_msg : Int
  peer : Nat
  knot_pkt_parse : Int × knot_pkt_t
  acl_find : Nat → Option (List Nat) → Option conf_iface_t

/-- `remote_recv`: the client socket, or an error. -/
def remote_recv (penv : remote_process_env) : Int :=
  let c := penv.tcp_accept
  if c < 0 then c
  else if penv.getpeername ≠ 0 then KNOT_ECONNREFUSED
  else
    let n := penv.tcp_recv_msg
    if n ≤ 0 then KNOT_ECONNREFUSED
    else c

/-- `remote_parse`: the return value of `knot_pkt_parse` and the message. -/
def remote_parse (penv : remote_process_env) : Int × knot_pkt_t := penv.knot_pkt_parse

/-- Modelled from the spec: `knot_wire_set_qr` of `libknot/packet/wire.h`
(not among the sources) sets the QR bit in the header of the message. -/
def knot_wire_set_qr (pkt : knot_pkt_t) : knot_pkt_t := { pkt with qr := true }

/-- `remote_senderr`: the message handed to `tcp_send_msg`, which is the
query with QR set and RCODE REFUSED. -/
def remote_senderr (pkt : knot_pkt_t) : knot_pkt_t :=
  knot_wire_set_rcode (knot_wire_set_qr pkt) KNOT_RCODE_REFUSED

/-- What `remote_process` leaves: the return value, the error replies sent
by `remote_senderr`, and the result of the call of `remote_answer`, if the
call was made. -/
structure remote_process_out where
  ret : Int
  replies : List knot_pkt_t
  answer : Option remote_result
  deriving DecidableEq, Repr

/-- `remote_process`. The result is `none` when an assertion of
`zones_verify_tsig_query` fails. -/
def remote_process (env : remote_env) (penv : remote_process_env) (tenv : tsig_env)
    (s : Option server_t) (ctl_if : conf_iface_t) (_sock : Int) : Option remote_process_out :=
  if env.knot_pkt_new = false then some { ret := KNOT_ENOMEM, replies := [], answer := none }
  else
    let client := remote_recv penv
    if client < 0 then some { ret := client, replies := [], answer := none }
    else
      let parsed := remote_parse penv
      let ret := parsed.1
      let pkt := parsed.2
      let answer : Int → Option remote_process_out := fun ret =>
        if ret = KNOT_EOK then
          let r := remote_answer env client s (some pkt)
          some { ret := r.ret, replies := [], answer := some r }
        else some { ret := ret, replies := [], answer := none }
      let denied : Option remote_process_out :=
        some { ret := KNOT_EACCES, replies := [remote_senderr pkt], answer := none }
      if ret = KNOT_EOK ∧ ctl_if.family ≠ AF_UNIX then
        let tsig_name := pkt.tsig_rr.map (fun rr => rr.owner)
        match penv.acl_find penv.peer tsig_name with
        | none => denied
        | some m =>
          match m.key with
          | none => answer ret
          | some tsig_key =>
            if pkt.tsig_rr = none then denied
            else
              match zones_verify_tsig_query tenv (some pkt) (some tsig_key) 0 0 0 with
              | none => none
              | some v => if v.ret ≠ KNOT_EOK then denied else answer v.ret
      else answer ret

/-- A TSIG key `key.` with algorithm 161. -/
def sample_key : knot_tsig_key_t :=
  { name := [3, 107, 101, 121, 0], algorithm := 161, secret := [1, 2, 3] }

/-- A TSIG record of `key.`; the RDATA is the algorithm, the MAC length,
the time signed and a mark that the checks of the samples read: 0 for a
valid signature, 1 for a wrong MAC, 2 for a time signed outside the
window. -/
def sample_tsig_rr (mac_len time_signed mark : Nat) : knot_rrset_t :=
  { owner := [3, 107, 101, 121, 0], type := 250, rclass := 255,
    rrs := [[161, mac_len, time_signed, mark]] }

/-- Sample TSIG surroundings: the fields of a TSIG record are the octets of
its RDATA, algorithm 161 has digests of 20 octets and is the only one
supported, names are equal when their octets are, and the check reads the
mark of the record. -/
def sample_tsig_env : tsig_env :=
  { tsig_rdata_alg := fun rr => (rr.rrs.headD []).getD 0 0,
    knot_tsig_digest_length := fun alg => if alg = 161 then 20 else 0,
    knot_dname_cmp := fun a b => if a = b then 0 else 1,
    tsig_rdata_mac_length := fun rr => (rr.rrs.headD []).getD 1 0,
    tsig_rdata_time_signed := fun rr => (rr.rrs.headD []).getD 2 0,
    knot_tsig_server_check := fun rr _ _ =>
      if (rr.rrs.headD []).getD 3 0 = 0 then KNOT_EOK
      else if (rr.rrs.headD []).getD 3 0 = 1 then KNOT_TSIG_EBADSIG
      else KNOT_TSIG_EBADTIME }

/-- The control query `status.knot.` signed with the given TSIG record. -/
def sample_signed_query (tsig_rr : knot_rrset_t) : knot_pkt_t :=
  { sample_ctl_query with tsig_rr := some tsig_rr }

/-- Sample surroundings of `remote_process`: the connection of client 7 is
accepted and the given query is received and parsed; the control ACL holds
one entry, for every address, with the sample key. -/
def sample_process_env (query : knot_pkt_t) : remote_process_env :=
  { tcp_accept := 7, getpeername := 0, tcp_recv_msg := 64, peer := 1,
    knot_pkt_parse := (KNOT_EOK, query),
    acl_find := fun _ _ => some { family := AF_INET, key := some sample_key } }

/-- A control interface bound to an IPv4 address. -/
def sample_ctl_if : conf_iface_t := { family := AF_INET, key := none }

/-! ## `knot/server/xfr-handler.c` -/

/-- Modelled from the spec: the codes of `knot/other/error.h` and
`libknot/util/error.h`, which `xfr-handler.c` uses and which are not among
the sources. Only the facts that `KNOTD_EOK` is 0, that the errors are
negative and that they are pairwise distinct are used. -/
def KNOTD_EOK : Int := 0

/-- Invalid parameter (`-EINVAL`). -/
def KNOTD_EINVAL : Int := -22

/-- Connection refused (`-ECONNREFUSED`). -/
def KNOTD_ECONNREFUSED : Int := -111

/-- Invalid argument, in `libknot`. -/
def KNOT_EBADARG : Int := -9998

/-- No transfer is needed. -/
def KNOT_ENOXFR : Int := -9978

/-- The answer to an IXFR query is an AXFR-style transfer. -/
def KNOT_ENOIXFR : Int := -9977

/-- The master refused the transfer. -/
def KNOT_EXFRREFUSED : Int := -9976

/-- Connection error. -/
def KNOT_ECONN : Int := -9974

/-- The transfer types of `knot_ns_xfr_type_t`. -/
inductive knot_ns_xfr_type_t where
  | XFR_TYPE_AIN
  | XFR_TYPE_AOUT
  | XFR_TYPE_IIN
  | XFR_TYPE_IOUT
  | XFR_TYPE_SOA
  | XFR_TYPE_NOTIFY
  | XFR_TYPE_CLOSE
  deriving DecidableEq, Repr

/-- The parts of a `knot_packet_t` that `xfr_check_tsig` reads: the wire
format and the RRsets of the additional section. -/
structure knot_packet_t where
  wireformat : List Nat
  additional : List knot_rrset_t
  deriving DecidableEq, Repr

/-- The parts of a `knot_zone_t` that `xfr-handler.c` reads: the name and the
contents, a pointer that may be `NULL`. -/
structure knot_zone_t where
  name : List Nat
  contents : Option Nat
  deriving DecidableEq, Repr

/-- The fields of a transfer task `knot_ns_xfr_t` that the modelled functions
read or write. The pointers `zone`, `data`, `digest` and `tsig_data` may be
`NULL`; `msgpref` is the buffer of the message prefix. -/
structure knot_ns_xfr_t where
  type : knot_ns_xfr_type_t
  flags : Nat
  zone : Option knot_zone_t
  msgpref : List Nat
  data : Option Nat
  wire_size : Nat
  query : knot_packet_t
  rcode : Nat
  tsig_key : Option knot_tsig_key_t
  tsig_rcode : Nat
  tsig_prev_time_signed : Nat
  tsig_size : Nat
  digest : Option (List Nat)
  digest_size : Nat
  digest_max_size : Nat
  tsig_data : Option (List Nat)
  tsig_data_size : Nat
  deriving DecidableEq, Repr

/-- An IXFR/IN task for the zone `example.` with the sample key; the query
carries the given RRsets in its additional section. -/
def sample_xfr (additional : List knot_rrset_t) : knot_ns_xfr_t :=
  { type := knot_ns_xfr_type_t.XFR_TYPE_IIN, flags := 0,
    zone := some { name := [7, 101, 120, 97, 109, 112, 108, 101, 0], contents := some 1 },
    msgpref := cstr "IXFR transfer of 'example.' with '192.0.2.1@53':",
    data := none, wire_size := 0,
    query := { wireformat := [], additional := additional },
    rcode := 0, tsig_key := some sample_key, tsig_rcode := 0, tsig_prev_time_signed := 0,
    tsig_size := 0, digest := none, digest_size := 0, digest_max_size := 0,
    tsig_data := none, tsig_data_size := 0 }

/-- What a packet-processing function of `libknot` leaves: its return value
and the fields `data` and `flags` of the task as it set them. -/
structure xfr_step where
  ret : Int
  data : Option Nat
  flags : Nat
  deriving DecidableEq, Repr

/-- What `xfr_process_event` and the functions it calls take from outside:
the return values of `recvfrom` and `tcp_recv`, the packet-processing
functions of `libknot`, `xfrin_create_axfr_query` for a zone name and a task
with its return value and the size of the query, the `send` function of the
task for a number of octets, and the functions of `zones.c` and `libknot`
that store and publish a finished transfer. -/
structure xfr_env where
  recvfrom : Int
  tcp_recv : Int
  knot_ns_process_axfrin : knot_ns_xfr_t → xfr_step
  knot_ns_process_ixfrin : knot_ns_xfr_t → xfr_step
  xfrin_create_axfr_query : List Nat → knot_ns_xfr_t → Int × Nat
  send : knot_ns_xfr_t → Nat → Int
  zones_save_zone : knot_ns_xfr_t → Int
  knot_ns_switch_zone : knot_ns_xfr_t → Int
  zones_store_changesets : knot_ns_xfr_t → Int
  zones_apply_changesets : knot_ns_xfr_t → Int

/-- The trace of the transfer functions: calls of collaborators with their
return values (for `send` also the number of octets to send), the entry into
`xfr_xfrin_finalize` and `xfr_xfrin_cleanup`, and what the functions do to
the zone data and the event queue. -/
inductive xfr_event where
  | recvfrom (n : Int)
  | udp_handle
  | soa_pending_clear
  | evsched_cancel
  | evsched_event_free
  | evqueue_write
  | tcp_recv (rcvd : Int)
  | knot_ns_process_axfrin (ret : Int)
  | knot_ns_process_ixfrin (ret : Int)
  | xfrin_create_axfr_query (ret : Int)
  | send (ret : Int) (bufsize : Nat)
  | xfr_xfrin_finalize
  | xfr_xfrin_cleanup
  | zones_save_zone (ret : Int)
  | knot_ns_switch_zone (ret : Int)
  | zones_store_changesets (ret : Int)
  | zones_apply_changesets (ret : Int)
  | knot_free_changesets
  | bootstrap_retry
  | zones_timers_update
  deriving DecidableEq, Repr

/-- What a transfer function leaves: return value, task and trace. -/
structure xfr_result where
  ret : Int
  data : knot_ns_xfr_t
  trace : List xfr_event
  deriving DecidableEq, Repr

/-- `xfr_process_udp_query`: the response to a SOA query or a NOTIFY is
received and handled, the timeout event behind `data->data` is cancelled and
freed, and the close of the task is queued. -/
def xfr_process_udp_query (env : xfr_env) (data : knot_ns_xfr_t) : xfr_result :=
  let n := env.recvfrom
  let tr := [xfr_event.recvfrom n] ++ (if n > 0 then [xfr_event.udp_handle] else [])
  let tr := tr ++ (if data.type = knot_ns_xfr_type_t.XFR_TYPE_SOA ∧ data.zone ≠ none
                   then [xfr_event.soa_pending_clear] else [])
  if data.data ≠ none then
    { ret := KNOTD_EOK, data := { data with data := none },
      trace := tr ++ [xfr_event.evsched_cancel, xfr_event.evsched_event_free,
                      xfr_event.evqueue_write] }
  else { ret := KNOTD_EOK, data := data, trace := tr }

/-- `xfr_xfrin_cleanup`: the data of a pending transfer is freed. For
AXFR/IN `data->data` is `NULL` afterwards (modelled from the spec for the
branch that calls `knot_zone_contents_deep_free` on it); for IXFR/IN the
changesets are freed and the pointer stays. -/
def xfr_xfrin_cleanup (data : knot_ns_xfr_t) : xfr_result :=
  match data.type with
  | knot_ns_xfr_type_t.XFR_TYPE_AIN =>
    { ret := KNOTD_EOK, data := { data with data := none },
      trace := [xfr_event.xfr_xfrin_cleanup] }
  | knot_ns_xfr_type_t.XFR_TYPE_IIN =>
    { ret := KNOTD_EOK, data := data,
      trace := [xfr_event.xfr_xfrin_cleanup] ++
        (if data.data ≠ none then [xfr_event.knot_free_changesets] else []) }
  | _ => { ret := KNOTD_EOK, data := data, trace := [xfr_event.xfr_xfrin_cleanup] }

/-- `xfr_xfrin_finalize`: an AXFR/IN zone is saved and then switched in, the
changesets of an IXFR/IN are stored and then applied, any other type is
`KNOTD_EINVAL`. -/
def xfr_xfrin_finalize (env : xfr_env) (data : knot_ns_xfr_t) : xfr_result :=
  match data.type with
  | knot_ns_xfr_type_t.XFR_TYPE_AIN =>
    let ret := env.zones_save_zone data
    if ret ≠ KNOTD_EOK then
      let c := xfr_xfrin_cleanup data
      { ret := ret, data := c.data,
        trace := [xfr_event.xfr_xfrin_finalize, xfr_event.zones_save_zone ret] ++ c.trace }
    else
      let ret2 := env.knot_ns_switch_zone data
      { ret := ret2, data := data,
        trace := [xfr_event.xfr_xfrin_finalize, xfr_event.zones_save_zone ret,
                  xfr_event.knot_ns_switch_zone ret2] }
  | knot_ns_xfr_type_t.XFR_TYPE_IIN =>
    let ret := env.zones_store_changesets data
    if ret ≠ KNOTD_EOK then
      { ret := ret, data := { data with data := none },
        trace := [xfr_event.xfr_xfrin_finalize, xfr_event.zones_store_changesets ret,
                  xfr_event.knot_free_changesets] }
    else
      let ret2 := env.zones_apply_changesets data
      { ret := ret2, data := { data with data := none },
        trace := [xfr_event.xfr_xfrin_finalize, xfr_event.zones_store_changesets ret,
                  xfr_event.zones_apply_changesets ret2, xfr_event.knot_free_changesets] }
  | _ => { ret := KNOTD_EINVAL, data := data, trace := [xfr_event.xfr_xfrin_finalize] }

/-- `data->msgpref[0] = 'A'`: the first octet of the buffer is `A`. -/
def msgpref_set_A (msgpref : List Nat) : List Nat := 65 :: msgpref.drop 1

/-- The end of `xfr_process_event`, from "Check finished zone" on: a
finished transfer with a positive result is finalized (and the timers are
updated, after the bootstrap retry is set when the result is an error and
the zone has no contents), any other finished transfer is cleaned up; the
TSIG buffers are freed and the result is `KNOTD_ECONNREFUSED`. The zone data
`zd` is not modelled beyond these events. -/
def xfr_process_event_finish (env : xfr_env) (xfer_finished : Bool) (ret : Int)
    (data : knot_ns_xfr_t) (tr : List xfr_event) : xfr_result :=
  if xfer_finished then
    let f : xfr_result :=
      if ret > 0 then
        let f := xfr_xfrin_finalize env data
        let boot := if f.ret ≠ KNOTD_EOK ∧ (data.zone.bind (fun z => z.contents)) = none
                    then [xfr_event.bootstrap_retry] else []
        { f with trace := f.trace ++ boot ++ [xfr_event.zones_timers_update] }
      else xfr_xfrin_cleanup data
    let d := f.data
    let d := if d.digest ≠ none then { d with digest := none, digest_size := 0 } else d
    let d := if d.tsig_data ≠ none then { d with tsig_data := none, tsig_data_size := 0 } else d
    { ret := KNOTD_ECONNREFUSED, data := d, trace := tr ++ f.trace }
  else { ret := KNOTD_EOK, data := data, trace := tr }

/-- The first part of `xfr_process_event`, "Read DNS/TCP packet" and
"Process incoming packet": the value of `ret`, the task and the trace. -/
def xfr_process_event_packet (env : xfr_env) (data : knot_ns_xfr_t) :
    Int × knot_ns_xfr_t × List xfr_event :=
  let rcvd := env.tcp_recv
  let data := { data with wire_size := rcvd.toNat }
  let tr := [xfr_event.tcp_recv rcvd]
  if rcvd ≤ 0 then (KNOT_ECONN, { data with wire_size := 0 }, tr)
  else
    match data.type with
    | knot_ns_xfr_type_t.XFR_TYPE_AIN =>
      let st := env.knot_ns_process_axfrin data
      (st.ret, { data with data := st.data, flags := st.flags },
       tr ++ [xfr_event.knot_ns_process_axfrin st.ret])
    | knot_ns_xfr_type_t.XFR_TYPE_IIN =>
      let st := env.knot_ns_process_ixfrin data
      (st.ret, { data with data := st.data, flags := st.flags },
       tr ++ [xfr_event.knot_ns_process_ixfrin st.ret])
    | _ => (KNOT_EBADARG, data, tr)

/-- The part "AXFR-style IXFR" of `xfr_process_event`: on `KNOT_ENOIXFR` the
task becomes an AXFR/IN and the packet is processed again. The result is
`none` when the assertion `data->type == XFR_TYPE_IIN` fails. -/
def xfr_process_event_axfr_style (env : xfr_env) (ret : Int) (data : knot_ns_xfr_t)
    (tr : List xfr_event) : Option (Int × knot_ns_xfr_t × List xfr_event) :=
  if ret = KNOT_ENOIXFR then
    if data.type ≠ knot_ns_xfr_type_t.XFR_TYPE_IIN then none
    else
      let data := { data with type := knot_ns_xfr_type_t.XFR_TYPE_AIN,
                              msgpref := msgpref_set_A data.msgpref }
      let st := env.knot_ns_process_axfrin data
      some (st.ret, { data with data := st.data, flags := st.flags },
            tr ++ [xfr_event.knot_ns_process_axfrin st.ret])
  else some (ret, data, tr)

/-- The rest of `xfr_process_event`, from "Finished xfers" on: a refused
IXFR of a task with a zone is tried again as AXFR, and when the query is
sent in full the function returns `KNOTD_EOK` at once. The comparison
`ret == bufsize` is made in `size_t`. -/
def xfr_process_event_refused (env : xfr_env) (zone : Option knot_zone_t) (buflen : Nat)
    (ret : Int) (data : knot_ns_xfr_t) (tr : List xfr_event) : xfr_result :=
  let xfer_finished : Bool := decide (ret ≠ KNOT_EOK)
  match zone with
  | some z =>
    if data.type = knot_ns_xfr_type_t.XFR_TYPE_IIN ∧ ret = KNOT_EXFRREFUSED then
      let data := { data with wire_size := buflen }
      let c := env.xfrin_create_axfr_query z.name data
      let tr := tr ++ [xfr_event.xfrin_create_axfr_query c.1]
      if c.1 = KNOT_EOK then
        let bufsize := c.2
        let ret := env.send data bufsize
        let tr := tr ++ [xfr_event.send ret bufsize]
        if ret % 18446744073709551616 = (bufsize : Int) % 18446744073709551616 then
          { ret := KNOTD_EOK,
            data := { data with type := knot_ns_xfr_type_t.XFR_TYPE_AIN,
                                msgpref := msgpref_set_A data.msgpref },
            trace := tr }
        else xfr_process_event_finish env xfer_finished ret data tr
      else xfr_process_event_finish env xfer_finished c.1 data tr
    else xfr_process_event_finish env xfer_finished ret data tr
  | none => xfr_process_event_finish env xfer_finished ret data tr

/-- `xfr_process_event` for a task and a buffer of `buflen` octets. The
result is `none` when the assertion of the AXFR-style fallback fails. -/
def xfr_process_event (env : xfr_env) (data : knot_ns_xfr_t) (buflen : Nat) :
    Option xfr_result :=
  let zone := data.zone
  let data := { data with wire_size := buflen }
  if data.type = knot_ns_xfr_type_t.XFR_TYPE_NOTIFY ∨
      data.type = knot_ns_xfr_type_t.XFR_TYPE_SOA then
    some (xfr_process_udp_query env data)
  else
    let p := xfr_process_event_packet env data
    match xfr_process_event_axfr_style env p.1 p.2.1 p.2.2 with
    | none => none
    | some q => some (xfr_process_event_refused env zone buflen q.1 q.2.1 q.2.2)

/-- Sample surroundings of `xfr_process_event`: 512 octets are received, the
packet-processing functions return the given values and leave the payload 1,
the replacement AXFR query has 30 octets and `send` sends what it is given,
and storing and publishing succeed. -/
def sample_xfr_env (axfrin ixfrin : Int) : xfr_env :=
  { recvfrom := 512, tcp_recv := 512,
    knot_ns_process_axfrin := fun d => { ret := axfrin, data := some 1, flags := d.flags },
    knot_ns_process_ixfrin := fun d => { ret := ixfrin, data := some 1, flags := d.flags },
    xfrin_create_axfr_query := fun _ _ => (KNOT_EOK, 30),
    send := fun _ n => n,
    zones_save_zone := fun _ => KNOTD_EOK,
    knot_ns_switch_zone := fun _ => KNOT_EOK,
    zones_store_changesets := fun _ => KNOTD_EOK,
    zones_apply_changesets := fun _ => KNOT_EOK }

/-- Result out of range (`-ERANGE`), from `knot/other/error.h`. -/
def KNOTD_ERANGE : Int := -34

/-- No such entry (`-ENOENT`). -/
def KNOTD_ENOENT : Int := -2

/-- Malformed data, in the server's own numbering. -/
def KNOTD_EMALF : Int := -16379

/-- What `xfr_answer_ixfr` takes from outside: `ns_ixfr_load_serials` with
its return value and the two serials, `zones_xfr_load_changesets` for a task
and the serials, and the answering functions of `libknot`. -/
structure xfr_answer_env where
  ns_ixfr_load_serials : knot_ns_xfr_t → Int × Nat × Nat
  zones_xfr_load_changesets : knot_ns_xfr_t → Nat → Nat → Int
  knot_ns_answer_axfr : knot_ns_xfr_t → Int
  knot_ns_answer_ixfr : knot_ns_xfr_t → Int

/-- The trace of answering a transfer: the calls of the collaborators with
their return values. -/
inductive xfr_answer_event where
  | ns_ixfr_load_serials (ret : Int)
  | zones_xfr_load_changesets (ret : Int)
  | knot_ns_answer_axfr (ret : Int)
  | knot_ns_answer_ixfr (ret : Int)
  deriving DecidableEq, Repr

/-- What answering a transfer leaves: return value, task and trace. -/
structure xfr_answer_result where
  ret : Int
  xfr : knot_ns_xfr_t
  trace : List xfr_answer_event
  deriving DecidableEq, Repr

/-- `xfr_answer_axfr`. -/
def xfr_answer_axfr (env : xfr_answer_env) (xfr : knot_ns_xfr_t) : xfr_answer_result :=
  let ret := env.knot_ns_answer_axfr xfr
  { ret := ret, xfr := xfr, trace := [xfr_answer_event.knot_ns_answer_axfr ret] }

/-- `xfr_answer_ixfr`: the serials and then the changesets are loaded; an
incomplete history (`KNOTD_ERANGE`, `KNOTD_ENOENT`) is answered as AXFR. -/
def xfr_answer_ixfr (env : xfr_answer_env) (xfr : knot_ns_xfr_t) : xfr_answer_result :=
  let s := env.ns_ixfr_load_serials xfr
  let ret := s.1
  let serial_from := s.2.1
  let serial_to := s.2.2
  let tr := [xfr_answer_event.ns_ixfr_load_serials ret]
  if ret ≠ KNOT_EOK then { ret := ret, xfr := xfr, trace := tr }
  else
    let chsload := env.zones_xfr_load_changesets xfr serial_from serial_to
    let tr := tr ++ [xfr_answer_event.zones_xfr_load_changesets chsload]
    if chsload ≠ KNOTD_EOK then
      if chsload = KNOTD_ERANGE ∨ chsload = KNOTD_ENOENT then
        let xfr := { xfr with type := knot_ns_xfr_type_t.XFR_TYPE_AOUT,
                              msgpref := msgpref_set_A xfr.msgpref }
        let a := xfr_answer_axfr env xfr
        { ret := a.ret, xfr := a.xfr, trace := tr ++ a.trace }
      else
        let xfr := if chsload = KNOTD_EMALF then { xfr with rcode := KNOT_RCODE_FORMERR }
                   else { xfr with rcode := KNOT_RCODE_SERVFAIL }
        { ret := KNOT_ERROR, xfr := xfr, trace := tr }
    else
      let ret := env.knot_ns_answer_ixfr xfr
      { ret := ret, xfr := xfr, trace := tr ++ [xfr_answer_event.knot_ns_answer_ixfr ret] }

/-- Sample surroundings of `xfr_answer_ixfr`: the serials 1 and 2 are
loaded, loading the changesets returns the given value, and the answering
functions return `KNOT_EOK`. -/
def sample_xfr_answer_env (chsload : Int) : xfr_answer_env :=
  { ns_ixfr_load_serials := fun _ => (KNOT_EOK, 1, 2),
    zones_xfr_load_changesets := fun _ _ _ => chsload,
    knot_ns_answer_axfr := fun _ => KNOT_EOK,
    knot_ns_answer_ixfr := fun _ => KNOT_EOK }

/-- The sample surroundings of `xfr_process_event` with a `send` that sends
10 octets whatever it is given. -/
def sample_xfr_env_short_send (axfrin ixfrin : Int) : xfr_env :=
  { sample_xfr_env axfrin ixfrin with send := fun _ _ => 10 }

/-! ## `libknot/updates/changesets.c`: adding an RRset or an RR -/

/-- Modelled from the spec: the enumeration `knot_changeset_part_t` of
`libknot/updates/changesets.h`, which is not among the sources. A part is a
C `int`; only the fact that the two named values differ is used. -/
def KNOT_CHANGESET_ADD : Nat := 0

/-- The other named value of `knot_changeset_part_t`. -/
def KNOT_CHANGESET_REMOVE : Nat := 1

/-- What `changesets.c` takes from outside when it adds to a changeset:
whether `chgs->mem_ctx.alloc` gives a list node, the type covered of an
RRSIG RRset, and `knot_rrset_merge` with its return value and the first
RRset as it leaves it. -/
structure changeset_env where
  alloc : Bool
  knot_rrset_rdata_rrsig_type_covered : knot_rrset_t → Nat
  knot_rrset_merge : knot_rrset_t → knot_rrset_t → Int × knot_rrset_t

/-- Modelled from the spec: `knot_rrset_equal` with
`KNOT_RRSET_COMPARE_HEADER` of `libknot/rrset.c`, which is not among the
sources: the owners, the types and the classes are equal. -/
def knot_rrset_equal_header (r1 r2 : knot_rrset_t) : Bool :=
  decide (r1.owner = r2.owner ∧ r1.type = r2.type ∧ r1.rclass = r2.rclass)

/-- `knot_changeset_rrsets_match`. -/
def knot_changeset_rrsets_match (env : changeset_env) (rrset1 rrset2 : knot_rrset_t) : Bool :=
  knot_rrset_equal_header rrset1 rrset2
    && (decide (rrset1.type ≠ KNOT_RRTYPE_RRSIG)
        || decide (env.knot_rrset_rdata_rrsig_type_covered rrset1
                    = env.knot_rrset_rdata_rrsig_type_covered rrset2))

/-- `knot_changeset_add_rrset`: the return value and the changeset. -/
def knot_changeset_add_rrset (env : changeset_env) (chgs : knot_changeset_t)
    (rrset : knot_rrset_t) (part : Nat) : Int × knot_changeset_t :=
  if env.alloc = false then (KNOT_ENOMEM, chgs)
  else if part = KNOT_CHANGESET_ADD then (KNOT_EOK, { chgs with add := chgs.add ++ [rrset] })
  else (KNOT_EOK, { chgs with remove := chgs.remove ++ [rrset] })

/-- The list `l` of `knot_changeset_add_rr`:
`part == KNOT_CHANGESET_ADD ? &chgs->add : &chgs->remove`. -/
def knot_changeset_part_list (chgs : knot_changeset_t) (part : Nat) : List knot_rrset_t :=
  if part = KNOT_CHANGESET_ADD then chgs.add else chgs.remove

/-- `knot_changeset_add_rr`: the return value and the changeset. The RRsets
of the lists are not `NULL`. On an empty list `l->tail` is not a list node
and the result is `none`. A merge leaves the last RRset as
`knot_rrset_merge` left it, also when it failed. -/
def knot_changeset_add_rr (env : changeset_env) (chgs : knot_changeset_t)
    (rr : knot_rrset_t) (part : Nat) : Option (Int × knot_changeset_t) :=
  let l := knot_changeset_part_list chgs part
  match l.getLast? with
  | none => none
  | some tail_rr =>
    if knot_changeset_rrsets_match env tail_rr rr then
      let m := env.knot_rrset_merge tail_rr rr
      let l := l.dropLast ++ [m.2]
      let chgs := if part = KNOT_CHANGESET_ADD then { chgs with add := l }
                  else { chgs with remove := l }
      if m.1 ≠ KNOT_EOK then some (KNOT_ERROR, chgs)
      else some (KNOT_EOK, chgs)
    else some (knot_changeset_add_rrset env chgs rr part)

/-- Sample surroundings of `changesets.c`: list nodes are allocated, the
type covered is read from the first two octets of the first RDATA, and a
merge appends the RDATA of the second RRset to those of the first. -/
def sample_changeset_env : changeset_env :=
  { alloc := true,
    knot_rrset_rdata_rrsig_type_covered := fun r =>
      match r.rrs with
      | (a :: b :: _) :: _ => a * 256 + b
      | _ => 0,
    knot_rrset_merge := fun r1 r2 => (KNOT_EOK, { r1 with rrs := r1.rrs ++ r2.rrs }) }

/-- The sample surroundings of `changesets.c` without memory for a list
node. -/
def sample_changeset_env_no_memory : changeset_env :=
  { sample_changeset_env with alloc := false }

/-- A changeset that adds the sample A RRset and removes nothing. -/
def sample_changeset_add : knot_changeset_t :=
  { soa_from := none, soa_to := none, serial_from := 1, serial_to := 2,
    add := [sample_rrset], remove := [], flags := 0 }

/-! ## `utils/nsupdate/nsupdate_params.c` -/

/-- The constant `DEFAULT_RETRIES` of `nsupdate_params.c`. -/
def DEFAULT_RETRIES : Nat := 3

/-- Modelled from the spec: `params_t` of `utils/common/params.h`, which is
not among the sources, with the fields that `nsupdate_params.c` sets; the
list `qfiles` holds the strings of its nodes in list order. -/
structure params_t where
  qfiles : List (List Nat)
  port : Nat
  protocol : Nat
  udp_size : Nat
  retries : Nat
  wait : Nat
  verbose : Bool
  deriving DecidableEq, Repr

/-- A run of `getopt` over a command line until it returns -1: the options
it returned with their `optarg`, in order, the final `optind`, and `argv` as
the run left it. -/
structure getopt_run where
  opts : List (Int × List Nat)
  optind : Nat
  argv : List (List Nat)
  deriving DecidableEq, Repr

/-- What `nsupdate_params.c` takes from outside: the default values of
`utils/common/params.h`, `getopt` of the C library for a command line and an
option string, the setters and parsers of `utils/common/params.c` (a parser
gets `optarg` and the old value and gives its return value and the new
value), and whether the `n`-th `malloc` of the run gives memory. -/
structure nsupdate_env where
  DEFAULT_PORT : Nat
  PROTO_ALL : Nat
  DEFAULT_UDP_SIZE : Nat
  DEFAULT_WAIT_INTERVAL : Nat
  getopt : List (List Nat) → List Nat → getopt_run
  params_flag_verbose : params_t → params_t
  params_flag_tcp : params_t → params_t
  params_parse_num : List Nat → Nat → Int × Nat
  params_parse_interval : List Nat → Nat → Int × Nat
  malloc : Nat → Bool

/-- What `nsupdate_params_parse` leaves: the return value, the parameters
(`none` while they are not initialised) and the lines printed. -/
structure nsupdate_params_result where
  ret : Int
  params : Option params_t
  out : List (List Nat)
  deriving DecidableEq, Repr

/-- `nsupdate_params_init`. -/
def nsupdate_params_init (env : nsupdate_env) : params_t :=
  { qfiles := [], port := env.DEFAULT_PORT, protocol := env.PROTO_ALL,
    udp_size := env.DEFAULT_UDP_SIZE, retries := DEFAULT_RETRIES,
    wait := env.DEFAULT_WAIT_INTERVAL, verbose := false }

/-- `nsupdate_params_help`: the line it prints. -/
def nsupdate_params_help (argv : List (List Nat)) : List Nat :=
  cstr "Usage: " ++ argv.headD [] ++
    cstr " [-d] [-v] [-p port] [-t timeout] [-r retries] [filename]\n"

/-- The option string that `nsupdate_params_parse` gives to `getopt`. -/
def nsupdate_optstring : List Nat := cstr "dvp:t:r:"

/-- The loop "Command line options processing" of `nsupdate_params_parse`
over the options that `getopt` returns: the return value if the loop ends
the function, the parameters and the lines printed. -/
def nsupdate_params_parse_opts (env : nsupdate_env) (argv : List (List Nat)) :
    List (Int × List Nat) → params_t → Option Int × params_t × List (List Nat)
  | [], params => (none, params, [])
  | (opt, optarg) :: rest, params =>
    if opt = 100 then
      nsupdate_params_parse_opts env argv rest (env.params_flag_verbose params)
    else if opt = 118 then
      nsupdate_params_parse_opts env argv rest (env.params_flag_tcp params)
    else if opt = 114 then
      let r := env.params_parse_num optarg params.retries
      if r.1 ≠ KNOT_EOK then (some KNOT_EINVAL, { params with retries := r.2 }, [])
      else nsupdate_params_parse_opts env argv rest { params with retries := r.2 }
    else if opt = 116 then
      let r := env.params_parse_interval optarg params.wait
      if r.1 ≠ KNOT_EOK then (some KNOT_EINVAL, { params with wait := r.2 }, [])
      else nsupdate_params_parse_opts env argv rest { params with wait := r.2 }
    else (some KNOT_ENOTSUP, params, [nsupdate_params_help argv])

/-- The loop "Process non-option parameters" of `nsupdate_params_parse` over
the arguments from `optind` on; `k` counts the calls of `malloc`. -/
def nsupdate_params_parse_files (env : nsupdate_env) :
    List (List Nat) → Nat → params_t → Int × params_t
  | [], _, params => (KNOT_EOK, params)
  | arg :: rest, k, params =>
    if env.malloc k = false then (KNOT_ENOMEM, params)
    else nsupdate_params_parse_files env rest (k + 1)
      { params with qfiles := params.qfiles ++ [arg] }

/-- `nsupdate_params_parse`; `argc` is the length of `argv`. -/
def nsupdate_params_parse (env : nsupdate_env) (params : Option params_t)
    (argv : Option (List (List Nat))) : nsupdate_params_result :=
  match params, argv with
  | none, _ => { ret := KNOT_EINVAL, params := none, out := [] }
  | some p, none => { ret := KNOT_EINVAL, params := some p, out := [] }
  | some _, some argv =>
    let params := nsupdate_params_init env
    let run := env.getopt argv nsupdate_optstring
    let o := nsupdate_params_parse_opts env argv run.opts params
    match o.1 with
    | some ret => { ret := ret, params := some o.2.1, out := o.2.2 }
    | none =>
      let f := nsupdate_params_parse_files env (run.argv.drop run.optind) 0 o.2.1
      { ret := f.1, params := some f.2, out := o.2.2 }

/-- Whether the option string has the option character `c`, and whether a
colon follows it (the option takes an argument). -/
def sample_getopt_find : List Nat → Nat → Option Bool
  | [], _ => none
  | x :: rest, c =>
    if x = c ∧ c ≠ 58 then some (decide (rest.head? = some 58))
    else sample_getopt_find rest c

/-- A `getopt` for command lines whose words are single options `-c`, each
followed by its argument as the next word if it takes one: it stops before
the first word that is not an option (after a word `--`), returns `?` (63)
for a character that is not in the option string or lacks its argument, and
leaves `argv` as it is. `pending` is the option that waits for its argument
and `i` the index of the next word. -/
def sample_getopt_words (optstring : List Nat) :
    Option Int → List (List Nat) → Nat → List (Int × List Nat) × Nat
  | none, [], i => ([], i)
  | some _, [], i => ([(63, [])], i)
  | some c, w :: ws, i =>
    let r := sample_getopt_words optstring none ws (i + 1)
    ((c, w) :: r.1, r.2)
  | none, w :: ws, i =>
    match w with
    | [45, c] =>
      if c = 45 then ([], i + 1)
      else
        match sample_getopt_find optstring c with
        | none =>
          let r := sample_getopt_words optstring none ws (i + 1)
          ((63, []) :: r.1, r.2)
        | some true => sample_getopt_words optstring (some (c : Int)) ws (i + 1)
        | some false =>
          let r := sample_getopt_words optstring none ws (i + 1)
          (((c : Int), []) :: r.1, r.2)
    | _ => ([], i)

/-- The sample `getopt`: the words after the program name are read. -/
def sample_getopt (argv : List (List Nat)) (optstring : List Nat) : getopt_run :=
  let r := sample_getopt_words optstring none (argv.drop 1) 1
  { opts := r.1, optind := r.2, argv := argv }

/-- The number that a string of decimal digits writes, `none` for any other
string. -/
def sample_parse_digits : List Nat → Nat → Option Nat
  | [], n => some n
  | c :: rest, n =>
    if 48 ≤ c ∧ c ≤ 57 then sample_parse_digits rest (n * 10 + (c - 48)) else none

/-- Sample surroundings of `nsupdate_params.c`: the sample `getopt`, parsers
that accept the non-empty strings of decimal digits, and memory for every
node. -/
def sample_nsupdate_env : nsupdate_env :=
  { DEFAULT_PORT := 53, PROTO_ALL := 0, DEFAULT_UDP_SIZE := 512,
    DEFAULT_WAIT_INTERVAL := 5,
    getopt := sample_getopt,
    params_flag_verbose := fun p => { p with verbose := true },
    params_flag_tcp := fun p => { p with protocol := 1 },
    params_parse_num := fun s old =>
      match (if s = [] then none else sample_parse_digits s 0) with
      | some n => (KNOT_EOK, n)
      | none => (KNOT_EINVAL, old),
    params_parse_interval := fun s old =>
      match (if s = [] then none else sample_parse_digits s 0) with
      | some n => (KNOT_EOK, n)
      | none => (KNOT_EINVAL, old),
    malloc := fun _ => true }

/-- Parameters before they are parsed: all zero. -/
def sample_params : params_t :=
  { qfiles := [], port := 0, protocol := 0, udp_size := 0, retries := 0, wait := 0,
    verbose := false }

/-- The command line `nsupdate -p 53`. -/
def sample_argv_port : List (List Nat) := [cstr "nsupdate", cstr "-p", cstr "53"]

/-- The command line `nsupdate -d -v -t 10 -r 2 first.txt second.txt`. -/
def sample_argv_files : List (List Nat) :=
  [cstr "nsupdate", cstr "-d", cstr "-v", cstr "-t", cstr "10", cstr "-r", cstr "2",
   cstr "first.txt", cstr "second.txt"]

/-! ## `dnslib/dname-table.c`, known from `dnslib/tests/dnslib/dname_table_tests.c` -/

/-- Modelled from the spec: `DNSLIB_EOK` of `dnslib/error.h`, which is not
among the sources. -/
def DNSLIB_EOK : Int := 0

/-- Modelled from the spec: `DNSLIB_EBADARG` of `dnslib/error.h`, which is
not among the sources; only the fact that it is not `DNSLIB_EOK` is used. -/
def DNSLIB_EBADARG : Int := -9998

/-- Modelled from the spec: `dnslib_dname_table_t` of `dnslib/dname-table.h`,
which is not among the sources (only the tests of the table are): a search
tree of domain names. -/
inductive dnslib_dname_table_t where
  | leaf
  | node (left : dnslib_dname_table_t) (dname : List Nat) (right : dnslib_dname_table_t)
  deriving DecidableEq, Repr

/-- Modelled from the spec: `dnslib_dname_table_new` of
`dnslib/dname-table.c`, which is not among the sources: the empty table. -/
def dnslib_dname_table_new : dnslib_dname_table_t := dnslib_dname_table_t.leaf

/-- Modelled from the spec: the insertion of `dnslib/dname-table.c`, which
is not among the sources. The table is ordered by `dnslib_dname_compare`: a
name that compares less than the name of a node goes to its left, any other
name to its right, so that a name that is already there is added again. -/
def dnslib_dname_table_insert (dnslib_dname_compare : List Nat → List Nat → Int)
    (dname : List Nat) : dnslib_dname_table_t → dnslib_dname_table_t
  | dnslib_dname_table_t.leaf =>
    dnslib_dname_table_t.node dnslib_dname_table_t.leaf dname dnslib_dname_table_t.leaf
  | dnslib_dname_table_t.node left d right =>
    if dnslib_dname_compare dname d < 0 then
      dnslib_dname_table_t.node (dnslib_dname_table_insert dnslib_dname_compare dname left)
        d right
    else
      dnslib_dname_table_t.node left d
        (dnslib_dname_table_insert dnslib_dname_compare dname right)

/-- Modelled from the spec: `dnslib_dname_table_add_dname` of
`dnslib/dname-table.c`, which is not among the sources. As its test
requires, a `NULL` table or a `NULL` name is `DNSLIB_EBADARG`, and a name is
added with `DNSLIB_EOK`, also when the table has it already. The comparison
`dnslib_dname_compare` (`dnslib/dname.c`, not among the sources either) is a
parameter. -/
def dnslib_dname_table_add_dname (dnslib_dname_compare : List Nat → List Nat → Int)
    (table : Option dnslib_dname_table_t) (dname : Option (List Nat)) :
    Int × Option dnslib_dname_table_t :=
  match table, dname with
  | some t, some d => (DNSLIB_EOK, some (dnslib_dname_table_insert dnslib_dname_compare d t))
  | _, _ => (DNSLIB_EBADARG, table)

/-- Modelled from the spec: the in-order walk of the tree of
`dnslib/dname-table.c`, which is not among the sources: left subtree, name,
right subtree. -/
def dnslib_dname_table_inorder : dnslib_dname_table_t → List (List Nat)
  | dnslib_dname_table_t.leaf => []
  | dnslib_dname_table_t.node left d right =>
    dnslib_dname_table_inorder left ++ d :: dnslib_dname_table_inorder right

/-- Modelled from the spec: `dnslib_dname_table_tree_inorder_apply` of
`dnslib/dname-table.c`, which is not among the sources: the names to which
the function is applied, in the order of the calls. -/
def dnslib_dname_table_tree_inorder_apply (table : Option dnslib_dname_table_t) :
    List (List Nat) :=
  match table with
  | none => []
  | some t => dnslib_dname_table_inorder t

/-- The names of a list added to a table one after the other with
`dnslib_dname_table_add_dname`: the return values and the table. -/
def dnslib_dname_table_add_dnames (dnslib_dname_compare : List Nat → List Nat → Int) :
    Option dnslib_dname_table_t → List (List Nat) → List Int × Option dnslib_dname_table_t
  | table, [] => ([], table)
  | table, d :: rest =>
    let r := dnslib_dname_table_add_dname dnslib_dname_compare table (some d)
    let s := dnslib_dname_table_add_dnames dnslib_dname_compare r.2 rest
    (r.1 :: s.1, s.2)

/-- A comparison of names for the samples: the octets of the wire format are
compared from the left, and a name that ends first is the smaller one. -/
def sample_dname_compare : List Nat → List Nat → Int
  | [], [] => 0
  | [], _ :: _ => -1
  | _ :: _, [] => 1
  | a :: as, b :: bs =>
    if a < b then -1 else if b < a then 1 else sample_dname_compare as bs

/-- The names `b.ns.nic.cz.`, `.`, `a.ns.nic.cz.` and `.` again, in wire
format. -/
def sample_dnames : List (List Nat) :=
  [[1, 98, 2, 110, 115, 3, 110, 105, 99, 2, 99, 122, 0], [0],
   [1, 97, 2, 110, 115, 3, 110, 105, 99, 2, 99, 122, 0], [0]]

/-- The order of a table: at every node the names of the left subtree
compare less than the name of the node, and the names of the right subtree
do not. -/
def dnslib_dname_table_ordered (dnslib_dname_compare : List Nat → List Nat → Int) :
    dnslib_dname_table_t → Bool
  | dnslib_dname_table_t.leaf => true
  | dnslib_dname_table_t.node left d right =>
    (dnslib_dname_table_inorder left).all (fun x => decide (dnslib_dname_compare x d < 0))
      && (dnslib_dname_table_inorder right).all (fun x => decide (0 ≤ dnslib_dname_compare x d))
      && dnslib_dname_table_ordered dnslib_dname_compare left
      && dnslib_dname_table_ordered dnslib_dname_compare right

/-! ## `knot/nameserver/update.c`: `update_answer` -/

/-- Modelled from the spec: the processing state `NS_PROC_DONE` of
`knot/nameserver/process.h`, which is not among the sources; only the fact
that it differs from `NS_PROC_FAIL` is used. -/
def NS_PROC_DONE : Int := 4

/-- Modelled from the spec: the processing state `NS_PROC_FAIL`. -/
def NS_PROC_FAIL : Int := 8

/-- Modelled from the spec: `struct query_data` of
`knot/nameserver/process_query.h`, which is not among the sources, with the
fields that `update_answer` uses: the query, the zone it belongs to (`NULL`
when the server has none) and the RCODE of the answer. -/
structure query_data where
  query : knot_pkt_t
  zone : Option zone_t
  rcode : Nat
  deriving DecidableEq, Repr

/-- What `update_answer` takes from outside: the check of the macro
`NS_NEED_AUTH` for the update ACL of a zone and a query (whether the query
passes, and the RCODE that the check leaves), and `zone_update_enqueue`. -/
structure update_answer_env where
  ns_need_auth : zone_t → query_data → Bool × Nat
  zone_update_enqueue : zone_t → knot_pkt_t → Int

/-- The trace of `update_answer`: the check of the ACL and of the TSIG with
its outcome, and the call of `zone_update_enqueue` with its return value. -/
inductive update_answer_event where
  | ns_need_auth (pass : Bool)
  | zone_update_enqueue (ret : Int)
  deriving DecidableEq, Repr

/-- What `update_answer` leaves: the return value, the query data, the size
of the response packet and the trace. -/
structure update_answer_result where
  ret : Int
  qdata : query_data
  pkt_size : Nat
  trace : List update_answer_event
  deriving DecidableEq, Repr

/-- `update_forward`: the return value and the query data. -/
def update_forward (qdata : query_data) : Int × query_data :=
  (NS_PROC_FAIL, { qdata with rcode := KNOT_RCODE_NOTIMPL })

/-- `update_answer` for a response packet of the size `pkt_size`. Modelled
from the spec: the macros `NS_NEED_QTYPE`, `NS_NEED_ZONE` and
`NS_NEED_ZONE_CONTENTS` of `knot/nameserver/process_query.h`, which is not
among the sources, store their RCODE and return `NS_PROC_FAIL` when the
question type is another one, the zone is `NULL`, or the zone has no
contents; `NS_NEED_AUTH` returns `NS_PROC_FAIL` when its check fails. -/
def update_answer (env : update_answer_env) (pkt_size : Nat) (qdata : query_data) :
    update_answer_result :=
  if qdata.query.qtype ≠ KNOT_RRTYPE_SOA then
    { ret := NS_PROC_FAIL, qdata := { qdata with rcode := KNOT_RCODE_FORMERR },
      pkt_size := pkt_size, trace := [] }
  else
    match qdata.zone with
    | none =>
      { ret := NS_PROC_FAIL, qdata := { qdata with rcode := KNOT_RCODE_NOTAUTH },
        pkt_size := pkt_size, trace := [] }
    | some zone =>
      if zone_master (some zone) ≠ none then
        let f := update_forward qdata
        { ret := f.1, qdata := f.2, pkt_size := pkt_size, trace := [] }
      else
        let a := env.ns_need_auth zone qdata
        let qdata := { qdata with rcode := a.2 }
        let tr := [update_answer_event.ns_need_auth a.1]
        if a.1 = false then
          { ret := NS_PROC_FAIL, qdata := qdata, pkt_size := pkt_size, trace := tr }
        else if zone.contents = none then
          { ret := NS_PROC_FAIL, qdata := { qdata with rcode := KNOT_RCODE_SERVFAIL },
            pkt_size := pkt_size, trace := tr }
        else
          let ret := env.zone_update_enqueue zone qdata.query
          let tr := tr ++ [update_answer_event.zone_update_enqueue ret]
          if ret ≠ KNOT_EOK then
            { ret := NS_PROC_FAIL, qdata := qdata, pkt_size := pkt_size, trace := tr }
          else { ret := NS_PROC_DONE, qdata := qdata, pkt_size := 0, trace := tr }

/-- Sample surroundings of `update_answer`: every query passes the check and
keeps its RCODE, and the queue takes every update. -/
def sample_update_answer_env : update_answer_env :=
  { ns_need_auth := fun _ q => (true, q.rcode),
    zone_update_enqueue := fun _ _ => KNOT_EOK }

/-- Query data of a message with the given QTYPE for the given zone. -/
def sample_qdata (qtype : Nat) (zone : zone_t) : query_data :=
  { query := sample_pkt qtype [], zone := some zone, rcode := KNOT_RCODE_NOERROR }

/-! ## `knot/ctl/remote.c`: sample control queries -/

/-- A control query `start.knot.` of class CH; `start` is not a command. -/
def sample_ctl_query_start : knot_pkt_t :=
  { sample_ctl_query with qname := [5, 115, 116, 97, 114, 116, 4, 107, 110, 111, 116, 0] }

/-- A control query of class CH whose leftmost label has five octets, `stop`
and a NUL octet, before the label `knot`. -/
def sample_ctl_query_stop_nul : knot_pkt_t :=
  { sample_ctl_query with qname := [5, 115, 116, 111, 112, 0, 4, 107, 110, 111, 116, 0] }

/-! ## `knot/ctl/remote.c`: the handler `flush` and the handler calls -/

/-- The loop of `remote_c_flush` over all zones of the database:
`ret = remote_zone_flush(knot_zonedb_iter_val(&it))` for each zone, in order.
It yields the last `ret`, the database and the events; `i` is the place of
the next zone. -/
def remote_c_flush_all : List zone_t → Nat → Int → Int × List zone_t × List zone_sched
  | [], _, ret => (ret, [], [])
  | z :: rest, i, _ =>
    let o := remote_zone_flush (some z)
    let r := remote_c_flush_all rest (i + 1) o.ret
    (r.1, o.zone.getD z :: r.2.1,
     o.sched.map (fun e => { zone := i, type := e.1, time := e.2 }) ++ r.2.2)

/-- `remote_c_flush`: without arguments every zone is flushed and the result
is that of the last zone (0 without zones), else the zones of the arguments
are flushed. -/
def remote_c_flush (s : server_t) (a : remote_cmdargs_t) : remote_handler_out :=
  if a.argc = 0 then
    let r := remote_c_flush_all s.zone_db 0 0
    { ret := r.1, args := a, server := { s with zone_db := r.2.1 }, sched := r.2.2 }
  else remote_rdata_apply_out s a remote_zone_flush

/-- What `remote_answer` sees of a handler: its return value, the argument
block and the server. -/
def remote_handler_out.cmd_out (o : remote_handler_out) : remote_cmd_out :=
  { ret := o.ret, args := o.args, server := o.server }

/-- The call `c->f(s, args)` of `remote_answer` with the handlers of
`remote.c`: `stop`, `refresh`, `retransfer`, `status`, `flush` and
`signzone` run as defined here, `reload` (`server_reload`) and `zonestatus`
are those of the environment. -/
def remote_call (env : remote_env) (f : remote_cmdf_t) (s : server_t)
    (a : remote_cmdargs_t) : remote_cmd_out :=
  match f with
  | remote_cmdf_t.remote_c_stop => (remote_c_stop s a).cmd_out
  | remote_cmdf_t.remote_c_refresh => (remote_c_refresh s a).cmd_out
  | remote_cmdf_t.remote_c_retransfer => (remote_c_retransfer s a).cmd_out
  | remote_cmdf_t.remote_c_status => (remote_c_status s a).cmd_out
  | remote_cmdf_t.remote_c_flush => (remote_c_flush s a).cmd_out
  | remote_cmdf_t.remote_c_signzone => (remote_c_signzone s a).cmd_out
  | remote_cmdf_t.remote_c_reload => env.call f s a
  | remote_cmdf_t.remote_c_zonestatus => env.call f s a

/-- The surroundings of `remote.c` with the handlers of `remote.c`. -/
def remote_env_handlers (env : remote_env) : remote_env :=
  { env with call := remote_call env }

/-- A control query `refresh.knot.` of class CH that lists the zone
`example.`. -/
def sample_ctl_query_refresh : knot_pkt_t :=
  { sample_ctl_query with
    qname := [7, 114, 101, 102, 114, 101, 115, 104, 4, 107, 110, 111, 116, 0],
    authority := [sample_ns_example] }

/-- A server with the slave zone `example.`. -/
def sample_server_slave : server_t := { zone_db := [sample_slave_zone] }

/-- A server with the master zone `example.`, which cannot be refreshed. -/
def sample_server_master : server_t := { zone_db := [sample_zone false] }

/-! ## Theorems: `changesets.c` -/

/-- For every list test that is non-zero exactly on empty lists,
`knot_changeset_is_empty` is non-zero exactly when the add list is empty and
the remove list is not. -/
theorem knot_changeset_is_empty_iff (is_empty : List knot_rrset_t → Int)
    (h : ∀ l, is_empty l ≠ 0 ↔ l = []) (ch : knot_changeset_t) :
    knot_changeset_is_empty is_empty (some ch) ≠ 0 ↔ (ch.add = [] ∧ ch.remove ≠ []) := by
  have ha := h ch.add
  have hr := h ch.remove
  unfold knot_changeset_is_empty c_land c_eq
  by_cases h1 : is_empty ch.add = 0 <;> by_cases h2 : is_empty ch.remove = 0 <;>
    simp_all

/-- C1: on a changeset whose add list and remove list are both empty,
`knot_changeset_is_empty` returns 0 (the `== 0` applies to the remove list
alone), and on one with an empty add list and a non-empty remove list it
returns 1: its result is not "both lists are empty". -/
theorem knot_changeset_is_empty_on_empty :
    knot_changeset_is_empty list_is_empty
        (some { soa_from := none, soa_to := none, serial_from := 0, serial_to := 0,
                add := [], remove := [], flags := 0 }) = 0 ∧
      knot_changeset_is_empty list_is_empty
        (some { soa_from := none, soa_to := none, serial_from := 0, serial_to := 0,
                add := [], remove := [sample_rrset], flags := 0 }) = 1 := by
  constructor <;> decide

/-! ## Theorems: one query of a DDNS batch -/

/-- After a failed `ddns_process_update` the changeset has no RRsets at all,
whatever it held before the query, and the function ends without a return
value. -/
theorem process_single_update_failure_empties (env : update_env) (request : request_data)
    (zone : zone_t) (ch : changeset_t) (r : single_result)
    (hp : (env.ddns_process_prereqs request.query zone.contents).ret = KNOT_EOK)
    (hu : (env.ddns_process_update zone request.query ch
            (env.ddns_process_prereqs request.query zone.contents).rcode).ret ≠ KNOT_EOK)
    (hr : process_single_update env request zone ch = some r) :
    r.ch.add = [] ∧ r.ch.remove = [] ∧ r.ret = none := by
  unfold process_single_update at hr
  simp only [hp, ne_eq, not_true_eq_false, if_false, hu, not_false_eq_true, if_true] at hr
  split at hr
  · cases hr
    simp only [changeset_rollback]
    split <;> split <;> simp
  · cases hr

/-- C2: a batch of two queries on one changeset. The first adds
`sample_rrset` and succeeds: after it the add list is `[sample_rrset]`. The
second has an empty update section and fails in `ddns_process_update`: its
response gets RCODE FORMERR, and after it the add list of the shared
changeset is empty, so the RRset of the first query is gone. -/
theorem process_queries_walk_failure_drops_earlier :
    (process_queries_walk sample_update_env (sample_zone false)
        [sample_request KNOT_RRTYPE_SOA [sample_rrset]] changeset_init).map
        (fun w => w.ch.add) = some [sample_rrset] ∧
      (process_queries_walk sample_update_env (sample_zone false)
        [sample_request KNOT_RRTYPE_SOA [sample_rrset], sample_request KNOT_RRTYPE_SOA []]
        changeset_init).map
        (fun w => (w.ch.add, w.ch.remove, w.queries.map (fun q => q.resp.rcode))) =
        some ([], [], [KNOT_RCODE_NOERROR, KNOT_RCODE_FORMERR]) := by
  constructor <;> decide

/-- C3: when `ddns_process_prereqs` returns an error together with an RCODE
other than NOERROR, `process_single_update` puts that RCODE into the
response of the query, returns the error, does not call
`ddns_process_update`, and hands back the changeset (add list, remove list,
`soa_from`, `soa_to`) as it was. -/
theorem process_single_update_prereq_failure (env : update_env) (request : request_data)
    (zone : zone_t) (ch : changeset_t)
    (hret : (env.ddns_process_prereqs request.query zone.contents).ret ≠ KNOT_EOK)
    (hrcode : (env.ddns_process_prereqs request.query zone.contents).rcode
                ≠ KNOT_RCODE_NOERROR) :
    ∃ r, process_single_update env request zone ch = some r ∧
      knot_wire_get_rcode r.request.resp
        = (env.ddns_process_prereqs request.query zone.contents).rcode ∧
      knot_wire_get_rcode r.request.resp ≠ KNOT_RCODE_NOERROR ∧
      r.ret = some (env.ddns_process_prereqs request.query zone.contents).ret ∧
      (∀ ret, update_event.ddns_process_update ret ∉ r.trace) ∧
      update_event.changeset_rollback ∉ r.trace ∧
      r.ch = ch ∧
      r.ch.add = ch.add ∧ r.ch.remove = ch.remove ∧
      r.ch.soa_from = ch.soa_from ∧ r.ch.soa_to = ch.soa_to := by
  have h : process_single_update env request zone ch
      = some { ret := some (env.ddns_process_prereqs request.query zone.contents).ret,
               request := { request with
                 resp := knot_wire_set_rcode request.resp
                   (env.ddns_process_prereqs request.query zone.contents).rcode },
               ch := ch,
               trace := [update_event.ddns_process_prereqs
                 (env.ddns_process_prereqs request.query zone.contents).ret] } := by
    unfold process_single_update
    simp only [hret, hrcode, ne_eq, not_false_eq_true, if_true]
  refine ⟨_, h, ?_⟩
  simp [knot_wire_get_rcode, knot_wire_set_rcode, hrcode]

/-- The prerequisites of the sample request with QTYPE 0 fail with NXRRSET:
the response carries NXRRSET and the changeset is untouched. -/
theorem process_single_update_prereq_failure_witness :
    ∃ r, process_single_update sample_update_env (sample_request 0 [sample_rrset])
          (sample_zone false) changeset_init = some r ∧
      knot_wire_get_rcode r.request.resp = KNOT_RCODE_NXRRSET ∧
      r.ch = changeset_init := by
  obtain ⟨r, h1, h2, _, _, _, _, h7, _⟩ :=
    process_single_update_prereq_failure sample_update_env (sample_request 0 [sample_rrset])
      (sample_zone false) changeset_init (by decide) (by decide)
  exact ⟨r, h1, by rw [h2]; decide, h7⟩

/-! ## Theorems: the batch -/

/-- The trace of one query holds only its own events. -/
theorem process_single_update_trace (env : update_env) (request : request_data) (zone : zone_t)
    (ch : changeset_t) (r : single_result)
    (h : process_single_update env request zone ch = some r) :
    ∀ e ∈ r.trace, e.per_query = true := by
  unfold process_single_update at h
  dsimp only at h
  split_ifs at h <;> cases h <;> simp [update_event.per_query]

/-- The trace of the loop over the queries holds only per-query events. -/
theorem process_queries_walk_trace (env : update_env) (zone : zone_t) :
    ∀ (queries : List request_data) (ch : changeset_t) (w : walk_result),
      process_queries_walk env zone queries ch = some w →
      ∀ e ∈ w.trace, e.per_query = true := by
  intro queries
  induction queries with
  | nil =>
    intro ch w h
    simp only [process_queries_walk, Option.some.injEq] at h
    subst h
    simp
  | cons q rest ih =>
    intro ch w h
    simp only [process_queries_walk] at h
    split at h
    · cases h
    · rename_i r hr
      split at h
      · cases h
      · rename_i w1 hw1
        cases h
        intro e he
        simp only [List.mem_append] at he
        rcases he with he | he
        · exact process_single_update_trace env q zone ch r hr e he
        · exact ih r.ch w1 hw1 e he

/-- The trace of `sign_update` holds only signing events. -/
theorem sign_update_trace (env : update_env) (zone : zone_t)
    (old_contents new_contents : zone_contents_t) (ddns_ch : changeset_t) :
    ∀ e ∈ (sign_update env zone old_contents new_contents ddns_ch).trace,
      e.of_signing = true := by
  unfold sign_update
  dsimp only
  split_ifs <;> simp [update_event.of_signing]

/-- The two ways `process_queries_store` ends. -/
theorem process_queries_store_shape (env : update_env) (zone : zone_t)
    (queries : List request_data) (ddns_ch : changeset_t) (new_contents : zone_contents_t)
    (tr : List update_event) :
    (∃ ret, ret ≠ KNOT_EOK ∧
      (process_queries_store env zone queries ddns_ch new_contents tr).ret = ret ∧
      (process_queries_store env zone queries ddns_ch new_contents tr).zone = zone ∧
      (process_queries_store env zone queries ddns_ch new_contents tr).trace
        = tr ++ [update_event.zone_change_store ret, update_event.update_rollback]) ∨
    ((process_queries_store env zone queries ddns_ch new_contents tr).ret = KNOT_EOK ∧
      (process_queries_store env zone queries ddns_ch new_contents tr).zone
        = { zone with contents := some new_contents } ∧
      (process_queries_store env zone queries ddns_ch new_contents tr).trace
        = tr ++ [update_event.zone_change_store KNOT_EOK, update_event.zone_switch_contents]
            ++ flush_segment zone) := by
  unfold process_queries_store flush_segment
  dsimp only
  by_cases hs : env.zone_change_store zone ddns_ch = KNOT_EOK
  · right
    simp only [hs, ne_eq, not_true_eq_false, if_false]
    split_ifs <;> simp
  · left
    exact ⟨_, hs, by simp [hs]⟩

/-- The ways `process_queries` ends, each with its return value, the zone it
leaves and its trace. -/
theorem process_queries_shape (env : update_env) (zone : zone_t) (queries : List request_data)
    (r : process_result) (h : process_queries env zone queries = some r) :
    (env.changesets_create_ddns = false ∧ r.ret = KNOT_ENOMEM ∧ r.zone = zone ∧ r.trace = []) ∨
    ∃ w, env.changesets_create_ddns = true ∧
      process_queries_walk env zone queries changeset_init = some w ∧
      ((changeset_is_empty w.ch = true ∧ r.ret = KNOT_EOK ∧ r.zone = zone ∧
          r.queries = w.queries ∧ r.trace = w.trace) ∨
       (changeset_is_empty w.ch = false ∧ ∃ ret, ret ≠ KNOT_EOK ∧ r.ret = ret ∧ r.zone = zone ∧
          r.trace = w.trace ++ [update_event.apply_changesets ret]) ∨
       (changeset_is_empty w.ch = false ∧ zone.conf.dnssec_enable = true ∧
          ∃ sg ret, (∀ e ∈ sg, e.of_signing = true) ∧ ret ≠ KNOT_EOK ∧ r.ret = ret ∧
            r.zone = zone ∧
            r.trace = w.trace ++ [update_event.apply_changesets KNOT_EOK] ++ sg
              ++ [update_event.sign_update ret, update_event.update_rollback]) ∨
       (changeset_is_empty w.ch = false ∧
          ∃ seg ret, ((zone.conf.dnssec_enable = false ∧ seg = []) ∨
            (zone.conf.dnssec_enable = true ∧
              ∃ sg : List update_event, (∀ e ∈ sg, e.of_signing = true) ∧
                seg = sg ++ [update_event.sign_update KNOT_EOK])) ∧ ret ≠ KNOT_EOK ∧ r.ret = ret ∧ r.zone = zone ∧
            r.trace = w.trace ++ [update_event.apply_changesets KNOT_EOK] ++ seg
              ++ [update_event.zone_change_store ret, update_event.update_rollback]) ∨
       (changeset_is_empty w.ch = false ∧
          ∃ seg new_contents, ((zone.conf.dnssec_enable = false ∧ seg = []) ∨
            (zone.conf.dnssec_enable = true ∧
              ∃ sg : List update_event, (∀ e ∈ sg, e.of_signing = true) ∧
                seg = sg ++ [update_event.sign_update KNOT_EOK])) ∧ r.ret = KNOT_EOK ∧
            r.zone = { zone with contents := some new_contents } ∧
            r.trace = w.trace ++ [update_event.apply_changesets KNOT_EOK] ++ seg
              ++ [update_event.zone_change_store KNOT_EOK, update_event.zone_switch_contents]
              ++ flush_segment zone)) := by
  unfold process_queries at h
  cases halloc1 : env.changesets_create_ddns with
  | false =>
    left
    simp only [halloc1, if_true, Option.some.injEq] at h
    subst h
    exact ⟨rfl, rfl, rfl, rfl⟩
  | true =>
    right
    simp only [halloc1, Bool.true_eq_false, if_false] at h
    cases hw : process_queries_walk env zone queries changeset_init with
    | none => simp [hw] at h
    | some w =>
      refine ⟨w, rfl, rfl, ?_⟩
      simp only [hw] at h
      by_cases hempty : changeset_is_empty w.ch = true
      · left
        simp only [hempty, Bool.not_true, Bool.false_eq_true, if_false, Option.some.injEq] at h
        subst h
        exact ⟨hempty, rfl, rfl, rfl, rfl⟩
      · right
        have hempty1 : changeset_is_empty w.ch = false := by simpa using hempty
        simp only [hempty1, Bool.not_false, if_true] at h
        by_cases ha : (env.apply_changesets zone w.ch).1 = KNOT_EOK
        · right
          simp only [ha, ne_eq, not_true_eq_false, if_false] at h
          cases hnc : (env.apply_changesets zone w.ch).2 with
          | none => simp [hnc] at h
          | some nc =>
            simp only [hnc] at h
            unfold process_queries_publish at h
            by_cases hd : zone.conf.dnssec_enable = true
            · simp only [hd, if_true] at h
              cases hc : zone.contents with
              | none => simp [hc] at h
              | some old =>
                simp only [hc] at h
                have hsg := sign_update_trace env zone old nc w.ch
                by_cases hsr : (sign_update env zone old nc w.ch).ret = KNOT_EOK
                · simp only [hsr, ne_eq, not_true_eq_false, if_false, Option.some.injEq] at h
                  subst h
                  right
                  rcases process_queries_store_shape env zone w.queries
                      (sign_update env zone old nc w.ch).ddns_ch
                      (sign_update env zone old nc w.ch).new_contents
                      (w.trace ++ [update_event.apply_changesets KNOT_EOK]
                        ++ (sign_update env zone old nc w.ch).trace
                        ++ [update_event.sign_update KNOT_EOK]) with hst | hst
                  · left
                    obtain ⟨ret, h1, h2, h3, h4⟩ := hst
                    refine ⟨hempty1, _, ret, Or.inr ⟨hd, _, hsg, rfl⟩, h1, h2, h3, ?_⟩
                    rw [h4]; simp
                  · right
                    obtain ⟨h2, h3, h4⟩ := hst
                    refine ⟨hempty1, _, _, Or.inr ⟨hd, _, hsg, rfl⟩, h2, h3, ?_⟩
                    rw [h4]; simp
                · simp only [hsr, ne_eq, not_false_eq_true, if_true, Option.some.injEq] at h
                  subst h
                  left
                  exact ⟨hempty1, hd, _, _, hsg, hsr, rfl, rfl, by simp⟩
            · have hd1 : zone.conf.dnssec_enable = false := by simpa using hd
              simp only [hd1, Bool.false_eq_true, if_false, Option.some.injEq] at h
              subst h
              right
              rcases process_queries_store_shape env zone w.queries w.ch nc
                  (w.trace ++ [update_event.apply_changesets KNOT_EOK]) with hst | hst
              · left
                obtain ⟨ret, h1, h2, h3, h4⟩ := hst
                refine ⟨hempty1, [], ret, Or.inl ⟨hd1, rfl⟩, h1, h2, h3, ?_⟩
                rw [h4]; simp
              · right
                obtain ⟨h2, h3, h4⟩ := hst
                refine ⟨hempty1, [], _, Or.inl ⟨hd1, rfl⟩, h2, h3, ?_⟩
                rw [h4]; simp
        · left
          simp only [ha, ne_eq, not_false_eq_true, if_true] at h
          refine ⟨hempty1, _, ha, ?_⟩
          split_ifs at h <;> cases h <;> exact ⟨rfl, rfl, rfl⟩

/-- No `assert` of `process_single_update` fails when the two DDNS
collaborators report an RCODE other than NOERROR with every error. -/
theorem process_single_update_returns (env : update_env) (zone : zone_t)
    (hp : ∀ query contents, (env.ddns_process_prereqs query contents).ret ≠ KNOT_EOK →
      (env.ddns_process_prereqs query contents).rcode ≠ KNOT_RCODE_NOERROR)
    (hu : ∀ z query ch rcode, (env.ddns_process_update z query ch rcode).ret ≠ KNOT_EOK →
      (env.ddns_process_update z query ch rcode).rcode ≠ KNOT_RCODE_NOERROR)
    (request : request_data) (ch : changeset_t) :
    ∃ r, process_single_update env request zone ch = some r := by
  unfold process_single_update
  dsimp only
  by_cases h1 : (env.ddns_process_prereqs request.query zone.contents).ret = KNOT_EOK
  · by_cases h2 : (env.ddns_process_update zone request.query ch
        (env.ddns_process_prereqs request.query zone.contents).rcode).ret = KNOT_EOK
    · simp [h1, h2]
    · simp [h1, h2, hu _ _ _ _ h2]
  · simp [h1, hp _ _ h1]

/-- The loop over the queries runs to its end under the same condition. -/
theorem process_queries_walk_returns (env : update_env) (zone : zone_t)
    (hp : ∀ query contents, (env.ddns_process_prereqs query contents).ret ≠ KNOT_EOK →
      (env.ddns_process_prereqs query contents).rcode ≠ KNOT_RCODE_NOERROR)
    (hu : ∀ z query ch rcode, (env.ddns_process_update z query ch rcode).ret ≠ KNOT_EOK →
      (env.ddns_process_update z query ch rcode).rcode ≠ KNOT_RCODE_NOERROR) :
    ∀ (queries : List request_data) (ch : changeset_t),
      ∃ w, process_queries_walk env zone queries ch = some w := by
  intro queries
  induction queries with
  | nil => intro ch; exact ⟨_, rfl⟩
  | cons q rest ih =>
    intro ch
    obtain ⟨r, hr⟩ := process_single_update_returns env zone hp hu q ch
    obtain ⟨w, hw⟩ := ih r.ch
    exact ⟨{ queries := r.request :: w.queries, ch := w.ch, trace := r.trace ++ w.trace },
      by simp only [process_queries_walk, hr, hw]⟩

/-- `process_queries` returns, that is no `assert` fails, when the DDNS
collaborators report an RCODE with every error, a successful
`apply_changesets` hands out new contents, and a zone with DNSSEC enabled
has contents. -/
theorem process_queries_returns (env : update_env) (zone : zone_t)
    (queries : List request_data)
    (hp : ∀ query contents, (env.ddns_process_prereqs query contents).ret ≠ KNOT_EOK →
      (env.ddns_process_prereqs query contents).rcode ≠ KNOT_RCODE_NOERROR)
    (hu : ∀ z query ch rcode, (env.ddns_process_update z query ch rcode).ret ≠ KNOT_EOK →
      (env.ddns_process_update z query ch rcode).rcode ≠ KNOT_RCODE_NOERROR)
    (ha : ∀ ch, (env.apply_changesets zone ch).1 = KNOT_EOK →
      (env.apply_changesets zone ch).2 ≠ none)
    (hc : zone.conf.dnssec_enable = true → zone.contents ≠ none) :
    ∃ r, process_queries env zone queries = some r := by
  obtain ⟨w, hw⟩ := process_queries_walk_returns env zone hp hu queries changeset_init
  unfold process_queries
  simp only [hw]
  split_ifs with h1 h2 h3 h4
  · exact ⟨_, rfl⟩
  · exact ⟨_, rfl⟩
  · exact ⟨_, rfl⟩
  · have h3' : (env.apply_changesets zone w.ch).1 = KNOT_EOK := not_not.1 h3
    cases hnc : (env.apply_changesets zone w.ch).2 with
    | none => exact absurd hnc (ha _ h3')
    | some nc =>
      simp only
      unfold process_queries_publish
      by_cases hd : zone.conf.dnssec_enable = true
      · cases hz : zone.contents with
        | none => exact absurd hz (hc hd)
        | some old =>
          simp only [hd, if_true]
          split_ifs <;> exact ⟨_, rfl⟩
      · simp only [hd, if_false]
        exact ⟨_, rfl⟩
  · exact ⟨_, rfl⟩

/-- An event that is not a per-query event is not in a list of per-query
events. -/
theorem not_mem_of_per_query {l : List update_event} (h : ∀ e ∈ l, e.per_query = true)
    {e : update_event} (he : e.per_query = false) : e ∉ l := by
  intro hmem
  have := h e hmem
  rw [he] at this
  cases this

/-- An event that is not a signing event is not in a list of signing
events. -/
theorem not_mem_of_signing {l : List update_event} (h : ∀ e ∈ l, e.of_signing = true)
    {e : update_event} (he : e.of_signing = false) : e ∉ l := by
  intro hmem
  have := h e hmem
  rw [he] at this
  cases this

/-- The signing segment of a batch's trace, between `apply_changesets` and
`zone_change_store` when signing did not fail, is empty without DNSSEC and
holds the events of `sign_update` and its return with `KNOT_EOK` with DNSSEC.
An event in it is a signing event or the successful return of
`sign_update`. -/
theorem mem_signing_segment {zone : zone_t} {seg : List update_event}
    (h : ((zone.conf.dnssec_enable = false ∧ seg = []) ∨
            (zone.conf.dnssec_enable = true ∧
              ∃ sg : List update_event, (∀ e ∈ sg, e.of_signing = true) ∧
                seg = sg ++ [update_event.sign_update KNOT_EOK]))) {e : update_event} (he : e ∈ seg) :
    e.of_signing = true ∨ e = update_event.sign_update KNOT_EOK := by
  rcases h with ⟨_, rfl⟩ | ⟨_, sg, hsg, rfl⟩
  · cases he
  · simp only [List.mem_append, List.mem_singleton] at he
    rcases he with he | he
    · exact Or.inl (hsg e he)
    · exact Or.inr he

/-- The signing segment holds the successful return of `sign_update` exactly
when DNSSEC is enabled. -/
theorem sign_update_mem_signing_segment {zone : zone_t} {seg : List update_event}
    (h : ((zone.conf.dnssec_enable = false ∧ seg = []) ∨
            (zone.conf.dnssec_enable = true ∧
              ∃ sg : List update_event, (∀ e ∈ sg, e.of_signing = true) ∧
                seg = sg ++ [update_event.sign_update KNOT_EOK]))) :
    update_event.sign_update KNOT_EOK ∈ seg ↔ zone.conf.dnssec_enable = true := by
  rcases h with ⟨hd, rfl⟩ | ⟨hd, sg, _, rfl⟩
  · simp [hd]
  · simp [hd]

/-- Scheduling an event other than DNSSEC is not a signing event. -/
theorem schedule_of_signing {ty : zone_event_type_t} (t : Int)
    (h : ty ≠ zone_event_type_t.ZONE_EVENT_DNSSEC) :
    (update_event.zone_events_schedule ty t).of_signing = false := by
  cases ty <;> first | rfl | exact absurd rfl h

/-- What `process_queries` leaves behind. Either the batch is not published:
the zone is as before, the trace has no switch of the contents and schedules
nothing but possibly the next re-sign, one of the steps (non-empty changeset,
apply, signing when DNSSEC is enabled, journal) has not succeeded, and a step
that failed gave the return value. Or it is published: the return value is
`KNOT_EOK`, and the trace is a prefix with the successful steps and no
failed one, then the switch, then the FLUSH when configured. -/
theorem process_queries_outcome (env : update_env) (zone : zone_t)
    (queries : List request_data) (r : process_result)
    (h : process_queries env zone queries = some r) :
    (r.zone = zone ∧ update_event.zone_switch_contents ∉ r.trace ∧
      (∀ ty t, ty ≠ zone_event_type_t.ZONE_EVENT_DNSSEC →
        update_event.zone_events_schedule ty t ∉ r.trace) ∧
      ¬((∃ w, process_queries_walk env zone queries changeset_init = some w ∧
            changeset_is_empty w.ch = false) ∧
          update_event.apply_changesets KNOT_EOK ∈ r.trace ∧
          (zone.conf.dnssec_enable = true → update_event.sign_update KNOT_EOK ∈ r.trace) ∧
          update_event.zone_change_store KNOT_EOK ∈ r.trace) ∧
      (∀ ret, ret ≠ KNOT_EOK →
        (update_event.apply_changesets ret ∈ r.trace ∨ update_event.sign_update ret ∈ r.trace ∨
          update_event.zone_change_store ret ∈ r.trace) → r.ret = ret)) ∨
    (r.ret = KNOT_EOK ∧
      (∃ w, process_queries_walk env zone queries changeset_init = some w ∧
        changeset_is_empty w.ch = false) ∧
      ∃ new_contents pre, r.zone = { zone with contents := some new_contents } ∧
        r.trace = pre ++ [update_event.zone_switch_contents] ++ flush_segment zone ∧
        update_event.apply_changesets KNOT_EOK ∈ pre ∧
        (zone.conf.dnssec_enable = true → update_event.sign_update KNOT_EOK ∈ pre) ∧
        update_event.zone_change_store KNOT_EOK ∈ pre ∧
        update_event.zone_switch_contents ∉ pre ∧
        (∀ ty t, ty ≠ zone_event_type_t.ZONE_EVENT_DNSSEC →
          update_event.zone_events_schedule ty t ∉ pre) ∧
        (∀ ret, ret ≠ KNOT_EOK →
          update_event.apply_changesets ret ∉ pre ∧ update_event.sign_update ret ∉ pre ∧
            update_event.zone_change_store ret ∉ pre)) := by
  rcases process_queries_shape env zone queries r h with
    ⟨_, hret, hz, htr⟩ | ⟨w, _, hw, hcase⟩
  · left
    refine ⟨hz, by simp [htr], by simp [htr], by simp [htr], ?_⟩
    intro ret _ hmem
    simp [htr] at hmem
  · have ht := process_queries_walk_trace env zone queries changeset_init w hw
    have w_apply : ∀ ret, update_event.apply_changesets ret ∉ w.trace :=
      fun _ => not_mem_of_per_query ht rfl
    have w_sign : ∀ ret, update_event.sign_update ret ∉ w.trace :=
      fun _ => not_mem_of_per_query ht rfl
    have w_store : ∀ ret, update_event.zone_change_store ret ∉ w.trace :=
      fun _ => not_mem_of_per_query ht rfl
    have w_switch : update_event.zone_switch_contents ∉ w.trace :=
      not_mem_of_per_query ht rfl
    have w_sched : ∀ ty t, update_event.zone_events_schedule ty t ∉ w.trace :=
      fun _ _ => not_mem_of_per_query ht rfl
    rcases hcase with ⟨he, hret, hz, _, htr⟩ | ⟨he, ret', hne, hret, hz, htr⟩ |
      ⟨he, hd, sg, ret', hsg, hne, hret, hz, htr⟩ | ⟨he, seg, ret', hseg, hne, hret, hz, htr⟩ |
      ⟨he, seg, nc, hseg, hret, hz, htr⟩
    · left
      refine ⟨hz, by rw [htr]; exact w_switch, ?_, ?_, ?_⟩
      · intro ty t _; rw [htr]; exact w_sched ty t
      · rintro ⟨⟨w', hw', he'⟩, _⟩
        rw [hw] at hw'
        cases hw'
        rw [he] at he'
        cases he'
      · intro ret _ hmem
        rw [htr] at hmem
        rcases hmem with hmem | hmem | hmem
        · exact absurd hmem (w_apply ret)
        · exact absurd hmem (w_sign ret)
        · exact absurd hmem (w_store ret)
    · left
      refine ⟨hz, ?_, ?_, ?_, ?_⟩
      · simp [htr, w_switch]
      · intro ty t _; simp [htr, w_sched]
      · rintro ⟨_, hmem, _⟩
        simp only [htr, List.mem_append, List.mem_singleton, update_event.apply_changesets.injEq]
          at hmem
        rcases hmem with hmem | hmem
        · exact w_apply _ hmem
        · exact hne hmem.symm
      · intro ret _ hmem
        simp only [htr, List.mem_append, List.mem_singleton, update_event.apply_changesets.injEq,
          w_apply, w_sign, w_store, false_or, reduceCtorEq, or_false] at hmem
        rw [hret]; exact hmem.symm
    · have sg_apply : ∀ ret, update_event.apply_changesets ret ∉ sg :=
        fun _ => not_mem_of_signing hsg rfl
      have sg_sign : ∀ ret, update_event.sign_update ret ∉ sg :=
        fun _ => not_mem_of_signing hsg rfl
      have sg_store : ∀ ret, update_event.zone_change_store ret ∉ sg :=
        fun _ => not_mem_of_signing hsg rfl
      have sg_switch : update_event.zone_switch_contents ∉ sg := not_mem_of_signing hsg rfl
      left
      refine ⟨hz, ?_, ?_, ?_, ?_⟩
      · simp [htr, w_switch, sg_switch]
      · intro ty t hty
        have := not_mem_of_signing hsg (schedule_of_signing t hty)
        simp [htr, w_sched, this]
      · rintro ⟨_, _, hmem, _⟩
        have hmem := hmem hd
        simp only [htr, List.mem_append, List.mem_cons, List.mem_singleton, w_sign, sg_sign,
          reduceCtorEq, false_or, or_false, update_event.sign_update.injEq,
          List.not_mem_nil] at hmem
        exact hne hmem.symm
      · intro ret hr hmem
        simp only [htr, List.mem_append, List.mem_cons, List.mem_singleton, w_apply, w_sign,
          w_store, sg_apply, sg_sign, sg_store, reduceCtorEq, false_or, or_false,
          update_event.sign_update.injEq, update_event.apply_changesets.injEq,
          List.not_mem_nil] at hmem
        rcases hmem with hmem | hmem
        · exact absurd hmem hr
        · rw [hret]; exact hmem.symm
    · have seg_apply : ∀ ret, update_event.apply_changesets ret ∉ seg := by
        intro ret hmem
        rcases mem_signing_segment hseg hmem with h1 | h1 <;> cases h1
      have seg_store : ∀ ret, update_event.zone_change_store ret ∉ seg := by
        intro ret hmem
        rcases mem_signing_segment hseg hmem with h1 | h1 <;> cases h1
      have seg_switch : update_event.zone_switch_contents ∉ seg := by
        intro hmem
        rcases mem_signing_segment hseg hmem with h1 | h1 <;> cases h1
      have seg_sign : ∀ ret, update_event.sign_update ret ∈ seg → ret = KNOT_EOK := by
        intro ret hmem
        rcases mem_signing_segment hseg hmem with h1 | h1
        · cases h1
        · cases h1; rfl
      left
      refine ⟨hz, ?_, ?_, ?_, ?_⟩
      · simp [htr, w_switch, seg_switch]
      · intro ty t hty
        have : update_event.zone_events_schedule ty t ∉ seg := by
          intro hmem
          rcases mem_signing_segment hseg hmem with h1 | h1
          · rw [schedule_of_signing t hty] at h1; cases h1
          · cases h1
        simp [htr, w_sched, this]
      · rintro ⟨_, _, _, hmem⟩
        simp only [htr, List.mem_append, List.mem_cons, List.mem_singleton, w_store, seg_store,
          reduceCtorEq, false_or, or_false, update_event.zone_change_store.injEq,
          List.not_mem_nil] at hmem
        exact hne hmem.symm
      · intro ret hr hmem
        simp only [htr, List.mem_append, List.mem_cons, List.mem_singleton, w_apply, w_sign,
          w_store, seg_apply, seg_store, reduceCtorEq, false_or, or_false,
          update_event.zone_change_store.injEq, update_event.apply_changesets.injEq,
          List.not_mem_nil] at hmem
        rcases hmem with hmem | hmem | hmem
        · exact absurd hmem hr
        · exact absurd (seg_sign ret hmem) hr
        · rw [hret]; exact hmem.symm
    · have seg_apply : ∀ ret, update_event.apply_changesets ret ∉ seg := by
        intro ret hmem
        rcases mem_signing_segment hseg hmem with h1 | h1 <;> cases h1
      have seg_store : ∀ ret, update_event.zone_change_store ret ∉ seg := by
        intro ret hmem
        rcases mem_signing_segment hseg hmem with h1 | h1 <;> cases h1
      have seg_switch : update_event.zone_switch_contents ∉ seg := by
        intro hmem
        rcases mem_signing_segment hseg hmem with h1 | h1 <;> cases h1
      have seg_sign : ∀ ret, update_event.sign_update ret ∈ seg → ret = KNOT_EOK := by
        intro ret hmem
        rcases mem_signing_segment hseg hmem with h1 | h1
        · cases h1
        · cases h1; rfl
      right
      refine ⟨hret, ⟨w, hw, he⟩, nc,
        w.trace ++ [update_event.apply_changesets KNOT_EOK] ++ seg
          ++ [update_event.zone_change_store KNOT_EOK], hz, ?_, ?_, ?_, ?_, ?_, ?_, ?_⟩
      · rw [htr]; simp
      · simp
      · intro hd
        have := (sign_update_mem_signing_segment hseg).2 hd
        simp [this]
      · simp
      · simp [w_switch, seg_switch]
      · intro ty t hty
        have : update_event.zone_events_schedule ty t ∉ seg := by
          intro hmem
          rcases mem_signing_segment hseg hmem with h1 | h1
          · rw [schedule_of_signing t hty] at h1; cases h1
          · cases h1
        simp [w_sched, this]
      · intro ret hr
        refine ⟨?_, ?_, ?_⟩
        · simp [w_apply, seg_apply, hr]
        · intro hmem
          simp only [List.mem_append, List.mem_singleton, w_sign, reduceCtorEq, false_or,
            or_false] at hmem
          exact hr (seg_sign ret hmem)
        · simp [w_store, seg_store, hr]

/-- C4: when the changeset of the batch has been allocated, every query has
been processed and the batched changeset has neither adds nor removes,
`process_queries` returns `KNOT_EOK`, the zone (its published contents
included) is as before, and the trace holds no call of `apply_changesets`,
of a signer or `sign_update`, of `zone_change_store`, no switch of the
contents and no scheduled FLUSH. -/
theorem process_queries_empty_changeset (env : update_env) (zone : zone_t)
    (queries : List request_data) (w : walk_result)
    (halloc : env.changesets_create_ddns = true)
    (hwalk : process_queries_walk env zone queries changeset_init = some w)
    (hempty : w.ch.add = [] ∧ w.ch.remove = []) :
    ∃ r, process_queries env zone queries = some r ∧
      r.ret = KNOT_EOK ∧ r.zone = zone ∧ r.zone.contents = zone.contents ∧
      (∀ ret, update_event.apply_changesets ret ∉ r.trace) ∧
      (∀ ret, update_event.knot_dnssec_zone_sign ret ∉ r.trace) ∧
      (∀ ret, update_event.knot_dnssec_sign_changeset ret ∉ r.trace) ∧
      (∀ ret, update_event.sign_update ret ∉ r.trace) ∧
      (∀ ret, update_event.zone_change_store ret ∉ r.trace) ∧
      update_event.zone_switch_contents ∉ r.trace ∧
      (∀ t, update_event.zone_events_schedule zone_event_type_t.ZONE_EVENT_FLUSH t
              ∉ r.trace) := by
  have he : changeset_is_empty w.ch = true := by
    simp [changeset_is_empty, hempty.1, hempty.2]
  have h : process_queries env zone queries
      = some { ret := KNOT_EOK, zone := zone, queries := w.queries, trace := w.trace } := by
    unfold process_queries
    simp [halloc, hwalk, he]
  have ht := process_queries_walk_trace env zone queries changeset_init w hwalk
  refine ⟨_, h, rfl, rfl, rfl, ?_, ?_, ?_, ?_, ?_, ?_, ?_⟩
  · intro ret; exact not_mem_of_per_query ht rfl
  · intro ret; exact not_mem_of_per_query ht rfl
  · intro ret; exact not_mem_of_per_query ht rfl
  · intro ret; exact not_mem_of_per_query ht rfl
  · intro ret; exact not_mem_of_per_query ht rfl
  · exact not_mem_of_per_query ht rfl
  · intro t; exact not_mem_of_per_query ht rfl

/-- A batch whose only query fails its prerequisites leaves the changeset
empty: `process_queries` returns `KNOT_EOK` and the zone is as before. -/
theorem process_queries_empty_changeset_witness :
    ∃ r, process_queries sample_update_env (sample_zone false)
          [sample_request 0 [sample_rrset]] = some r ∧
      r.ret = KNOT_EOK ∧ r.zone = sample_zone false ∧
      update_event.zone_switch_contents ∉ r.trace := by
  obtain ⟨r, h1, h2, h3, _, _, _, _, _, _, h10, _⟩ :=
    process_queries_empty_changeset sample_update_env (sample_zone false)
      [sample_request 0 [sample_rrset]]
      { queries := [{ (sample_request 0 [sample_rrset]) with
                      resp := knot_wire_set_rcode (sample_request 0 [sample_rrset]).resp
                                KNOT_RCODE_NXRRSET }],
        ch := changeset_init,
        trace := [update_event.ddns_process_prereqs KNOT_ERROR] }
      (by decide) (by decide) (by decide)
  exact ⟨r, h1, h2, h3, h10⟩

/-- The FLUSH segment holds no switch of the contents, no collaborator call
and no event other than an immediate FLUSH. -/
theorem mem_flush_segment {zone : zone_t} {e : update_event} (h : e ∈ flush_segment zone) :
    e = update_event.zone_events_schedule zone_event_type_t.ZONE_EVENT_FLUSH ZONE_EVENT_NOW ∧
      zone.conf.dbsync_timeout = 0 := by
  unfold flush_segment at h
  split_ifs at h with h0
  · simp only [List.mem_singleton] at h
    exact ⟨h, h0⟩
  · cases h

/-- C7: in every run of `update_process_queries` an immediate NOTIFY is
scheduled exactly when `process_queries` was called, returned `KNOT_EOK` and
left the zone with a serial other than the one read before the call. When a
NOTIFY is scheduled, the return value is `KNOT_EOK` and the trace holds the
switch of the contents before the NOTIFY and no NOTIFY before the switch.
When the return value is an error, no NOTIFY is scheduled. -/
theorem update_process_queries_notify_iff (env : update_env) (zone : Option zone_t)
    (queries : Option (List request_data)) (r : update_result)
    (h : update_process_queries env zone queries = some r) :
    (update_event.zone_events_schedule zone_event_type_t.ZONE_EVENT_NOTIFY ZONE_EVENT_NOW
        ∈ r.trace ↔
      ∃ z qs pr, zone = some z ∧ queries = some qs ∧ process_queries env z qs = some pr ∧
        pr.ret = KNOT_EOK ∧
        env.zone_contents_serial pr.zone.contents ≠ env.zone_contents_serial z.contents) ∧
    (update_event.zone_events_schedule zone_event_type_t.ZONE_EVENT_NOTIFY ZONE_EVENT_NOW
        ∈ r.trace →
      r.ret = KNOT_EOK ∧
      ∃ pre post, r.trace = pre ++ update_event.zone_switch_contents :: post ∧
        (∀ t, update_event.zone_events_schedule zone_event_type_t.ZONE_EVENT_NOTIFY t ∉ pre) ∧
        update_event.zone_events_schedule zone_event_type_t.ZONE_EVENT_NOTIFY ZONE_EVENT_NOW
          ∈ post) ∧
    (r.ret ≠ KNOT_EOK →
      ∀ t, update_event.zone_events_schedule zone_event_type_t.ZONE_EVENT_NOTIFY t
        ∉ r.trace) := by
  unfold update_process_queries at h
  cases zone with
  | none =>
    simp only [Option.some.injEq] at h
    subst h
    simp
  | some z =>
    cases queries with
    | none =>
      simp only [Option.some.injEq] at h
      subst h
      simp
    | some qs =>
      simp only at h
      cases hpr : process_queries env z qs with
      | none => simp [hpr] at h
      | some pr =>
        simp only [hpr] at h
        have hnotify : ∀ t, update_event.zone_events_schedule
            zone_event_type_t.ZONE_EVENT_NOTIFY t ∉ pr.trace := by
          intro t
          rcases process_queries_outcome env z qs pr hpr with
            ⟨_, _, hsched, _, _⟩ | ⟨_, _, nc, pre, _, htr, _, _, _, _, hsched, _⟩
          · exact hsched _ _ (by decide)
          · rw [htr]
            intro hmem
            simp only [List.mem_append, List.mem_singleton, reduceCtorEq, or_false] at hmem
            rcases hmem with hmem | hmem
            · exact hsched _ _ (by decide) hmem
            · cases (mem_flush_segment hmem).1
        by_cases hret : pr.ret = KNOT_EOK
        · simp only [hret, ne_eq, not_true_eq_false, if_false] at h
          by_cases hser : env.zone_contents_serial pr.zone.contents
              = env.zone_contents_serial z.contents
          · simp only [hser, if_true, Option.some.injEq] at h
            subst h
            refine ⟨⟨fun hmem => absurd hmem (hnotify _), ?_⟩,
              fun hmem => absurd hmem (hnotify _), fun hne => absurd rfl hne⟩
            rintro ⟨z', qs', pr', hz', hqs', hpr', _, hne⟩
            cases hz'; cases hqs'
            rw [hpr] at hpr'
            cases hpr'
            exact absurd hser hne
          · simp only [hser, if_false, Option.some.injEq] at h
            subst h
            refine ⟨⟨fun _ => ⟨z, qs, pr, rfl, rfl, hpr, hret, hser⟩, fun _ => by simp⟩,
              fun _ => ⟨rfl, ?_⟩, fun hne => absurd rfl hne⟩
            rcases process_queries_outcome env z qs pr hpr with
              ⟨hz, _, _, _, _⟩ | ⟨_, _, nc, pre, _, htr, _, _, _, _, hsched, _⟩
            · rw [hz] at hser
              exact absurd rfl hser
            · refine ⟨pre, flush_segment z ++ [update_event.zone_events_schedule
                  zone_event_type_t.ZONE_EVENT_NOTIFY ZONE_EVENT_NOW], ?_, ?_, by simp⟩
              · simp [htr]
              · intro t
                exact hsched _ _ (by decide)
        · simp only [hret, ne_eq, not_false_eq_true, if_true, Option.some.injEq] at h
          subst h
          refine ⟨⟨fun hmem => absurd hmem (hnotify _), ?_⟩,
            fun hmem => absurd hmem (hnotify _), fun _ t => hnotify t⟩
          rintro ⟨z', qs', pr', hz', hqs', hpr', hret', _⟩
          cases hz'; cases hqs'
          rw [hpr] at hpr'
          cases hpr'
          exact absurd hret' hret

/-- The sample batch adds one RRset to the apex, so the serial of the sample
zone changes: a NOTIFY is scheduled, after the switch of the contents. -/
theorem update_process_queries_notify_iff_witness :
    ∃ r, update_process_queries sample_update_env (some (sample_zone false))
          (some [sample_request KNOT_RRTYPE_SOA [sample_rrset]]) = some r ∧
      update_event.zone_events_schedule zone_event_type_t.ZONE_EVENT_NOTIFY ZONE_EVENT_NOW
        ∈ r.trace ∧
      r.ret = KNOT_EOK ∧
      ∃ pre post, r.trace = pre ++ update_event.zone_switch_contents :: post ∧
        (∀ t, update_event.zone_events_schedule zone_event_type_t.ZONE_EVENT_NOTIFY t ∉ pre) ∧
        update_event.zone_events_schedule zone_event_type_t.ZONE_EVENT_NOTIFY ZONE_EVENT_NOW
          ∈ post := by
  obtain ⟨r, hr⟩ := Option.isSome_iff_exists.1
    (show (update_process_queries sample_update_env (some (sample_zone false))
      (some [sample_request KNOT_RRTYPE_SOA [sample_rrset]])).isSome = true by decide)
  have hmem : update_event.zone_events_schedule zone_event_type_t.ZONE_EVENT_NOTIFY
      ZONE_EVENT_NOW ∈ r.trace := by
    have h0 : (update_process_queries sample_update_env (some (sample_zone false))
        (some [sample_request KNOT_RRTYPE_SOA [sample_rrset]])).map
        (fun r => decide (update_event.zone_events_schedule
          zone_event_type_t.ZONE_EVENT_NOTIFY ZONE_EVENT_NOW ∈ r.trace)) = some true := by
      decide
    rw [hr] at h0
    simpa using h0
  have h := (update_process_queries_notify_iff sample_update_env (some (sample_zone false))
    (some [sample_request KNOT_RRTYPE_SOA [sample_rrset]]) r hr).2.1 hmem
  exact ⟨r, hr, hmem, h⟩

/-! ## Theorems: `sign_update` -/

/-- The apex RRset of a type has changed exactly when the two RRsets
differ. -/
theorem apex_rr_changed_iff (old_contents new_contents : zone_contents_t) (type : Nat) :
    apex_rr_changed old_contents new_contents type = true ↔
      node_rrset old_contents.apex type ≠ node_rrset new_contents.apex type := by
  simp [apex_rr_changed, knot_rrset_equal_whole]

/-- C6 as stated fails: when the signing changeset cannot be allocated,
`sign_update` returns `KNOT_ENOMEM` and calls neither signer, although the
apex DNSKEY RRset differs between the old and the new contents. -/
theorem sign_update_no_memory_no_signer :
    node_rrset sample_contents_empty.apex KNOT_RRTYPE_DNSKEY
        ≠ node_rrset sample_contents_dnskey.apex KNOT_RRTYPE_DNSKEY ∧
      (sign_update sample_update_env_no_memory (sample_zone true) sample_contents_empty
        sample_contents_dnskey changeset_init).ret = KNOT_ENOMEM ∧
      signer_calls (sign_update sample_update_env_no_memory (sample_zone true)
        sample_contents_empty sample_contents_dnskey changeset_init).trace = 0 := by
  decide

/-- C6, amended: either the signing changeset cannot be allocated, and then
`sign_update` returns `KNOT_ENOMEM` without calling a signer; or it is
allocated, and then `knot_dnssec_zone_sign` is called exactly when the apex
DNSKEY RRset or the apex NSEC3PARAM RRset differs between the old and the new
contents, `knot_dnssec_sign_changeset` is called exactly when neither
differs, and the trace holds exactly one signer call. -/
theorem sign_update_signer_choice (env : update_env) (zone : zone_t)
    (old_contents new_contents : zone_contents_t) (ddns_ch : changeset_t) :
    (env.changesets_create_sec = false ∧
      (sign_update env zone old_contents new_contents ddns_ch).ret = KNOT_ENOMEM ∧
      (sign_update env zone old_contents new_contents ddns_ch).trace = []) ∨
    (env.changesets_create_sec = true ∧
      ((∃ ret, update_event.knot_dnssec_zone_sign ret
            ∈ (sign_update env zone old_contents new_contents ddns_ch).trace) ↔
        (node_rrset old_contents.apex KNOT_RRTYPE_DNSKEY
            ≠ node_rrset new_contents.apex KNOT_RRTYPE_DNSKEY ∨
          node_rrset old_contents.apex KNOT_RRTYPE_NSEC3PARAM
            ≠ node_rrset new_contents.apex KNOT_RRTYPE_NSEC3PARAM)) ∧
      ((∃ ret, update_event.knot_dnssec_sign_changeset ret
            ∈ (sign_update env zone old_contents new_contents ddns_ch).trace) ↔
        ¬(node_rrset old_contents.apex KNOT_RRTYPE_DNSKEY
            ≠ node_rrset new_contents.apex KNOT_RRTYPE_DNSKEY ∨
          node_rrset old_contents.apex KNOT_RRTYPE_NSEC3PARAM
            ≠ node_rrset new_contents.apex KNOT_RRTYPE_NSEC3PARAM)) ∧
      signer_calls (sign_update env zone old_contents new_contents ddns_ch).trace = 1) := by
  cases halloc : env.changesets_create_sec with
  | false =>
    left
    simp [sign_update, halloc]
  | true =>
    right
    refine ⟨rfl, ?_⟩
    have hk := apex_rr_changed_iff old_contents new_contents KNOT_RRTYPE_DNSKEY
    have hn := apex_rr_changed_iff old_contents new_contents KNOT_RRTYPE_NSEC3PARAM
    by_cases hfull : (zones_dnskey_changed old_contents new_contents
        || zones_nsec3param_changed old_contents new_contents) = true
    · have hdiff : node_rrset old_contents.apex KNOT_RRTYPE_DNSKEY
            ≠ node_rrset new_contents.apex KNOT_RRTYPE_DNSKEY ∨
          node_rrset old_contents.apex KNOT_RRTYPE_NSEC3PARAM
            ≠ node_rrset new_contents.apex KNOT_RRTYPE_NSEC3PARAM := by
        simp only [Bool.or_eq_true, zones_dnskey_changed, zones_nsec3param_changed] at hfull
        exact hfull.imp hk.1 hn.1
      have ht : (∃ ret, update_event.knot_dnssec_zone_sign ret
            ∈ (sign_update env zone old_contents new_contents ddns_ch).trace) ∧
          (¬∃ ret, update_event.knot_dnssec_sign_changeset ret
            ∈ (sign_update env zone old_contents new_contents ddns_ch).trace) ∧
          signer_calls (sign_update env zone old_contents new_contents ddns_ch).trace = 1 := by
        unfold sign_update
        simp only [halloc, Bool.true_eq_false, if_false, hfull, if_true]
        split_ifs <;> simp [signer_calls]
      exact ⟨iff_of_true ht.1 hdiff, iff_of_false ht.2.1 (not_not.2 hdiff), ht.2.2⟩
    · have hdiff : ¬(node_rrset old_contents.apex KNOT_RRTYPE_DNSKEY
            ≠ node_rrset new_contents.apex KNOT_RRTYPE_DNSKEY ∨
          node_rrset old_contents.apex KNOT_RRTYPE_NSEC3PARAM
            ≠ node_rrset new_contents.apex KNOT_RRTYPE_NSEC3PARAM) := by
        intro hd
        apply hfull
        simp only [Bool.or_eq_true, zones_dnskey_changed, zones_nsec3param_changed]
        exact hd.imp hk.2 hn.2
      have ht : (¬∃ ret, update_event.knot_dnssec_zone_sign ret
            ∈ (sign_update env zone old_contents new_contents ddns_ch).trace) ∧
          (∃ ret, update_event.knot_dnssec_sign_changeset ret
            ∈ (sign_update env zone old_contents new_contents ddns_ch).trace) ∧
          signer_calls (sign_update env zone old_contents new_contents ddns_ch).trace = 1 := by
        have hfull1 : (zones_dnskey_changed old_contents new_contents
            || zones_nsec3param_changed old_contents new_contents) = false := by
          simpa using hfull
        unfold sign_update
        simp only [halloc, Bool.true_eq_false, if_false, hfull1, Bool.false_eq_true]
        split_ifs <;> simp [signer_calls]
      exact ⟨iff_of_false ht.1 hdiff, iff_of_true ht.2.1 hdiff, ht.2.2⟩

/-! ## Theorems: control queries -/

/-- Chunks sent are no handler calls. -/
theorem remote_trace_cmds_send (l : List (List Nat)) :
    remote_trace_cmds (l.map remote_event.send_chunk) = [] := by
  induction l with
  | nil => rfl
  | cons d rest ih => simpa [remote_trace_cmds] using ih

/-- For a valid socket, an allocated argument block and a query that passes
the class and realm checks, `remote_answer` calls the handler that the table
walk finds for the leftmost label, and no other. -/
theorem remote_answer_cmds (env : remote_env) (sock : Int) (srv : server_t) (p : knot_pkt_t)
    (f : remote_cmdf_t) (hsock : 0 ≤ sock) (hmalloc : env.malloc = true)
    (hclass : p.qclass = KNOT_CLASS_CH)
    (hsub : knot_dname_is_sub p.qname remote_realm = true)
    (hf : remote_cmd_lookup remote_cmd_tbl (remote_answer_cmd p.qname) = some f) :
    remote_trace_cmds (remote_answer env sock (some srv) (some p)).trace = [f] := by
  unfold remote_answer
  have hs : ¬ sock < 0 := not_lt.2 hsock
  simp only [hs, if_false, hclass, ne_eq, not_true_eq_false, hsub, Bool.not_true,
    Bool.false_eq_true, hmalloc, Bool.true_eq_false, hf]
  simp only [remote_trace_cmds, remote_trace_cmds_send]

/-- The names of the command table are the eight command names. -/
theorem remote_cmd_tbl_names :
    remote_cmd_tbl.map (fun c => c.name) =
      [cstr "stop", cstr "reload", cstr "refresh", cstr "retransfer", cstr "status",
       cstr "zonestatus", cstr "flush", cstr "signzone"] := by
  rfl

/-- For every item of the command table: `<name>.knot.` is turned into the
label `name` followed by `knot.`, which is a proper subdomain of the realm,
its leftmost label is `name`, and the table walk finds the item's handler. -/
theorem remote_cmd_tbl_names_resolve :
    ∀ c ∈ remote_cmd_tbl,
      knot_dname_from_str (c.name ++ KNOT_CTL_REALM_EXT)
          = some (c.name.length :: c.name ++ [4, 107, 110, 111, 116, 0]) ∧
        knot_dname_is_sub (c.name.length :: c.name ++ [4, 107, 110, 111, 116, 0]) remote_realm
          = true ∧
        remote_answer_cmd (c.name.length :: c.name ++ [4, 107, 110, 111, 116, 0]) = c.name ∧
        remote_cmd_lookup remote_cmd_tbl c.name = some c.f := by
  decide

/-- C9 as stated fails: the query that `remote_query` builds for `stop` is
answered without any handler call when the socket is not valid (`sock < 0`,
`KNOT_EINVAL`), when the server is `NULL` (`KNOT_EINVAL`), and when the
argument block cannot be allocated (`KNOT_ENOMEM`). -/
theorem remote_answer_guard_calls_no_handler :
    (remote_query sample_remote_env (some (cstr "stop")) none).isSome = true ∧
      remote_trace_cmds (remote_answer sample_remote_env (-1) (some sample_server)
        (remote_query sample_remote_env (some (cstr "stop")) none)).trace = [] ∧
      (remote_answer sample_remote_env (-1) (some sample_server)
        (remote_query sample_remote_env (some (cstr "stop")) none)).ret = KNOT_EINVAL ∧
      remote_trace_cmds (remote_answer sample_remote_env 3 none
        (remote_query sample_remote_env (some (cstr "stop")) none)).trace = [] ∧
      (remote_answer sample_remote_env 3 none
        (remote_query sample_remote_env (some (cstr "stop")) none)).ret = KNOT_EINVAL ∧
      remote_trace_cmds (remote_answer sample_remote_env_no_memory 3 (some sample_server)
        (remote_query sample_remote_env (some (cstr "stop")) none)).trace = [] ∧
      (remote_answer sample_remote_env_no_memory 3 (some sample_server)
        (remote_query sample_remote_env (some (cstr "stop")) none)).ret = KNOT_ENOMEM := by
  decide

/-- Each of the eight command names is the name of an item of the command
table. -/
theorem remote_cmd_tbl_complete :
    ∀ name ∈ [cstr "stop", cstr "reload", cstr "refresh", cstr "retransfer", cstr "status",
              cstr "zonestatus", cstr "flush", cstr "signzone"],
      ∃ c ∈ remote_cmd_tbl, c.name = name := by
  decide

/-- C9, amended: for each of the eight command names, the query that
`remote_query(name)` builds has QCLASS CH and QNAME `name.knot.` (the label
`name`, the label `knot`, the root), which is a proper subdomain of the
realm, so it passes the class and realm checks of `remote_answer`; its
leftmost label, as `remote_answer` extracts it, is `name`; and for a valid
socket, a server and an allocated argument block `remote_answer` calls
exactly the handler registered for `name` in `remote_cmd_tbl` and returns
what the handler returns. With `sock < 0` or a `NULL` server it returns
`KNOT_EINVAL`, and with a valid socket and a server but no memory for the
argument block `KNOT_ENOMEM`, in both cases without a handler call. -/
theorem remote_query_answer_dispatch (env : remote_env) (name : List Nat)
    (key : Option knot_tsig_key_t) (pkt : knot_pkt_t)
    (hname : name ∈ [cstr "stop", cstr "reload", cstr "refresh", cstr "retransfer",
                     cstr "status", cstr "zonestatus", cstr "flush", cstr "signzone"])
    (hq : remote_query env (some name) key = some pkt) :
    pkt.qclass = KNOT_CLASS_CH ∧
      pkt.qname = name.length :: name ++ [4, 107, 110, 111, 116, 0] ∧
      knot_dname_is_sub pkt.qname remote_realm = true ∧
      remote_answer_cmd pkt.qname = name ∧
      (∃ f, ({ name := name, f := f } : remote_cmd_t) ∈ remote_cmd_tbl ∧
        ∀ (sock : Int) (srv : server_t), 0 ≤ sock → env.malloc = true →
          remote_trace_cmds (remote_answer env sock (some srv) (some pkt)).trace = [f] ∧
          (remote_answer env sock (some srv) (some pkt)).ret
            = (env.call f srv { arg := pkt.authority, argc := pkt.authority.length,
                                rc := KNOT_RCODE_NOERROR, resp := [], rlen := 0 }).ret) ∧
      (∀ (sock : Int) (s : Option server_t), (sock < 0 ∨ s = none) →
        remote_trace_cmds (remote_answer env sock s (some pkt)).trace = [] ∧
        (remote_answer env sock s (some pkt)).ret = KNOT_EINVAL) ∧
      (∀ (sock : Int) (srv : server_t), 0 ≤ sock → env.malloc = false →
        remote_trace_cmds (remote_answer env sock (some srv) (some pkt)).trace = [] ∧
        (remote_answer env sock (some srv) (some pkt)).ret = KNOT_ENOMEM) := by
  obtain ⟨c, hc, rfl⟩ := remote_cmd_tbl_complete name hname
  obtain ⟨h1, h2, h3, h4⟩ := remote_cmd_tbl_names_resolve c hc
  unfold remote_query at hq
  simp only [h1] at hq
  split_ifs at hq
  cases hq
  refine ⟨rfl, rfl, h2, h3, ⟨c.f, hc, ?_⟩, ?_, ?_⟩
  · intro sock srv hsock hmalloc
    have hf : remote_cmd_lookup remote_cmd_tbl
        (remote_answer_cmd (c.name.length :: c.name ++ [4, 107, 110, 111, 116, 0]))
        = some c.f := by rw [h3]; exact h4
    refine ⟨remote_answer_cmds env sock srv _ c.f hsock hmalloc rfl h2 hf, ?_⟩
    unfold remote_answer
    have hs : ¬ sock < 0 := not_lt.2 hsock
    simp only [hs, if_false, ne_eq, not_true_eq_false, h2, Bool.not_true,
      Bool.false_eq_true, hmalloc, Bool.true_eq_false, hf]
  · intro sock s hg
    cases s with
    | none => exact ⟨rfl, rfl⟩
    | some srv =>
      rcases hg with hg | hg
      · unfold remote_answer
        simp only [hg, if_true]
        exact ⟨rfl, trivial⟩
      · cases hg
  · intro sock srv hsock hmalloc
    have hs : ¬ sock < 0 := not_lt.2 hsock
    unfold remote_answer
    simp only [hs, if_false, ne_eq, not_true_eq_false, h2, Bool.not_true,
      Bool.false_eq_true, hmalloc, if_true]
    exact ⟨rfl, trivial⟩

/-- The query for `reload` built with the sample surroundings is
`reload.knot.` in class CH, and `remote_answer` on socket 3 calls
`remote_c_reload` and nothing else. -/
theorem remote_query_answer_dispatch_witness :
    remote_query sample_remote_env (some (cstr "reload")) none
        = some { id := 4660, qr := false, rcode := KNOT_RCODE_NOERROR,
                 qname := [6, 114, 101, 108, 111, 97, 100, 4, 107, 110, 111, 116, 0],
                 qclass := KNOT_CLASS_CH, qtype := KNOT_RRTYPE_ANY,
                 authority := [], tsig_rr := none } ∧
      remote_answer_cmd [6, 114, 101, 108, 111, 97, 100, 4, 107, 110, 111, 116, 0]
        = cstr "reload" ∧
      remote_trace_cmds (remote_answer sample_remote_env 3 (some sample_server)
        (some { id := 4660, qr := false, rcode := KNOT_RCODE_NOERROR,
                qname := [6, 114, 101, 108, 111, 97, 100, 4, 107, 110, 111, 116, 0],
                qclass := KNOT_CLASS_CH, qtype := KNOT_RRTYPE_ANY,
                authority := [], tsig_rr := none })).trace
        = [remote_cmdf_t.remote_c_reload] := by
  have hq : remote_query sample_remote_env (some (cstr "reload")) none
        = some { id := 4660, qr := false, rcode := KNOT_RCODE_NOERROR,
                 qname := [6, 114, 101, 108, 111, 97, 100, 4, 107, 110, 111, 116, 0],
                 qclass := KNOT_CLASS_CH, qtype := KNOT_RRTYPE_ANY,
                 authority := [], tsig_rr := none } := by decide
  obtain ⟨_, _, _, h4, ⟨f, hf, h⟩, _, _⟩ :=
    remote_query_answer_dispatch sample_remote_env (cstr "reload") none _ (by decide) hq
  have hfr : f = remote_cmdf_t.remote_c_reload := by
    have hall : ∀ c ∈ remote_cmd_tbl, c.name = cstr "reload" →
        c.f = remote_cmdf_t.remote_c_reload := by decide
    exact hall _ hf rfl
  refine ⟨hq, h4, ?_⟩
  rw [← hfr]
  exact (h 3 sample_server (by decide) rfl).1

/-- C10 as stated fails: a query in class IN on an invalid socket is
answered with `KNOT_EINVAL`, which is not `KNOT_EMALF`. -/
theorem remote_answer_invalid_socket_einval :
    (sample_pkt KNOT_RRTYPE_ANY []).qclass ≠ KNOT_CLASS_CH ∧
      (remote_answer sample_remote_env (-1) (some sample_server)
        (some (sample_pkt KNOT_RRTYPE_ANY []))).ret = KNOT_EINVAL ∧
      (remote_answer sample_remote_env 3 none
        (some (sample_pkt KNOT_RRTYPE_ANY []))).ret = KNOT_EINVAL ∧
      KNOT_EINVAL ≠ KNOT_EMALF := by
  decide

/-- C10, amended: whenever the QCLASS of the query is not CH or its QNAME is
not a proper subdomain of `knot.`, `remote_answer` calls no command handler
and sends no response; it returns `KNOT_EMALF` when the socket is valid
(`sock >= 0`) and the server is not `NULL`, and `KNOT_EINVAL` otherwise. -/
theorem remote_answer_malformed (env : remote_env) (sock : Int) (s : Option server_t)
    (p : knot_pkt_t)
    (hq : p.qclass ≠ KNOT_CLASS_CH ∨ knot_dname_is_sub p.qname remote_realm = false) :
    (remote_answer env sock s (some p)).trace = [] ∧
      (0 ≤ sock → s ≠ none → (remote_answer env sock s (some p)).ret = KNOT_EMALF) ∧
      ((sock < 0 ∨ s = none) → (remote_answer env sock s (some p)).ret = KNOT_EINVAL) := by
  cases s with
  | none => simp [remote_answer]
  | some srv =>
    by_cases hs : sock < 0
    · have hs' : ¬ 0 ≤ sock := not_le.2 hs
      simp [remote_answer, hs, hs']
    · have hs' : 0 ≤ sock := not_lt.1 hs
      rcases hq with hq | hq
      · simp [remote_answer, hs, hs', hq]
      · by_cases hc : p.qclass = KNOT_CLASS_CH
        · simp [remote_answer, hs, hs', hq, hc]
        · simp [remote_answer, hs, hs', hc]

/-- A query `stop.knot.` in class IN on socket 3 is answered with
`KNOT_EMALF`, without a handler call and without a response. -/
theorem remote_answer_malformed_witness :
    (remote_answer sample_remote_env 3 (some sample_server)
        (some { id := 1, qr := false, rcode := KNOT_RCODE_NOERROR,
                qname := [4, 115, 116, 111, 112, 4, 107, 110, 111, 116, 0],
                qclass := KNOT_CLASS_IN, qtype := KNOT_RRTYPE_ANY,
                authority := [], tsig_rr := none })).trace = [] ∧
      (remote_answer sample_remote_env 3 (some sample_server)
        (some { id := 1, qr := false, rcode := KNOT_RCODE_NOERROR,
                qname := [4, 115, 116, 111, 112, 4, 107, 110, 111, 116, 0],
                qclass := KNOT_CLASS_IN, qtype := KNOT_RRTYPE_ANY,
                authority := [], tsig_rr := none })).ret = KNOT_EMALF := by
  have h := remote_answer_malformed sample_remote_env 3 (some sample_server)
    { id := 1, qr := false, rcode := KNOT_RCODE_NOERROR,
      qname := [4, 115, 116, 111, 112, 4, 107, 110, 111, 116, 0],
      qclass := KNOT_CLASS_IN, qtype := KNOT_RRTYPE_ANY,
      authority := [], tsig_rr := none } (Or.inl (by decide))
  exact ⟨h.1, h.2.1 (by decide) (by simp)⟩

/-! ## Theorems: TXT records of `remote.c` -/

theorem txt_rdata_nil : txt_rdata [] = [] := rfl

theorem txt_rdata_cons (s : List Nat) (strs : List (List Nat)) :
    txt_rdata (s :: strs) = s.length :: (s ++ txt_rdata strs) := by
  simp [txt_rdata, txt_string]

theorem txt_rdata_append (a b : List (List Nat)) :
    txt_rdata (a ++ b) = txt_rdata a ++ txt_rdata b := by
  simp [txt_rdata]

theorem txt_rdata_replicate_nil (z : Nat) :
    txt_rdata (List.replicate z []) = List.replicate z 0 := by
  induction z with
  | zero => rfl
  | succ z ih => rw [List.replicate_succ, txt_rdata_cons, ih]; rfl

theorem txt_rdata_length_ge (strs : List (List Nat)) :
    strs.length ≤ (txt_rdata strs).length := by
  induction strs with
  | nil => simp
  | cons s strs ih =>
    rw [txt_rdata_cons]
    simp only [List.length_cons, List.length_append]
    omega

theorem txt_rdata_length (strs : List (List Nat)) :
    (txt_rdata strs).length = strs.length + strs.flatten.length := by
  induction strs with
  | nil => simp [txt_rdata]
  | cons s strs ih =>
    rw [txt_rdata_cons]
    simp only [List.length_cons, List.length_append, List.flatten_cons, ih]
    omega

/-- The loop of `remote_create_txt` writes whole character strings of `K`
octets that hold the text from `p` on, and stops with 1 to `K` octets left. -/
theorem remote_create_txt_loop_spec (v : List Nat) (K : Nat) (hK : 0 < K) (hK256 : K < 256) :
    ∀ fuel p, v.length ≤ p + K * fuel + K →
      ∃ strs : List (List Nat),
        (remote_create_txt_loop v K fuel p).2 = txt_rdata strs ∧
        (∀ s ∈ strs, s.length = K) ∧
        (remote_create_txt_loop v K fuel p).1 = p + K * strs.length ∧
        strs.flatten = (v.drop p).take (K * strs.length) ∧
        v.length ≤ (remote_create_txt_loop v K fuel p).1 + K ∧
        (p < v.length → (remote_create_txt_loop v K fuel p).1 < v.length) := by
  intro fuel
  induction fuel with
  | zero =>
    intro p h
    refine ⟨[], ?_⟩
    simp [remote_create_txt_loop, txt_rdata]
    omega
  | succ fuel ih =>
    intro p h
    by_cases hc : p + K < v.length
    · have hf : v.length ≤ (p + K) + K * fuel + K := by
        have : K * (fuel + 1) = K * fuel + K := by ring
        omega
      obtain ⟨strs, h1, h2, h3, h4, h5, h6⟩ := ih (p + K) hf
      refine ⟨(v.drop p).take K :: strs, ?_⟩
      have hlen : ((v.drop p).take K).length = K := by
        rw [List.length_take, List.length_drop]; omega
      have hmod : K % 256 = K := Nat.mod_eq_of_lt hK256
      simp only [remote_create_txt_loop, if_pos hc]
      refine ⟨?_, ?_, ?_, ?_, ?_, ?_⟩
      · rw [txt_rdata_cons, hlen, hmod, h1]
      · intro s hs
        rcases List.mem_cons.1 hs with rfl | hs
        · exact hlen
        · exact h2 s hs
      · rw [h3, List.length_cons]; ring
      · rw [List.flatten_cons, h4, List.length_cons]
        have : K * (strs.length + 1) = K + K * strs.length := by ring
        rw [this, List.take_add, List.drop_drop]
      · exact h5
      · intro _; exact h6 hc
    · refine ⟨[], ?_⟩
      simp [remote_create_txt_loop, hc, txt_rdata]
      omega
/-- The buffer of `remote_create_txt` is made of character strings of at
most 255 octets whose concatenation is the text. -/
theorem remote_create_txt_rdata_spec (v : List Nat) :
    ∃ strs : List (List Nat),
      remote_create_txt_rdata v = txt_rdata strs ∧
      (∀ s ∈ strs, s.length ≤ 255) ∧ strs.flatten = v := by
  have key : ∀ (l : Nat × List Nat) (strs : List (List Nat)),
      l.2 = txt_rdata strs → (∀ s ∈ strs, s.length ≤ 255) →
      strs.flatten = v.take l.1 → l.1 ≤ v.length → v.length - l.1 ≤ 255 →
      ∃ strs2 : List (List Nat),
        (l.2 ++ (if v.length - l.1 > 0 then ((v.length - l.1) % 256) ::
            (v.drop l.1).take (v.length - l.1) else [])) ++
          List.replicate (v.length + (v.length / 255 + 1) -
            (l.2 ++ (if v.length - l.1 > 0 then ((v.length - l.1) % 256) ::
              (v.drop l.1).take (v.length - l.1) else [])).length) 0 = txt_rdata strs2 ∧
        (∀ s ∈ strs2, s.length ≤ 255) ∧ strs2.flatten = v := by
    intro l strs h1 h2 h3 h4 h5
    generalize hz : v.length + (v.length / 255 + 1) -
      (l.2 ++ (if v.length - l.1 > 0 then ((v.length - l.1) % 256) ::
        (v.drop l.1).take (v.length - l.1) else [])).length = z
    by_cases hr : v.length - l.1 > 0
    · refine ⟨strs ++ [v.drop l.1] ++ List.replicate z [], ?_, ?_, ?_⟩
      · have hd : (v.drop l.1).length = v.length - l.1 := List.length_drop _ _
        have ht : (v.drop l.1).take (v.length - l.1) = v.drop l.1 := by
          rw [← hd]; exact List.take_length _
        have hm : (v.length - l.1) % 256 = v.length - l.1 := Nat.mod_eq_of_lt (by omega)
        rw [if_pos hr, ht, hm, txt_rdata_append, txt_rdata_append, txt_rdata_replicate_nil,
          txt_rdata_cons, txt_rdata_nil, List.append_nil, hd, h1]
      · intro s hs
        simp only [List.mem_append, List.mem_singleton, List.mem_replicate] at hs
        rcases hs with (hs | hs) | hs
        · exact h2 s hs
        · rw [hs, List.length_drop]; exact h5
        · rw [hs.2]; simp
      · simp only [List.flatten_append, List.flatten_cons, List.flatten_nil, List.append_nil, h3]
        have : (List.replicate z ([] : List Nat)).flatten = [] := by
          induction z with
          | zero => rfl
          | succ z ih => simp
        rw [this, List.append_nil, List.take_append_drop]
    · refine ⟨strs ++ List.replicate z [], ?_, ?_, ?_⟩
      · rw [if_neg hr, List.append_nil, txt_rdata_append, txt_rdata_replicate_nil, h1]
      · intro s hs
        simp only [List.mem_append, List.mem_replicate] at hs
        rcases hs with hs | hs
        · exact h2 s hs
        · rw [hs.2]; simp
      · have hl : v.length ≤ l.1 := by omega
        simp only [List.flatten_append, h3]
        have : (List.replicate z ([] : List Nat)).flatten = [] := by
          induction z with
          | zero => rfl
          | succ z ih => simp
        rw [this, List.append_nil, List.take_of_length_le hl]
  by_cases h : v.length > 255
  · obtain ⟨strs, h1, h2, h3, h4, h5, h6⟩ :=
      remote_create_txt_loop_spec v 255 (by decide) (by decide) v.length 0 (by omega)
    have h6b := h6 (by omega)
    have := key (remote_create_txt_loop v 255 v.length 0) strs h1
      (fun s hs => le_of_eq (h2 s hs))
      (by rw [h4, h3]; simp) (by omega) (by omega)
    simpa only [remote_create_txt_rdata, if_pos h] using this
  · have := key (0, []) [] rfl (by simp) (by simp) (by simp) (by simp; omega)
    simpa only [remote_create_txt_rdata, if_neg h] using this

/-- The number of octets of the buffer of `remote_create_txt`. -/
theorem remote_create_txt_rdata_length (v : List Nat) :
    (remote_create_txt_rdata v).length = v.length + v.length / 255 + 1 := by
  have key : ∀ (w : List Nat), w.length ≤ v.length + (v.length / 255 + 1) →
      (w ++ List.replicate (v.length + (v.length / 255 + 1) - w.length) 0).length
        = v.length + v.length / 255 + 1 := by
    intro w hw
    rw [List.length_append, List.length_replicate]; omega
  by_cases h : v.length > 255
  · obtain ⟨strs, h1, h2, h3, h4, h5, h6⟩ :=
      remote_create_txt_loop_spec v 255 (by decide) (by decide) v.length 0 (by omega)
    have h6b := h6 (by omega)
    have hfl : strs.flatten.length = 255 * strs.length := by
      rw [h4, List.length_take, List.length_drop]; omega
    have hlen : (remote_create_txt_loop v 255 v.length 0).2.length
        = strs.length + 255 * strs.length := by
      rw [h1, txt_rdata_length, hfl]
    have hdiv : strs.length ≤ v.length / 255 := by
      rw [Nat.le_div_iff_mul_le (by decide)]; omega
    simp only [remote_create_txt_rdata, if_pos h]
    apply key
    have hr : v.length - (remote_create_txt_loop v 255 v.length 0).1 > 0 := by omega
    rw [List.length_append, if_pos hr, List.length_cons, List.length_take, List.length_drop, hlen]
    omega
  · simp only [remote_create_txt_rdata, if_neg h]
    apply key
    by_cases hr : v.length - 0 > 0
    · rw [if_pos hr]; simp
    · rw [if_neg hr]; simp
theorem c_str_of_no_nul (s : List Nat) (h : 0 ∉ s) : c_str s = s := by
  unfold c_str
  rw [List.takeWhile_eq_self_iff]
  intro x hx
  have : x ≠ 0 := fun h0 => h (h0 ▸ hx)
  simpa using this

theorem c_str_length_le (s : List Nat) : (c_str s).length ≤ s.length := by
  unfold c_str
  exact (List.takeWhile_sublist _).length_le

/-- On an RDATA shorter than 65536 octets that is made of character strings
without NUL octets, the loop of `remote_print_txt` prints the strings. -/
theorem remote_print_txt_loop_spec (rdata : List Nat) (hlen : rdata.length < 65536) :
    ∀ (strs : List (List Nat)) (pre : List Nat) (fuel : Nat),
      rdata = pre ++ txt_rdata strs → (∀ s ∈ strs, 0 ∉ s) → strs.length < fuel →
      remote_print_txt_loop rdata rdata.length fuel pre.length pre.length
        = some strs.flatten := by
  intro strs
  induction strs with
  | nil =>
    intro pre fuel h _ hf
    obtain ⟨f, rfl⟩ : ∃ f, fuel = f + 1 := ⟨fuel - 1, by simp at hf; omega⟩
    have : rdata.length = pre.length := by rw [h]; simp [txt_rdata]
    simp [remote_print_txt_loop, this]
  | cons s strs ih =>
    intro pre fuel h hn hf
    obtain ⟨f, rfl⟩ : ∃ f, fuel = f + 1 := ⟨fuel - 1, by simp at hf; omega⟩
    have hr : rdata = (pre ++ txt_string s) ++ txt_rdata strs := by
      rw [h, txt_rdata_cons, txt_string]; simp
    have hl : rdata.length = pre.length + (s.length + 1) + (txt_rdata strs).length := by
      rw [hr]; simp [txt_string]; omega
    have hget : rdata.get? pre.length = some s.length := by
      rw [h, txt_rdata_cons, List.get?_eq_getElem?, List.getElem?_append_right (le_refl _)]
      simp
    have hdrop : (rdata.drop (pre.length + 1)).take s.length = s := by
      have : rdata = (pre ++ [s.length]) ++ (s ++ txt_rdata strs) := by
        rw [h, txt_rdata_cons]; simp
      rw [this]
      have hpl : pre.length + 1 = (pre ++ [s.length]).length := by simp
      rw [hpl, List.drop_left, List.take_left]
    have hmod : (pre.length + (s.length + 1)) % 65536 = (pre ++ txt_string s).length := by
      rw [Nat.mod_eq_of_lt (by omega)]; simp [txt_string]
    have hp : pre.length + (s.length + 1) = (pre ++ txt_string s).length := by
      simp [txt_string]
    have hrec := ih (pre ++ txt_string s) f hr
      (fun t ht => hn t (List.mem_cons_of_mem _ ht)) (by simp at hf; omega)
    have hs0 : 0 ∉ s := hn s (List.mem_cons_self _ _)
    have hlt : pre.length < rdata.length := by omega
    have hle : pre.length + 1 + s.length ≤ rdata.length := by omega
    simp only [remote_print_txt_loop, if_pos hlt, hget, if_pos hle, hdrop, hmod]
    rw [hp, hrec, c_str_of_no_nul s hs0]
    simp

/-- What `remote_print_txt` prints for an RDATA shorter than 65536 octets
that is made of character strings without NUL octets. -/
theorem remote_print_txt_rdata_spec (strs : List (List Nat))
    (hlen : (txt_rdata strs).length < 65536) (hn : ∀ s ∈ strs, 0 ∉ s) :
    remote_print_txt_rdata (txt_rdata strs) = some strs.flatten := by
  have h := remote_print_txt_loop_spec (txt_rdata strs) hlen strs []
    ((txt_rdata strs).length + 1) (by simp) hn
    (Nat.lt_succ_of_le (txt_rdata_length_ge strs))
  unfold remote_print_txt_rdata
  rw [Nat.mod_eq_of_lt hlen]
  simpa using h

/-- When the `uint16_t` length of an RDATA is 1, `remote_print_txt` prints at
most the first character string. -/
theorem remote_print_txt_rdata_short (rdata : List Nat) (len : Nat)
    (h1 : rdata.length % 65536 = 1) (hget : rdata.get? 0 = some len) (hlen : len ≤ 255)
    (out : List Nat) (h : remote_print_txt_rdata rdata = some out) : out.length ≤ len := by
  unfold remote_print_txt_rdata at h
  rw [h1] at h
  have hm : (0 + (len + 1)) % 65536 = len + 1 := by
    rw [Nat.mod_eq_of_lt (by omega)]; omega
  have h01 : (0 : Nat) < 1 := Nat.zero_lt_one
  have hn : ¬ (len + 1 < 1) := by omega
  simp only [remote_print_txt_loop, hget, hm, if_pos h01, if_neg hn] at h
  split_ifs at h with hb
  · simp only [Option.map_some', Option.some.injEq] at h
    rw [← h, List.append_nil]
    exact le_trans (c_str_length_le _) (by simp)
/-- C11, counterexample: `remote_print_txt` does not always print the text
back. For the text `A`, NUL, `B` the RDATA is the one character string of
these 3 octets, and `printf("%s")` prints `A` only. For a text of 65280
octets the RDATA has 65537 octets, the `uint16_t` length `rlen` is 1 and the
loop ends after the first character string. -/
theorem remote_print_txt_not_text :
    remote_create_txt (some sample_result_rr) (some [65, 0, 66])
      = (KNOT_EOK, some { sample_result_rr with rrs := [[3, 65, 0, 66]] }) ∧
    remote_print_txt (some { sample_result_rr with rrs := [[3, 65, 0, 66]] }) 0
      = some (KNOT_EOK, [65]) ∧
    (remote_create_txt_rdata (List.replicate 65280 65)).length = 65537 ∧
    remote_print_txt_rdata (remote_create_txt_rdata (List.replicate 65280 65))
      ≠ some (List.replicate 65280 65) := by
  refine ⟨by decide, by decide, ?_, ?_⟩
  · rw [remote_create_txt_rdata_length, List.length_replicate]
  · intro h
    have hl : (remote_create_txt_rdata (List.replicate 65280 65)).length % 65536 = 1 := by
      rw [remote_create_txt_rdata_length, List.length_replicate]
    obtain ⟨strs, h1, h2, h3⟩ := remote_create_txt_rdata_spec (List.replicate 65280 65)
    cases strs with
    | nil =>
      have : ([] : List Nat).length = 65280 := by
        rw [show ([] : List Nat) = List.replicate 65280 65 from h3, List.length_replicate]
      exact absurd this (by decide)
    | cons s strs =>
      have hs : s.length ≤ 255 := h2 s (List.mem_cons_self _ _)
      have hget : (remote_create_txt_rdata (List.replicate 65280 65)).get? 0
          = some s.length := by
        rw [h1, txt_rdata_cons]; rfl
      have := remote_print_txt_rdata_short _ s.length hl hget hs _ h
      rw [List.length_replicate] at this
      omega

/-- C11 (amended): for every byte string `v`, the RDATA that
`remote_create_txt` adds to an RRset is a sequence of length-prefixed
character strings that exactly fills it, every character string has at most
255 octets, and the strings concatenated in order give `v` back;
`remote_print_txt` prints `v` for this RDATA when `v` has no NUL octet and
the RDATA is shorter than 65536 octets. -/
theorem remote_create_txt_strings (rr : knot_rrset_t) (v : List Nat) :
    ∃ strs : List (List Nat),
      remote_create_txt (some rr) (some v)
        = (KNOT_EOK, some { rr with rrs := rr.rrs ++ [txt_rdata strs] }) ∧
      (∀ s ∈ strs, s.length ≤ 255) ∧
      strs.flatten = v ∧
      (0 ∉ v → (txt_rdata strs).length < 65536 →
        remote_print_txt (some { rr with rrs := rr.rrs ++ [txt_rdata strs] }) rr.rrs.length
          = some (KNOT_EOK, v)) := by
  obtain ⟨strs, h1, h2, h3⟩ := remote_create_txt_rdata_spec v
  refine ⟨strs, ?_, h2, h3, ?_⟩
  · simp only [remote_create_txt, knot_rrset_add_rdata, h1]
  · intro h0 hlen
    have hn : ∀ s ∈ strs, 0 ∉ s := by
      intro s hs hx
      apply h0
      rw [← h3]
      exact List.mem_flatten.2 ⟨s, hs, hx⟩
    have hp := remote_print_txt_rdata_spec strs hlen hn
    have hlt : ¬ ((rr.rrs ++ [txt_rdata strs]).length < 1) := by simp
    have hget : (rr.rrs ++ [txt_rdata strs]).get? rr.rrs.length = some (txt_rdata strs) := by
      rw [List.get?_eq_getElem?, List.getElem?_append_right (le_refl _)]; simp
    simp only [remote_print_txt, if_neg hlt, hget, hp, h3, Option.map_some']

/-- C11, witness: the text `Hi` added to an empty `result.` TXT RRset is
printed back. -/
theorem remote_create_txt_strings_witness :
    remote_print_txt (remote_create_txt (some sample_result_rr) (some [72, 105])).2 0
      = some (KNOT_EOK, [72, 105]) := by
  obtain ⟨strs, h1, _, h3, h4⟩ := remote_create_txt_strings
    sample_result_rr [72, 105]
  have h0 : remote_create_txt (some sample_result_rr) (some [72, 105])
      = (KNOT_EOK, some { sample_result_rr with rrs := [[2, 72, 105]] }) := by decide
  have e := h0.symm.trans h1
  simp only [sample_result_rr, List.nil_append, Prod.mk.injEq, Option.some.injEq,
    knot_rrset_t.mk.injEq, List.cons.injEq, and_true, true_and] at e
  have hl : (txt_rdata strs).length < 65536 := by rw [← e]; decide
  rw [h1]
  exact h4 (by decide) hl

/-! ## Theorems: command handlers of `remote.c` -/

theorem zone_flag_lor_land (x : Nat) : (x ||| 1) &&& 1 = 1 := by
  rw [Nat.and_one_is_mod]
  have h := Nat.testBit_lor x 1 0
  simp only [Nat.testBit_zero] at h
  simp

/-- C13, counterexample: `refresh` with an empty zone list on a database
whose only zone has no master returns `KNOT_EOK` and schedules nothing:
`remote_zone_refresh` returns `KNOT_EINVAL` for the zone before it gets to
`zone_events_schedule`. -/
theorem remote_c_refresh_skips_master_zone :
    remote_zone_refresh (some (sample_zone false))
      = { ret := KNOT_EINVAL, zone := some (sample_zone false), sched := [] } ∧
    remote_c_refresh { zone_db := [sample_zone false] } (sample_cmdargs [])
      = { ret := KNOT_EOK, args := sample_cmdargs [],
          server := { zone_db := [sample_zone false] }, sched := [] } := by
  decide

/-- C13 (amended): the remote command refresh with an empty zone list
(`argc = 0`) schedules an immediate REFRESH event for every zone of the zone
database that has a master and returns `KNOT_EOK`. The events scheduled are
exactly these, and the database is as before. -/
theorem remote_c_refresh_all (s : server_t) (a : remote_cmdargs_t) (h : a.argc = 0) :
    (remote_c_refresh s a).ret = KNOT_EOK ∧
    (∀ (i : Nat) (z : zone_t), s.zone_db[i]? = some z → z.conf.master ≠ none →
      { zone := i, type := zone_event_type_t.ZONE_EVENT_REFRESH, time := ZONE_EVENT_NOW }
        ∈ (remote_c_refresh s a).sched) ∧
    (∀ e ∈ (remote_c_refresh s a).sched,
      e.type = zone_event_type_t.ZONE_EVENT_REFRESH ∧ e.time = ZONE_EVENT_NOW ∧
      ∃ z, s.zone_db[e.zone]? = some z ∧ z.conf.master ≠ none) ∧
    (remote_c_refresh s a).server = s ∧ (remote_c_refresh s a).args = a := by
  have hcb : ∀ z : zone_t, (remote_zone_refresh (some z)).zone = some z := by
    intro z; unfold remote_zone_refresh; split_ifs <;> rfl
  have hsched : ∀ z : zone_t, (remote_zone_refresh (some z)).sched
      = if z.conf.master = none then []
        else [(zone_event_type_t.ZONE_EVENT_REFRESH, ZONE_EVENT_NOW)] := by
    intro z; unfold remote_zone_refresh zone_master; split_ifs <;> rfl
  simp only [remote_c_refresh, if_pos h, knot_zonedb_foreach]
  refine ⟨trivial, ?_, ?_, ?_, trivial⟩
  · intro i z hz hm
    rw [List.mem_flatten]
    refine ⟨[{ zone := i, type := zone_event_type_t.ZONE_EVENT_REFRESH,
               time := ZONE_EVENT_NOW }], ?_, List.mem_singleton.2 rfl⟩
    rw [List.mem_map]
    refine ⟨(i, z), List.mk_mem_enum_iff_getElem?.2 hz, ?_⟩
    simp only [hsched, if_neg hm, List.map_cons, List.map_nil]
  · intro e he
    rw [List.mem_flatten] at he
    obtain ⟨l, hl, hel⟩ := he
    rw [List.mem_map] at hl
    obtain ⟨⟨i, z⟩, hiz, rfl⟩ := hl
    have hz := List.mk_mem_enum_iff_getElem?.1 hiz
    simp only [hsched] at hel
    by_cases hm : z.conf.master = none
    · rw [if_pos hm] at hel; cases hel
    · rw [if_neg hm] at hel
      simp only [List.map_cons, List.map_nil, List.mem_singleton] at hel
      subst hel
      exact ⟨rfl, rfl, z, hz, hm⟩
  · have : s.zone_db.map (fun z => (remote_zone_refresh (some z)).zone.getD z) = s.zone_db := by
      conv_rhs => rw [← List.map_id s.zone_db]
      apply List.map_congr_left
      intro z _
      rw [hcb]; rfl
    rw [this]

/-- C13, witness: `refresh` without arguments on a database of a master zone
and a slave zone schedules REFRESH for the slave zone. -/
theorem remote_c_refresh_all_witness :
    (remote_c_refresh { zone_db := [sample_zone false, sample_slave_zone] }
      (sample_cmdargs [])).sched
      = [{ zone := 1, type := zone_event_type_t.ZONE_EVENT_REFRESH, time := ZONE_EVENT_NOW }] ∧
    (remote_c_refresh { zone_db := [sample_zone false, sample_slave_zone] }
      (sample_cmdargs [])).ret = KNOT_EOK :=
  ⟨by decide,
   (remote_c_refresh_all { zone_db := [sample_zone false, sample_slave_zone] }
      (sample_cmdargs []) rfl).1⟩

/-- C14: the remote commands retransfer and signzone require a zone list:
with `argc = 0` each returns `KNOT_ENOTSUP`, leaves the server with the flags
of every zone as it was, and schedules no event. -/
theorem remote_c_retransfer_signzone_need_zones (s : server_t) (a : remote_cmdargs_t)
    (h : a.argc = 0) :
    (remote_c_retransfer s a).ret = KNOT_ENOTSUP ∧
    (remote_c_retransfer s a).server = s ∧
    (remote_c_retransfer s a).sched = [] ∧
    (remote_c_signzone s a).ret = KNOT_ENOTSUP ∧
    (remote_c_signzone s a).server = s ∧
    (remote_c_signzone s a).sched = [] := by
  simp only [remote_c_retransfer, remote_c_signzone, if_pos h, and_self]

/-- C14, witness: retransfer and signzone without arguments on a database of
a slave zone and a signed zone. -/
theorem remote_c_retransfer_signzone_need_zones_witness :
    (remote_c_retransfer { zone_db := [sample_slave_zone, sample_zone true] }
      (sample_cmdargs [])).ret = KNOT_ENOTSUP ∧
    (remote_c_signzone { zone_db := [sample_slave_zone, sample_zone true] }
      (sample_cmdargs [])).ret = KNOT_ENOTSUP :=
  ⟨(remote_c_retransfer_signzone_need_zones
      { zone_db := [sample_slave_zone, sample_zone true] } (sample_cmdargs []) rfl).1,
   (remote_c_retransfer_signzone_need_zones
      { zone_db := [sample_slave_zone, sample_zone true] } (sample_cmdargs []) rfl).2.2.2.1⟩
theorem knot_zonedb_find_congr (dn : List Nat) :
    ∀ (db db2 : List zone_t), db.map (fun z => z.conf) = db2.map (fun z => z.conf) →
      knot_zonedb_find db dn = knot_zonedb_find db2 dn := by
  intro db
  induction db with
  | nil =>
    intro db2 h
    cases db2 with
    | nil => rfl
    | cons z2 r2 => simp at h
  | cons z r ih =>
    intro db2 h
    cases db2 with
    | nil => simp at h
    | cons z2 r2 =>
      simp only [List.map_cons, List.cons.injEq] at h
      simp only [knot_zonedb_find, h.1, ih r2 h.2]

theorem knot_zonedb_find_some (dn : List Nat) :
    ∀ (db : List zone_t) (i : Nat), knot_zonedb_find db dn = some i →
      ∃ z, db[i]? = some z ∧ z.conf.name = dn := by
  intro db
  induction db with
  | nil => intro i h; simp [knot_zonedb_find] at h
  | cons z r ih =>
    intro i h
    simp only [knot_zonedb_find] at h
    split_ifs at h with hn
    · simp only [Option.some.injEq] at h
      subst h
      exact ⟨z, by simp, hn⟩
    · simp only [Option.map_eq_some'] at h
      obtain ⟨j, hj, rfl⟩ := h
      obtain ⟨z2, h1, h2⟩ := ih j hj
      exact ⟨z2, by simpa using h1, h2⟩

/-- One callback call keeps the configuration of every zone when the
callback keeps the configuration of its zone. -/
theorem zone_cb_apply_conf (cb : Option zone_t → zone_cb_out)
    (hcb : ∀ z : zone_t, ((cb (some z)).zone.getD z).conf = z.conf)
    (db : List zone_t) (j : Option Nat) :
    (zone_cb_apply cb db j).2.1.map (fun z => z.conf) = db.map (fun z => z.conf) := by
  cases j with
  | none => rfl
  | some i =>
    simp only [zone_cb_apply]
    cases hz : db.get? i with
    | none => rfl
    | some z =>
      simp only
      rw [List.get?_eq_getElem?] at hz
      apply List.ext_getElem?
      intro k
      simp only [List.getElem?_map, List.getElem?_set]
      by_cases hik : i = k
      · subst hik
        have hlt : i < db.length := by
          rcases Nat.lt_or_ge i db.length with h | h
          · exact h
          · rw [List.getElem?_eq_none h] at hz; cases hz
        simp only [if_true, if_pos hlt, hz, Option.map_some', hcb]
      · simp only [if_neg hik]

/-- One callback call leaves the zones at the other places and schedules
events for its own zone only. -/
theorem zone_cb_apply_other (cb : Option zone_t → zone_cb_out) (db : List zone_t)
    (j : Option Nat) (i : Nat) (hj : j ≠ some i) :
    (zone_cb_apply cb db j).2.1[i]? = db[i]? ∧
    ∀ e ∈ (zone_cb_apply cb db j).2.2, e.zone ≠ i := by
  cases j with
  | none => exact ⟨rfl, fun e he => by cases he⟩
  | some k =>
    have hki : k ≠ i := fun h => hj (by rw [h])
    simp only [zone_cb_apply]
    cases hz : db.get? k with
    | none => exact ⟨rfl, fun e he => by cases he⟩
    | some z =>
      simp only
      refine ⟨List.getElem?_set_ne hki, ?_⟩
      intro e he
      rw [List.mem_map] at he
      obtain ⟨x, _, rfl⟩ := he
      exact hki

theorem remote_rdata_apply_rr_conf (cb : Option zone_t → zone_cb_out)
    (hcb : ∀ z : zone_t, ((cb (some z)).zone.getD z).conf = z.conf) :
    ∀ (dns : List (List Nat)) (db : List zone_t) (rc : Nat),
      (remote_rdata_apply_rr cb dns db rc).1.map (fun z => z.conf)
        = db.map (fun z => z.conf) := by
  intro dns
  induction dns with
  | nil => intro db rc; rfl
  | cons dn rest ih =>
    intro db rc
    simp only [remote_rdata_apply_rr]
    rw [ih, zone_cb_apply_conf cb hcb]

/-- A zone that no RDATA names is left as it was, without events. -/
theorem remote_rdata_apply_rr_other (cb : Option zone_t → zone_cb_out)
    (hcb : ∀ z : zone_t, ((cb (some z)).zone.getD z).conf = z.conf) (i : Nat) :
    ∀ (dns : List (List Nat)) (db : List zone_t) (rc : Nat),
      (∀ dn ∈ dns, knot_zonedb_find db dn ≠ some i) →
      (remote_rdata_apply_rr cb dns db rc).1[i]? = db[i]? ∧
      ∀ e ∈ (remote_rdata_apply_rr cb dns db rc).2.2, e.zone ≠ i := by
  intro dns
  induction dns with
  | nil => intro db rc _; exact ⟨rfl, fun e he => by cases he⟩
  | cons dn rest ih =>
    intro db rc h
    have h0 := h dn (List.mem_cons_self _ _)
    obtain ⟨a1, a2⟩ := zone_cb_apply_other cb db (knot_zonedb_find db dn) i h0
    have hrest : ∀ d ∈ rest,
        knot_zonedb_find (zone_cb_apply cb db (knot_zonedb_find db dn)).2.1 d ≠ some i := by
      intro d hd
      rw [knot_zonedb_find_congr d _ db (zone_cb_apply_conf cb hcb db _)]
      exact h d (List.mem_cons_of_mem _ hd)
    simp only [remote_rdata_apply_rr]
    obtain ⟨b1, b2⟩ := ih (zone_cb_apply cb db (knot_zonedb_find db dn)).2.1
      (if (zone_cb_apply cb db (knot_zonedb_find db dn)).1 ≠ KNOT_EOK
        then KNOT_RCODE_SERVFAIL else rc) hrest
    refine ⟨b1.trans a1, ?_⟩
    intro e he
    rcases List.mem_append.1 he with he | he
    · exact a2 e he
    · exact b2 e he

theorem remote_rdata_apply_rr_append (cb : Option zone_t → zone_cb_out) :
    ∀ (a b : List (List Nat)) (db : List zone_t) (rc : Nat),
      remote_rdata_apply_rr cb (a ++ b) db rc
        = ((remote_rdata_apply_rr cb b (remote_rdata_apply_rr cb a db rc).1
              (remote_rdata_apply_rr cb a db rc).2.1).1,
           (remote_rdata_apply_rr cb b (remote_rdata_apply_rr cb a db rc).1
              (remote_rdata_apply_rr cb a db rc).2.1).2.1,
           (remote_rdata_apply_rr cb a db rc).2.2 ++
             (remote_rdata_apply_rr cb b (remote_rdata_apply_rr cb a db rc).1
               (remote_rdata_apply_rr cb a db rc).2.1).2.2) := by
  intro a
  induction a with
  | nil => intro b db rc; simp [remote_rdata_apply_rr]
  | cons dn rest ih =>
    intro b db rc
    rw [List.cons_append]
    simp only [remote_rdata_apply_rr]
    rw [ih]
    simp only [List.append_assoc]

/-- The names that `remote_rdata_apply` looks up: the RDATA of the NS
RRsets, in order. -/
theorem remote_rdata_apply_loop_eq (cb : Option zone_t → zone_cb_out) :
    ∀ (rrs : List knot_rrset_t) (db : List zone_t) (rc : Nat),
      remote_rdata_apply_loop cb rrs db rc
        = remote_rdata_apply_rr cb
            (((rrs.filter (fun rr => rr.type = KNOT_RRTYPE_NS)).map (fun rr => rr.rrs)).flatten)
            db rc := by
  intro rrs
  induction rrs with
  | nil => intro db rc; rfl
  | cons rr rest ih =>
    intro db rc
    by_cases h : rr.type = KNOT_RRTYPE_NS
    · have hn : ¬ rr.type ≠ KNOT_RRTYPE_NS := fun hx => hx h
      simp only [remote_rdata_apply_loop, if_neg hn, ih]
      rw [List.filter_cons_of_pos (by simpa using h), List.map_cons, List.flatten_cons,
        remote_rdata_apply_rr_append]
    · have hn : rr.type ≠ KNOT_RRTYPE_NS := h
      simp only [remote_rdata_apply_loop, if_pos hn, ih]
      rw [List.filter_cons_of_neg (by simpa using h)]
theorem remote_zone_retransfer_conf (z : zone_t) :
    ((remote_zone_retransfer (some z)).zone.getD z).conf = z.conf := by
  unfold remote_zone_retransfer
  split_ifs <;> rfl

/-- One call of `remote_zone_retransfer` from `remote_rdata_apply` keeps a
zone in its place with its configuration, and keeps `ZONE_FORCE_AXFR` set. -/
theorem zone_cb_apply_retransfer_keeps (db : List zone_t) (j : Option Nat) (i : Nat)
    (z : zone_t) (hz : db[i]? = some z) :
    ∃ z2, (zone_cb_apply remote_zone_retransfer db j).2.1[i]? = some z2 ∧
      z2.conf = z.conf ∧ (z.flags &&& 1 = 1 → z2.flags &&& 1 = 1) := by
  by_cases hj : j = some i
  · subst hj
    have hlt : i < db.length := by
      rcases Nat.lt_or_ge i db.length with h | h
      · exact h
      · rw [List.getElem?_eq_none h] at hz; cases hz
    have hg : db.get? i = some z := by rw [List.get?_eq_getElem?]; exact hz
    simp only [zone_cb_apply, hg]
    refine ⟨(remote_zone_retransfer (some z)).zone.getD z, ?_, remote_zone_retransfer_conf z, ?_⟩
    · rw [List.getElem?_set_self hlt]
    · intro hf
      unfold remote_zone_retransfer
      split_ifs
      · exact hf
      · exact zone_flag_lor_land z.flags
  · obtain ⟨h1, _⟩ := zone_cb_apply_other remote_zone_retransfer db j i hj
    exact ⟨z, h1.trans hz, rfl, fun h => h⟩

/-- One call of `remote_zone_retransfer` on a zone with a master sets
`ZONE_FORCE_AXFR` and schedules XFER at once. -/
theorem zone_cb_apply_retransfer_hit (db : List zone_t) (i : Nat) (z : zone_t)
    (hz : db[i]? = some z) (hm : z.conf.master ≠ none) :
    ∃ z2, (zone_cb_apply remote_zone_retransfer db (some i)).2.1[i]? = some z2 ∧
      z2.conf = z.conf ∧ z2.flags &&& 1 = 1 ∧
      { zone := i, type := zone_event_type_t.ZONE_EVENT_XFER, time := ZONE_EVENT_NOW }
        ∈ (zone_cb_apply remote_zone_retransfer db (some i)).2.2 := by
  have hlt : i < db.length := by
    rcases Nat.lt_or_ge i db.length with h | h
    · exact h
    · rw [List.getElem?_eq_none h] at hz; cases hz
  have hg : db.get? i = some z := by rw [List.get?_eq_getElem?]; exact hz
  have hr : remote_zone_retransfer (some z)
      = { ret := KNOT_EOK, zone := some { z with flags := z.flags ||| ZONE_FORCE_AXFR },
          sched := [(zone_event_type_t.ZONE_EVENT_XFER, ZONE_EVENT_NOW)] } := by
    unfold remote_zone_retransfer zone_master
    rw [if_neg hm]; rfl
  simp only [zone_cb_apply, hg, hr]
  refine ⟨{ z with flags := z.flags ||| ZONE_FORCE_AXFR }, ?_, rfl,
    zone_flag_lor_land z.flags, ?_⟩
  · rw [List.getElem?_set_self hlt]; rfl
  · simp

theorem remote_rdata_apply_rr_retransfer_keeps (i : Nat) :
    ∀ (dns : List (List Nat)) (db : List zone_t) (rc : Nat) (z : zone_t),
      db[i]? = some z →
      ∃ z2, (remote_rdata_apply_rr remote_zone_retransfer dns db rc).1[i]? = some z2 ∧
        z2.conf = z.conf ∧ (z.flags &&& 1 = 1 → z2.flags &&& 1 = 1) := by
  intro dns
  induction dns with
  | nil => intro db rc z hz; exact ⟨z, hz, rfl, fun h => h⟩
  | cons dn rest ih =>
    intro db rc z hz
    obtain ⟨z1, h1, h2, h3⟩ :=
      zone_cb_apply_retransfer_keeps db (knot_zonedb_find db dn) i z hz
    obtain ⟨z2, k1, k2, k3⟩ := ih _
      (if (zone_cb_apply remote_zone_retransfer db (knot_zonedb_find db dn)).1 ≠ KNOT_EOK
        then KNOT_RCODE_SERVFAIL else rc) z1 h1
    exact ⟨z2, by simpa only [remote_rdata_apply_rr] using k1, k2.trans h2,
      fun h => k3 (h3 h)⟩

/-- A zone with a master that some RDATA names ends with `ZONE_FORCE_AXFR`
and an XFER event. -/
theorem remote_rdata_apply_rr_retransfer_hit (i : Nat) :
    ∀ (dns : List (List Nat)) (db : List zone_t) (rc : Nat) (z : zone_t),
      db[i]? = some z → z.conf.master ≠ none →
      (∃ dn ∈ dns, knot_zonedb_find db dn = some i) →
      ∃ z2, (remote_rdata_apply_rr remote_zone_retransfer dns db rc).1[i]? = some z2 ∧
        z2.flags &&& 1 = 1 ∧
        { zone := i, type := zone_event_type_t.ZONE_EVENT_XFER, time := ZONE_EVENT_NOW }
          ∈ (remote_rdata_apply_rr remote_zone_retransfer dns db rc).2.2 := by
  intro dns
  induction dns with
  | nil => intro db rc z _ _ h; obtain ⟨dn, hd, _⟩ := h; cases hd
  | cons dn rest ih =>
    intro db rc z hz hm h
    by_cases hd : knot_zonedb_find db dn = some i
    · obtain ⟨z1, h1, _, h3, h4⟩ := zone_cb_apply_retransfer_hit db i z hz hm
      rw [← hd] at h1 h4
      obtain ⟨z2, k1, _, k3⟩ := remote_rdata_apply_rr_retransfer_keeps i rest _
        (if (zone_cb_apply remote_zone_retransfer db (knot_zonedb_find db dn)).1 ≠ KNOT_EOK
          then KNOT_RCODE_SERVFAIL else rc) z1 h1
      refine ⟨z2, by simpa only [remote_rdata_apply_rr] using k1, k3 h3, ?_⟩
      simp only [remote_rdata_apply_rr]
      exact List.mem_append_left _ h4
    · obtain ⟨a1, _⟩ := zone_cb_apply_other remote_zone_retransfer db
        (knot_zonedb_find db dn) i hd
      obtain ⟨d, hdm, hdf⟩ := h
      have hdr : d ∈ rest := by
        rcases List.mem_cons.1 hdm with rfl | hx
        · exact absurd hdf hd
        · exact hx
      have hfind : knot_zonedb_find
          (zone_cb_apply remote_zone_retransfer db (knot_zonedb_find db dn)).2.1 d = some i := by
        rw [knot_zonedb_find_congr d _ db
          (zone_cb_apply_conf remote_zone_retransfer remote_zone_retransfer_conf db _)]
        exact hdf
      obtain ⟨z2, k1, k2, k3⟩ := ih _
        (if (zone_cb_apply remote_zone_retransfer db (knot_zonedb_find db dn)).1 ≠ KNOT_EOK
          then KNOT_RCODE_SERVFAIL else rc) z (a1.trans hz) hm ⟨d, hdr, hfind⟩
      refine ⟨z2, by simpa only [remote_rdata_apply_rr] using k1, k2, ?_⟩
      simp only [remote_rdata_apply_rr]
      exact List.mem_append_right _ k3

/-- C15: for the remote command retransfer with a non-empty authority
section (`argc` not 0), every zone that has a master and is the zone that
`knot_zonedb_find` gives for the RDATA of an NS record of that section ends
with `ZONE_FORCE_AXFR` set in its flags and an XFER event scheduled at once.
Records of other types do not name a zone: a zone that no RDATA of an NS
record names stays as it was, flags included, and no event is scheduled for
it. The command returns `KNOT_EOK`. -/
theorem remote_c_retransfer_zones (s : server_t) (a : remote_cmdargs_t) (h : a.argc ≠ 0) :
    (remote_c_retransfer s a).ret = KNOT_EOK ∧
    (∀ (i : Nat) (z : zone_t), s.zone_db[i]? = some z → z.conf.master ≠ none →
      (∃ rr ∈ a.arg.take a.argc, rr.type = KNOT_RRTYPE_NS ∧
        ∃ dn ∈ rr.rrs, knot_zonedb_find s.zone_db dn = some i) →
      ∃ z2, (remote_c_retransfer s a).server.zone_db[i]? = some z2 ∧
        z2.flags &&& ZONE_FORCE_AXFR = ZONE_FORCE_AXFR ∧
        { zone := i, type := zone_event_type_t.ZONE_EVENT_XFER, time := ZONE_EVENT_NOW }
          ∈ (remote_c_retransfer s a).sched) ∧
    (∀ i : Nat,
      (∀ rr ∈ a.arg.take a.argc, rr.type = KNOT_RRTYPE_NS →
        ∀ dn ∈ rr.rrs, knot_zonedb_find s.zone_db dn ≠ some i) →
      (remote_c_retransfer s a).server.zone_db[i]? = s.zone_db[i]? ∧
      ∀ e ∈ (remote_c_retransfer s a).sched, e.zone ≠ i) := by
  have hmem : ∀ dn : List Nat,
      dn ∈ ((((a.arg.take a.argc).filter (fun rr => rr.type = KNOT_RRTYPE_NS)).map
        (fun rr => rr.rrs)).flatten) ↔
      ∃ rr ∈ a.arg.take a.argc, rr.type = KNOT_RRTYPE_NS ∧ dn ∈ rr.rrs := by
    intro dn
    simp only [List.mem_flatten, List.mem_map, List.mem_filter, decide_eq_true_eq]
    constructor
    · rintro ⟨l, ⟨rr, ⟨h1, h2⟩, rfl⟩, h3⟩
      exact ⟨rr, h1, h2, h3⟩
    · rintro ⟨rr, h1, h2, h3⟩
      exact ⟨rr.rrs, ⟨rr, ⟨h1, h2⟩, rfl⟩, h3⟩
  simp only [remote_c_retransfer, if_neg h, remote_rdata_apply_out, remote_rdata_apply,
    Option.getD_some, remote_rdata_apply_loop_eq]
  refine ⟨trivial, ?_, ?_⟩
  · intro i z hz hm hn
    obtain ⟨rr, h1, h2, dn, h3, h4⟩ := hn
    exact remote_rdata_apply_rr_retransfer_hit i _ s.zone_db a.rc z hz hm
      ⟨dn, (hmem dn).2 ⟨rr, h1, h2, h3⟩, h4⟩
  · intro i hn
    apply remote_rdata_apply_rr_other remote_zone_retransfer remote_zone_retransfer_conf i
    intro dn hd
    obtain ⟨rr, h1, h2, h3⟩ := (hmem dn).1 hd
    exact hn rr h1 h2 dn h3

/-- C15, witness: retransfer of `example.` on a database of the slave zones
`other.` and `example.`. -/
theorem remote_c_retransfer_zones_witness :
    ∃ z2, (remote_c_retransfer { zone_db := [sample_other_zone, sample_slave_zone] }
        (sample_cmdargs [sample_ns_example])).server.zone_db[1]? = some z2 ∧
      z2.flags &&& ZONE_FORCE_AXFR = ZONE_FORCE_AXFR ∧
      { zone := 1, type := zone_event_type_t.ZONE_EVENT_XFER, time := ZONE_EVENT_NOW }
        ∈ (remote_c_retransfer { zone_db := [sample_other_zone, sample_slave_zone] }
            (sample_cmdargs [sample_ns_example])).sched :=
  (remote_c_retransfer_zones { zone_db := [sample_other_zone, sample_slave_zone] }
    (sample_cmdargs [sample_ns_example]) (by decide)).2.1 1 sample_slave_zone rfl (by decide)
    ⟨sample_ns_example, by decide, by decide,
      [7, 101, 120, 97, 109, 112, 108, 101, 0], by decide, by decide⟩

/-! ## Theorems: the response of `remote_answer` -/

theorem buf_read_length (buf : List Nat) (p len : Nat) : (buf_read buf p len).length = len := by
  simp [buf_read]

theorem buf_read_add (buf : List Nat) (p m k : Nat) :
    buf_read buf p (m + k) = buf_read buf p m ++ buf_read buf (p + m) k := by
  simp only [buf_read, List.range_add, List.map_append, List.map_map]
  congr 1
  apply List.map_congr_left
  intro i _
  simp only [Function.comp, Nat.add_assoc]

theorem remote_answer_prepare_response (env : remote_env) (ret : Int) (args0 : remote_cmdargs_t) :
    remote_answer_response env ret args0
      = (remote_answer_chunks (remote_answer_prepare env ret args0).resp
            (remote_answer_prepare env ret args0).rlen 16384
            (remote_answer_prepare env ret args0).rlen 0).2 ++
        (if 0 < (remote_answer_prepare env ret args0).rlen -
              (remote_answer_chunks (remote_answer_prepare env ret args0).resp
                (remote_answer_prepare env ret args0).rlen 16384
                (remote_answer_prepare env ret args0).rlen 0).1
         then [buf_read (remote_answer_prepare env ret args0).resp
                (remote_answer_chunks (remote_answer_prepare env ret args0).resp
                  (remote_answer_prepare env ret args0).rlen 16384
                  (remote_answer_prepare env ret args0).rlen 0).1
                (((remote_answer_prepare env ret args0).rlen -
                  (remote_answer_chunks (remote_answer_prepare env ret args0).resp
                    (remote_answer_prepare env ret args0).rlen 16384
                    (remote_answer_prepare env ret args0).rlen 0).1) % 65536)]
         else []) := rfl

/-- The first loop of the response part sends whole chunks that hold the
text from `p` on, and stops with 1 to `chunk` octets left. -/
theorem remote_answer_chunks_spec (resp : List Nat) (rlen chunk : Nat)
    (hc1 : chunk < 65536) :
    ∀ fuel p, rlen ≤ p + chunk * fuel + chunk →
      (remote_answer_chunks resp rlen chunk fuel p).1
        = p + chunk * (remote_answer_chunks resp rlen chunk fuel p).2.length ∧
      (∀ d ∈ (remote_answer_chunks resp rlen chunk fuel p).2, d.length = chunk) ∧
      (remote_answer_chunks resp rlen chunk fuel p).2.flatten
        = buf_read resp p (chunk * (remote_answer_chunks resp rlen chunk fuel p).2.length) ∧
      rlen ≤ (remote_answer_chunks resp rlen chunk fuel p).1 + chunk ∧
      (p < rlen → (remote_answer_chunks resp rlen chunk fuel p).1 < rlen) := by
  intro fuel
  induction fuel with
  | zero =>
    intro p h
    have e : remote_answer_chunks resp rlen chunk 0 p = (p, []) := rfl
    rw [e]
    refine ⟨by simp, by simp, by simp [buf_read], ?_, fun hp => hp⟩
    simpa using h
  | succ fuel ih =>
    intro p h
    by_cases hc : p + chunk < rlen
    · have hf : rlen ≤ (p + chunk) + chunk * fuel + chunk := by
        have : chunk * (fuel + 1) = chunk * fuel + chunk := by ring
        omega
      obtain ⟨h1, h2, h3, h4, h5⟩ := ih (p + chunk) hf
      have e : remote_answer_chunks resp rlen chunk (fuel + 1) p
          = ((remote_answer_chunks resp rlen chunk fuel (p + chunk)).1,
             buf_read resp p (chunk % 65536)
               :: (remote_answer_chunks resp rlen chunk fuel (p + chunk)).2) := by
        simp only [remote_answer_chunks, if_pos hc]
      rw [e, Nat.mod_eq_of_lt hc1]
      refine ⟨?_, ?_, ?_, h4, fun _ => h5 hc⟩
      · show (remote_answer_chunks resp rlen chunk fuel (p + chunk)).1 = _
        rw [h1, List.length_cons]; ring
      · intro d hd
        rcases List.mem_cons.1 hd with rfl | hd
        · rw [buf_read_length]
        · exact h2 d hd
      · show (buf_read resp p chunk
            :: (remote_answer_chunks resp rlen chunk fuel (p + chunk)).2).flatten = _
        rw [List.flatten_cons, h3, List.length_cons]
        have e2 : chunk * ((remote_answer_chunks resp rlen chunk fuel (p + chunk)).2.length + 1)
            = chunk + chunk * (remote_answer_chunks resp rlen chunk fuel (p + chunk)).2.length := by
          ring
        rw [e2, buf_read_add]
    · have e : remote_answer_chunks resp rlen chunk (fuel + 1) p = (p, []) := by
        simp only [remote_answer_chunks, if_neg hc]
      rw [e]
      refine ⟨by simp, by simp, by simp [buf_read], ?_, fun hp => hp⟩
      show rlen ≤ p + chunk
      omega
/-- What `remote_send_chunk` does with a chunk: when the response packet can
be built, the message handed to `tcp_send_msg` is the response to the query
with one TXT RRset `result.` whose RDATA is made from the chunk. -/
theorem remote_send_chunk_message (io : remote_io_env) (c : Int) (query : knot_pkt_t)
    (d : List Nat) :
    (remote_send_chunk io c query d).bind (fun r => r.2)
      = if io.knot_pkt_new = true ∧ io.knot_pkt_init_response = KNOT_EOK ∧
            io.knot_pkt_put = KNOT_EOK
        then some { knot_pkt_init_response query with
                    authority := [{ sample_result_rr with rrs := [remote_create_txt_rdata d] }] }
        else none := by
  have hb : remote_build_rr (some (cstr "result.")) KNOT_RRTYPE_TXT
      = (KNOT_EOK, some sample_result_rr) := by decide
  unfold remote_send_chunk
  cases h1 : io.knot_pkt_new with
  | false => simp
  | true =>
    by_cases h2 : io.knot_pkt_init_response = KNOT_EOK
    · by_cases h3 : io.knot_pkt_put = KNOT_EOK
      · simp [h2, h3, hb, remote_create_txt, knot_rrset_add_rdata, knot_pkt_init_response,
          sample_result_rr]
      · simp [h2, h3, hb, remote_create_txt, knot_rrset_add_rdata]
    · simp [h2]

/-- C12, counterexample: for the response text `OK` (length 2) no message is
sent when `knot_pkt_new` gives no response packet: `remote_send_chunk`
returns `KNOT_ENOMEM` before it gets to `tcp_send_msg`, and `remote_answer`
drops that return value. -/
theorem remote_answer_sends_nothing_without_memory :
    (remote_answer_prepare sample_remote_env KNOT_EOK sample_cmdargs_ok).rlen = 2 ∧
    remote_answer_response sample_remote_env KNOT_EOK sample_cmdargs_ok = [[79, 75]] ∧
    remote_send_chunk sample_remote_io_env_no_memory 3 sample_ctl_query [79, 75]
      = some (KNOT_ENOMEM, none) ∧
    remote_answer_sent sample_remote_env sample_remote_io_env_no_memory 3 sample_ctl_query
      KNOT_EOK sample_cmdargs_ok = [] := by
  decide

/-- C12 (amended): for every response text of length `L > 0`, the response
part of `remote_answer` hands the text to `remote_send_chunk` in
`ceil(L / 16384)` pieces: each piece has between 1 and 16384 octets, every
piece but the last has exactly 16384, and the pieces concatenated in calling
order are the first `L` octets of the response buffer. When the response
packets can be built (`knot_pkt_new`, `knot_pkt_init_response` and
`knot_pkt_put` succeed) each call sends one message, which carries its piece
in a TXT RRset; otherwise no message is sent. -/
theorem remote_answer_pieces (env : remote_env) (ret : Int) (args0 : remote_cmdargs_t)
    (h : 0 < (remote_answer_prepare env ret args0).rlen) :
    ∃ (full : List (List Nat)) (last : List Nat),
      remote_answer_response env ret args0 = full ++ [last] ∧
      full.length + 1 = ((remote_answer_prepare env ret args0).rlen + 16383) / 16384 ∧
      (∀ d ∈ full, d.length = 16384) ∧
      1 ≤ last.length ∧ last.length ≤ 16384 ∧
      (full ++ [last]).flatten
        = buf_read (remote_answer_prepare env ret args0).resp 0
            (remote_answer_prepare env ret args0).rlen ∧
      ∀ (io : remote_io_env) (sock : Int) (query : knot_pkt_t),
        remote_answer_sent env io sock query ret args0
          = if io.knot_pkt_new = true ∧ io.knot_pkt_init_response = KNOT_EOK ∧
                io.knot_pkt_put = KNOT_EOK
            then (full ++ [last]).map (fun d =>
              { knot_pkt_init_response query with
                authority := [{ sample_result_rr with rrs := [remote_create_txt_rdata d] }] })
            else [] := by
  obtain ⟨h1, h2, h3, h4, h5⟩ := remote_answer_chunks_spec
    (remote_answer_prepare env ret args0).resp (remote_answer_prepare env ret args0).rlen 16384
    (by decide) (remote_answer_prepare env ret args0).rlen 0 (by omega)
  have h5b := h5 h
  generalize hl : remote_answer_chunks (remote_answer_prepare env ret args0).resp
    (remote_answer_prepare env ret args0).rlen 16384
    (remote_answer_prepare env ret args0).rlen 0 = l at h1 h2 h3 h4 h5b
  generalize hL : (remote_answer_prepare env ret args0).rlen = L at h h1 h2 h3 h4 h5b hl
  generalize hR : (remote_answer_prepare env ret args0).resp = resp at h1 h2 h3 h4 h5b hl
  have hr : 0 < L - l.1 := by omega
  have hmod : (L - l.1) % 65536 = L - l.1 := Nat.mod_eq_of_lt (by omega)
  have hresp : remote_answer_response env ret args0 = l.2 ++ [buf_read resp l.1 (L - l.1)] := by
    rw [remote_answer_prepare_response, hL, hR, hl, if_pos hr, hmod]
  refine ⟨l.2, buf_read resp l.1 (L - l.1), hresp, ?_, h2, ?_, ?_, ?_, ?_⟩
  · omega
  · rw [buf_read_length]; omega
  · rw [buf_read_length]; omega
  · rw [List.flatten_append, h3, List.flatten_cons, List.flatten_nil, List.append_nil]
    have e : L = 16384 * l.2.length + (L - l.1) := by omega
    conv_rhs => rw [e, buf_read_add]
    rw [h1]
  · intro io sock query
    unfold remote_answer_sent
    rw [hresp]
    simp only [remote_send_chunk_message]
    split_ifs with hio
    · induction (l.2 ++ [buf_read resp l.1 (L - l.1)]) with
      | nil => rfl
      | cons d rest ih => simp only [List.filterMap_cons, List.map_cons, ih]
    · induction (l.2 ++ [buf_read resp l.1 (L - l.1)]) with
      | nil => rfl
      | cons d rest ih => simp only [List.filterMap_cons, ih]

/-- C12, witness: the response text `OK` goes out in one message. -/
theorem remote_answer_pieces_witness :
    ∃ (full : List (List Nat)) (last : List Nat),
      remote_answer_response sample_remote_env KNOT_EOK sample_cmdargs_ok = full ++ [last] ∧
      full.length + 1 = (2 + 16383) / 16384 ∧
      (full ++ [last]).flatten = [79, 75] := by
  obtain ⟨full, last, h1, h2, _, _, _, h6, _⟩ :=
    remote_answer_pieces sample_remote_env KNOT_EOK sample_cmdargs_ok (by decide)
  exact ⟨full, last, h1, h2, h6⟩

/-! ## Theorems: TSIG verification and `remote_process` -/

/-- With a query and a key, `zones_verify_tsig_query` returns. -/
theorem zones_verify_tsig_query_returns (env : tsig_env) (query : knot_pkt_t)
    (key : knot_tsig_key_t) (rc trc tm : Nat) :
    ∃ v, zones_verify_tsig_query env (some query) (some key) rc trc tm = some v := by
  cases h : query.tsig_rr with
  | none =>
    simp only [zones_verify_tsig_query, h]
    exact ⟨_, rfl⟩
  | some t =>
    simp only [zones_verify_tsig_query, h]
    split_ifs <;> exact ⟨_, rfl⟩

/-- The ways `remote_process` ends once the query is received and parsed on
an interface that is not `AF_UNIX`. -/
theorem remote_process_cases (env : remote_env) (penv : remote_process_env) (tenv : tsig_env)
    (s : Option server_t) (ctl_if : conf_iface_t) (sock : Int)
    (hnew : env.knot_pkt_new = true) (hrecv : 0 ≤ remote_recv penv)
    (hparse : (remote_parse penv).1 = KNOT_EOK) (hfam : ctl_if.family ≠ AF_UNIX) :
    remote_process env penv tenv s ctl_if sock
      = match penv.acl_find penv.peer ((remote_parse penv).2.tsig_rr.map (fun rr => rr.owner)) with
        | none =>
          some { ret := KNOT_EACCES, replies := [remote_senderr (remote_parse penv).2],
                 answer := none }
        | some m =>
          match m.key with
          | none =>
            some { ret := (remote_answer env (remote_recv penv) s
                            (some (remote_parse penv).2)).ret,
                   replies := [],
                   answer := some (remote_answer env (remote_recv penv) s
                                    (some (remote_parse penv).2)) }
          | some tsig_key =>
            if (remote_parse penv).2.tsig_rr = none then
              some { ret := KNOT_EACCES, replies := [remote_senderr (remote_parse penv).2],
                     answer := none }
            else
              match zones_verify_tsig_query tenv (some (remote_parse penv).2)
                      (some tsig_key) 0 0 0 with
              | none => none
              | some v =>
                if v.ret ≠ KNOT_EOK then
                  some { ret := KNOT_EACCES, replies := [remote_senderr (remote_parse penv).2],
                         answer := none }
                else
                  some { ret := (remote_answer env (remote_recv penv) s
                                  (some (remote_parse penv).2)).ret,
                         replies := [],
                         answer := some (remote_answer env (remote_recv penv) s
                                          (some (remote_parse penv).2)) } := by
  have hc : ¬ remote_recv penv < 0 := not_lt.2 hrecv
  unfold remote_process
  simp only [hnew, Bool.true_eq_false, if_false, if_neg hc, hparse, hfam, ne_eq,
    not_false_eq_true, and_self, if_true]
  cases ha : penv.acl_find penv.peer
      ((remote_parse penv).2.tsig_rr.map (fun rr => rr.owner)) with
  | none => rfl
  | some m =>
    simp only
    cases hm : m.key with
    | none => rfl
    | some key =>
      simp only
      split_ifs with h1
      · rfl
      · cases hz : zones_verify_tsig_query tenv (some (remote_parse penv).2) (some key) 0 0 0 with
        | none => rfl
        | some v =>
          simp only
          by_cases hv : v.ret = KNOT_EOK
          · simp only [hv, not_true_eq_false, if_false, if_true]
          · simp only [hv, not_false_eq_true, if_true]
/-- Without a received and parsed query `remote_process` makes no call of
`remote_answer` and sends no reply. -/
theorem remote_process_no_query (env : remote_env) (penv : remote_process_env) (tenv : tsig_env)
    (s : Option server_t) (ctl_if : conf_iface_t) (sock : Int)
    (h : env.knot_pkt_new = false ∨ remote_recv penv < 0 ∨ (remote_parse penv).1 ≠ KNOT_EOK) :
    ∃ r, remote_process env penv tenv s ctl_if sock = some r ∧ r.answer = none ∧
      r.replies = [] := by
  unfold remote_process
  cases hnew : env.knot_pkt_new with
  | false =>
    simp only [if_true]
    exact ⟨_, rfl, rfl, rfl⟩
  | true =>
    simp only [Bool.true_eq_false, if_false]
    by_cases hc : remote_recv penv < 0
    · simp only [if_pos hc]
      exact ⟨_, rfl, rfl, rfl⟩
    · have hp : (remote_parse penv).1 ≠ KNOT_EOK := by
        rcases h with h | h | h
        · rw [hnew] at h; cases h
        · exact absurd h hc
        · exact h
      simp only [if_neg hc, hp, false_and, if_false]
      exact ⟨_, rfl, rfl, rfl⟩

/-- C16: on a control interface that is not `AF_UNIX`, `remote_process`
calls `remote_answer`, and so any command handler, only if the packet parsed
successfully, `acl_find` gave an entry of the control ACL for the peer
address and the TSIG key name, and, when that entry carries a key, the query
has a TSIG record and `zones_verify_tsig_query` returns `KNOT_EOK` for it.
When the query was received and parsed and these ACL/TSIG conditions do not
all hold, it returns `KNOT_EACCES`, the one reply is the query with QR set
and RCODE REFUSED, and `remote_answer` is not called, so no command runs;
when they hold, `remote_answer` is called. -/
theorem remote_process_access (env : remote_env) (penv : remote_process_env) (tenv : tsig_env)
    (s : Option server_t) (ctl_if : conf_iface_t) (sock : Int)
    (hfam : ctl_if.family ≠ AF_UNIX) :
    ∃ r, remote_process env penv tenv s ctl_if sock = some r ∧
      (r.answer ≠ none →
        (remote_parse penv).1 = KNOT_EOK ∧
        ∃ m, penv.acl_find penv.peer ((remote_parse penv).2.tsig_rr.map (fun rr => rr.owner))
              = some m ∧
          ∀ key, m.key = some key →
            (remote_parse penv).2.tsig_rr ≠ none ∧
            ∃ v, zones_verify_tsig_query tenv (some (remote_parse penv).2) (some key) 0 0 0
                  = some v ∧ v.ret = KNOT_EOK) ∧
      (env.knot_pkt_new = true → 0 ≤ remote_recv penv → (remote_parse penv).1 = KNOT_EOK →
        ((∃ m, penv.acl_find penv.peer ((remote_parse penv).2.tsig_rr.map (fun rr => rr.owner))
              = some m ∧
            ∀ key, m.key = some key →
              (remote_parse penv).2.tsig_rr ≠ none ∧
              ∃ v, zones_verify_tsig_query tenv (some (remote_parse penv).2) (some key) 0 0 0
                    = some v ∧ v.ret = KNOT_EOK) →
          r.replies = [] ∧
          r.answer = some (remote_answer env (remote_recv penv) s (some (remote_parse penv).2))) ∧
        ((¬ ∃ m, penv.acl_find penv.peer ((remote_parse penv).2.tsig_rr.map (fun rr => rr.owner))
              = some m ∧
            ∀ key, m.key = some key →
              (remote_parse penv).2.tsig_rr ≠ none ∧
              ∃ v, zones_verify_tsig_query tenv (some (remote_parse penv).2) (some key) 0 0 0
                    = some v ∧ v.ret = KNOT_EOK) →
          r.ret = KNOT_EACCES ∧ r.replies = [remote_senderr (remote_parse penv).2] ∧
          (remote_senderr (remote_parse penv).2).qr = true ∧
          (remote_senderr (remote_parse penv).2).rcode = KNOT_RCODE_REFUSED ∧
          r.answer = none)) := by
  by_cases hq : env.knot_pkt_new = false ∨ remote_recv penv < 0 ∨
      (remote_parse penv).1 ≠ KNOT_EOK
  · obtain ⟨r, h1, h2, _⟩ := remote_process_no_query env penv tenv s ctl_if sock hq
    refine ⟨r, h1, fun h => absurd h2 h, ?_⟩
    intro a b c
    rcases hq with h | h | h
    · rw [a] at h; cases h
    · exact absurd h (not_lt.2 b)
    · exact absurd c h
  · have hnew : env.knot_pkt_new = true := by
      cases hb : env.knot_pkt_new with
      | false => exact absurd (Or.inl hb) hq
      | true => rfl
    have hrecv : 0 ≤ remote_recv penv := not_lt.1 (fun h => hq (Or.inr (Or.inl h)))
    have hparse : (remote_parse penv).1 = KNOT_EOK :=
      Classical.not_not.1 (fun h => hq (Or.inr (Or.inr h)))
    have hcases := remote_process_cases env penv tenv s ctl_if sock hnew hrecv hparse hfam
    have hsend : (remote_senderr (remote_parse penv).2).qr = true ∧
        (remote_senderr (remote_parse penv).2).rcode = KNOT_RCODE_REFUSED := ⟨rfl, rfl⟩
    cases ha : penv.acl_find penv.peer
        ((remote_parse penv).2.tsig_rr.map (fun rr => rr.owner)) with
    | none =>
      rw [ha] at hcases
      refine ⟨_, hcases, fun h => absurd rfl h, fun _ _ _ => ?_⟩
      have hn : ¬ ∃ m, (none : Option conf_iface_t) = some m ∧
          ∀ key, m.key = some key →
            (remote_parse penv).2.tsig_rr ≠ none ∧
            ∃ v, zones_verify_tsig_query tenv (some (remote_parse penv).2) (some key) 0 0 0
                  = some v ∧ v.ret = KNOT_EOK := by
        rintro ⟨m, hm, _⟩; cases hm
      exact ⟨fun h => absurd h hn, fun _ => ⟨rfl, rfl, hsend.1, hsend.2, rfl⟩⟩
    | some m =>
      rw [ha] at hcases
      simp only at hcases
      cases hk : m.key with
      | none =>
        rw [hk] at hcases
        have hy : ∃ m2, some m = some m2 ∧
            ∀ key, m2.key = some key →
              (remote_parse penv).2.tsig_rr ≠ none ∧
              ∃ v, zones_verify_tsig_query tenv (some (remote_parse penv).2) (some key) 0 0 0
                    = some v ∧ v.ret = KNOT_EOK :=
          ⟨m, rfl, fun key hkey => by rw [hk] at hkey; cases hkey⟩
        refine ⟨_, hcases, fun _ => ⟨hparse, hy⟩, fun _ _ _ => ?_⟩
        exact ⟨fun _ => ⟨rfl, rfl⟩, fun h => absurd hy h⟩
      | some key =>
        rw [hk] at hcases
        simp only at hcases
        by_cases ht : (remote_parse penv).2.tsig_rr = none
        · rw [if_pos ht] at hcases
          have hn : ¬ ∃ m2, some m = some m2 ∧
              ∀ key, m2.key = some key →
                (remote_parse penv).2.tsig_rr ≠ none ∧
                ∃ v, zones_verify_tsig_query tenv (some (remote_parse penv).2) (some key) 0 0 0
                      = some v ∧ v.ret = KNOT_EOK := by
            rintro ⟨m2, hm2, hall⟩
            cases hm2
            exact (hall key hk).1 ht
          refine ⟨_, hcases, fun h => absurd rfl h, fun _ _ _ => ?_⟩
          exact ⟨fun h => absurd h hn, fun _ => ⟨rfl, rfl, hsend.1, hsend.2, rfl⟩⟩
        · rw [if_neg ht] at hcases
          obtain ⟨v, hv⟩ := zones_verify_tsig_query_returns tenv (remote_parse penv).2 key 0 0 0
          rw [hv] at hcases
          simp only at hcases
          by_cases hr : v.ret = KNOT_EOK
          · rw [if_neg (fun h => h hr)] at hcases
            have hy : ∃ m2, some m = some m2 ∧
                ∀ key, m2.key = some key →
                  (remote_parse penv).2.tsig_rr ≠ none ∧
                  ∃ v, zones_verify_tsig_query tenv (some (remote_parse penv).2) (some key)
                        0 0 0 = some v ∧ v.ret = KNOT_EOK := by
              refine ⟨m, rfl, fun key2 hkey => ?_⟩
              rw [hk] at hkey
              cases hkey
              exact ⟨ht, v, hv, hr⟩
            refine ⟨_, hcases, fun _ => ⟨hparse, hy⟩, fun _ _ _ => ?_⟩
            exact ⟨fun _ => ⟨rfl, rfl⟩, fun h => absurd hy h⟩
          · rw [if_pos hr] at hcases
            have hn : ¬ ∃ m2, some m = some m2 ∧
                ∀ key, m2.key = some key →
                  (remote_parse penv).2.tsig_rr ≠ none ∧
                  ∃ v, zones_verify_tsig_query tenv (some (remote_parse penv).2) (some key)
                        0 0 0 = some v ∧ v.ret = KNOT_EOK := by
              rintro ⟨m2, hm2, hall⟩
              cases hm2
              obtain ⟨_, v2, hv2, hr2⟩ := hall key hk
              rw [hv] at hv2
              cases hv2
              exact hr hr2
            refine ⟨_, hcases, fun h => absurd rfl h, fun _ _ _ => ?_⟩
            exact ⟨fun h => absurd h hn, fun _ => ⟨rfl, rfl, hsend.1, hsend.2, rfl⟩⟩

/-- C16, witness: on an IPv4 control interface a query whose TSIG has a
wrong MAC is refused, and a query with a valid TSIG is answered. -/
theorem remote_process_access_witness :
    (∃ r, remote_process sample_remote_env
        (sample_process_env (sample_signed_query (sample_tsig_rr 20 1000 1))) sample_tsig_env
        (some sample_server) sample_ctl_if 3 = some r ∧ r.ret = KNOT_EACCES ∧
        r.answer = none) ∧
    (∃ r, remote_process sample_remote_env
        (sample_process_env (sample_signed_query (sample_tsig_rr 20 1000 0))) sample_tsig_env
        (some sample_server) sample_ctl_if 3 = some r ∧ r.answer ≠ none) := by
  constructor
  · obtain ⟨r, h1, _, h3⟩ := remote_process_access sample_remote_env
      (sample_process_env (sample_signed_query (sample_tsig_rr 20 1000 1))) sample_tsig_env
      (some sample_server) sample_ctl_if 3 (by decide)
    have h0 : remote_process sample_remote_env
        (sample_process_env (sample_signed_query (sample_tsig_rr 20 1000 1))) sample_tsig_env
        (some sample_server) sample_ctl_if 3
        = some { ret := KNOT_EACCES,
                 replies := [remote_senderr (sample_signed_query (sample_tsig_rr 20 1000 1))],
                 answer := none } := by decide
    rw [h0] at h1
    cases h1
    exact ⟨_, h0, rfl, rfl⟩
  · have h0 : (remote_process sample_remote_env
        (sample_process_env (sample_signed_query (sample_tsig_rr 20 1000 0))) sample_tsig_env
        (some sample_server) sample_ctl_if 3).isSome = true := by decide
    obtain ⟨r, hr⟩ := Option.isSome_iff_exists.1 h0
    have h1 : (remote_process sample_remote_env
        (sample_process_env (sample_signed_query (sample_tsig_rr 20 1000 0))) sample_tsig_env
        (some sample_server) sample_ctl_if 3).map (fun r => decide (r.answer ≠ none))
        = some true := by decide
    rw [hr] at h1
    exact ⟨r, hr, by simpa using h1⟩
/-- C17, counterexample: a query signed with a wrong MAC. The verification
fails with `KNOT_TSIG_EBADSIG` and computes RCODE NOTAUTH, but the reply of
`remote_process` is made by `remote_senderr` and has RCODE REFUSED. -/
theorem remote_process_bad_tsig_not_notauth :
    zones_verify_tsig_query sample_tsig_env
        (some (sample_signed_query (sample_tsig_rr 20 1000 1))) (some sample_key) 0 0 0
      = some { ret := KNOT_TSIG_EBADSIG, rcode := KNOT_RCODE_NOTAUTH,
               tsig_rcode := KNOT_RCODE_BADSIG, tsig_prev_time_signed := 0,
               trace := [tsig_event.knot_tsig_server_check KNOT_TSIG_EBADSIG] } ∧
    remote_process sample_remote_env
        (sample_process_env (sample_signed_query (sample_tsig_rr 20 1000 1))) sample_tsig_env
        (some sample_server) sample_ctl_if 3
      = some { ret := KNOT_EACCES,
               replies := [{ sample_signed_query (sample_tsig_rr 20 1000 1) with
                             qr := true, rcode := KNOT_RCODE_REFUSED }],
               answer := none } ∧
    KNOT_RCODE_REFUSED ≠ KNOT_RCODE_NOTAUTH := by
  decide

/-- C17 (amended): on the control socket, a query whose TSIG verification
fails (`zones_verify_tsig_query` returns an error for the key of the matched
ACL entry) is answered with RCODE REFUSED: the reply is the query with QR
set and RCODE REFUSED, `remote_process` returns `KNOT_EACCES` and does not
call `remote_answer`. -/
theorem remote_process_tsig_failure (env : remote_env) (penv : remote_process_env)
    (tenv : tsig_env) (s : Option server_t) (ctl_if : conf_iface_t) (sock : Int)
    (m : conf_iface_t) (key : knot_tsig_key_t) (v : tsig_verify_out)
    (hnew : env.knot_pkt_new = true) (hrecv : 0 ≤ remote_recv penv)
    (hparse : (remote_parse penv).1 = KNOT_EOK) (hfam : ctl_if.family ≠ AF_UNIX)
    (hacl : penv.acl_find penv.peer ((remote_parse penv).2.tsig_rr.map (fun rr => rr.owner))
      = some m)
    (hkey : m.key = some key) (htsig : (remote_parse penv).2.tsig_rr ≠ none)
    (hv : zones_verify_tsig_query tenv (some (remote_parse penv).2) (some key) 0 0 0 = some v)
    (hret : v.ret ≠ KNOT_EOK) :
    remote_process env penv tenv s ctl_if sock
      = some { ret := KNOT_EACCES,
               replies := [{ (remote_parse penv).2 with
                             qr := true, rcode := KNOT_RCODE_REFUSED }],
               answer := none } := by
  rw [remote_process_cases env penv tenv s ctl_if sock hnew hrecv hparse hfam, hacl]
  simp only [hkey, if_neg htsig, hv, if_pos hret]
  rfl

/-- C17, witness: the query signed with a wrong MAC gets the reply with
RCODE REFUSED. -/
theorem remote_process_tsig_failure_witness :
    remote_process sample_remote_env
        (sample_process_env (sample_signed_query (sample_tsig_rr 20 1000 1))) sample_tsig_env
        (some sample_server) sample_ctl_if 3
      = some { ret := KNOT_EACCES,
               replies := [{ sample_signed_query (sample_tsig_rr 20 1000 1) with
                             qr := true, rcode := KNOT_RCODE_REFUSED }],
               answer := none } :=
  remote_process_tsig_failure sample_remote_env
    (sample_process_env (sample_signed_query (sample_tsig_rr 20 1000 1))) sample_tsig_env
    (some sample_server) sample_ctl_if 3 { family := AF_INET, key := some sample_key }
    sample_key
    { ret := KNOT_TSIG_EBADSIG, rcode := KNOT_RCODE_NOTAUTH,
      tsig_rcode := KNOT_RCODE_BADSIG, tsig_prev_time_signed := 0,
      trace := [tsig_event.knot_tsig_server_check KNOT_TSIG_EBADSIG] }
    (by decide) (by decide) (by decide) (by decide) (by decide) (by decide) (by decide)
    (by decide) (by decide)

/-- C19: `zones_verify_tsig_query` returns `KNOT_EOK` only if the query has
a TSIG record, the algorithm of the record is supported (digest length not
0), the owner of the record compares equal to the name of the key and its
algorithm is the algorithm of the key, the MAC length does not exceed the
digest length of the algorithm, and `knot_tsig_server_check` returned
`KNOT_EOK`; the RCODE is then NOERROR. A TSIG record whose key name or
algorithm does not match yields `KNOT_TSIG_EBADKEY`, RCODE NOTAUTH and TSIG
RCODE BADKEY. A MAC longer than the digest, after these checks, yields
`KNOT_EMALF` with RCODE FORMERR, and `knot_tsig_server_check` is not
called. -/
theorem zones_verify_tsig_query_checks (env : tsig_env) (query : knot_pkt_t)
    (key : knot_tsig_key_t) (rc trc tm : Nat) :
    ∃ v, zones_verify_tsig_query env (some query) (some key) rc trc tm = some v ∧
      (v.ret = KNOT_EOK →
        v.rcode = KNOT_RCODE_NOERROR ∧
        ∃ t, query.tsig_rr = some t ∧
          env.knot_tsig_digest_length (env.tsig_rdata_alg t) ≠ 0 ∧
          env.knot_dname_cmp key.name t.owner = 0 ∧
          key.algorithm = env.tsig_rdata_alg t ∧
          env.tsig_rdata_mac_length t ≤ env.knot_tsig_digest_length key.algorithm ∧
          env.knot_tsig_server_check t query key = KNOT_EOK ∧
          v.trace = [tsig_event.knot_tsig_server_check KNOT_EOK]) ∧
      (∀ t, query.tsig_rr = some t →
        (env.knot_dname_cmp key.name t.owner ≠ 0 ∨ key.algorithm ≠ env.tsig_rdata_alg t) →
        v.ret = KNOT_TSIG_EBADKEY ∧ v.rcode = KNOT_RCODE_NOTAUTH ∧
        v.tsig_rcode = KNOT_RCODE_BADKEY ∧ v.trace = []) ∧
      (∀ t, query.tsig_rr = some t →
        env.knot_tsig_digest_length (env.tsig_rdata_alg t) ≠ 0 →
        env.knot_dname_cmp key.name t.owner = 0 → key.algorithm = env.tsig_rdata_alg t →
        env.tsig_rdata_mac_length t > env.knot_tsig_digest_length key.algorithm →
        v.ret = KNOT_EMALF ∧ v.rcode = KNOT_RCODE_FORMERR ∧ v.trace = []) := by
  have hbk : KNOT_TSIG_EBADKEY ≠ KNOT_EOK := by decide
  have hml : KNOT_EMALF ≠ KNOT_EOK := by decide
  cases ht : query.tsig_rr with
  | none =>
    simp only [zones_verify_tsig_query, ht]
    refine ⟨_, rfl, fun h => absurd h hbk, ?_, ?_⟩
    · intro t h; cases h
    · intro t h; cases h
  | some t =>
    simp only [zones_verify_tsig_query, ht]
    by_cases h1 : env.knot_tsig_digest_length (env.tsig_rdata_alg t) = 0
    · rw [if_pos h1]
      refine ⟨_, rfl, fun h => absurd h hbk, ?_, ?_⟩
      · intro t2 h2 _
        exact ⟨rfl, rfl, rfl, rfl⟩
      · intro t2 h2 h3
        cases h2
        exact absurd h1 h3
    · rw [if_neg h1]
      by_cases h2 : env.knot_dname_cmp key.name t.owner = 0 ∧ key.algorithm = env.tsig_rdata_alg t
      · rw [if_neg (fun h => h h2)]
        by_cases h3 : env.tsig_rdata_mac_length t > env.knot_tsig_digest_length key.algorithm
        · rw [if_pos h3]
          refine ⟨_, rfl, fun h => absurd h hml, ?_, ?_⟩
          · intro t2 e hm
            cases e
            rcases hm with hm | hm
            · exact absurd h2.1 hm
            · exact absurd h2.2 hm
          · intro t2 _ _ _ _ _
            exact ⟨rfl, rfl, rfl⟩
        · rw [if_neg h3]
          have hmis : ∀ (v : tsig_verify_out) (t2 : knot_rrset_t), some t = some t2 →
              (env.knot_dname_cmp key.name t2.owner ≠ 0 ∨
                key.algorithm ≠ env.tsig_rdata_alg t2) →
              v.ret = KNOT_TSIG_EBADKEY ∧ v.rcode = KNOT_RCODE_NOTAUTH ∧
              v.tsig_rcode = KNOT_RCODE_BADKEY ∧ v.trace = [] := by
            intro v t2 e hm
            cases e
            rcases hm with hm | hm
            · exact absurd h2.1 hm
            · exact absurd h2.2 hm
          have hlong : ∀ (v : tsig_verify_out) (t2 : knot_rrset_t), some t = some t2 →
              env.knot_tsig_digest_length (env.tsig_rdata_alg t2) ≠ 0 →
              env.knot_dname_cmp key.name t2.owner = 0 →
              key.algorithm = env.tsig_rdata_alg t2 →
              env.tsig_rdata_mac_length t2 > env.knot_tsig_digest_length key.algorithm →
              v.ret = KNOT_EMALF ∧ v.rcode = KNOT_RCODE_FORMERR ∧ v.trace = [] := by
            intro v t2 e _ _ _ hl
            cases e
            exact absurd hl h3
          split_ifs with c1 c2 c3 c4 c5
          · refine ⟨_, rfl, fun _ => ⟨rfl, t, rfl, h1, h2.1, h2.2, not_lt.1 h3, c1, ?_⟩,
              hmis _, hlong _⟩
            simp only [c1]
          · exact ⟨_, rfl, fun h => absurd h c1, hmis _, hlong _⟩
          · exact ⟨_, rfl, fun h => absurd h c1, hmis _, hlong _⟩
          · exact ⟨_, rfl, fun h => absurd h c1, hmis _, hlong _⟩
          · exact ⟨_, rfl, fun h => absurd h c1, hmis _, hlong _⟩
          · exact ⟨_, rfl, fun h => absurd h c1, hmis _, hlong _⟩
      · rw [if_pos h2]
        refine ⟨_, rfl, fun h => absurd h hbk, ?_, ?_⟩
        · intro t2 _ _
          exact ⟨rfl, rfl, rfl, rfl⟩
        · intro t2 e _ h5 h6 _
          cases e
          exact absurd ⟨h5, h6⟩ h2

/-! ## Theorems: TSIG with a bad time -/

/-- C22: `xfr_xfrin_finalize` changes the zone in memory only after the
transfer was made persistent. `zones_apply_changesets` is called only for an
IXFR/IN whose `zones_store_changesets` returned `KNOTD_EOK`, and then after
it; `knot_ns_switch_zone` is called only for an AXFR/IN whose
`zones_save_zone` returned `KNOTD_EOK`, and then after it; for any other
type the result is `KNOTD_EINVAL`, nothing is stored, saved, applied or
switched, and the task is unchanged. -/
theorem xfr_xfrin_finalize_persists_first (env : xfr_env) (data : knot_ns_xfr_t) :
    (∀ c, xfr_event.zones_apply_changesets c ∈ (xfr_xfrin_finalize env data).trace →
      data.type = knot_ns_xfr_type_t.XFR_TYPE_IIN ∧
      env.zones_store_changesets data = KNOTD_EOK ∧
      (xfr_xfrin_finalize env data).trace =
        [xfr_event.xfr_xfrin_finalize, xfr_event.zones_store_changesets KNOTD_EOK,
         xfr_event.zones_apply_changesets c, xfr_event.knot_free_changesets]) ∧
    (∀ c, xfr_event.knot_ns_switch_zone c ∈ (xfr_xfrin_finalize env data).trace →
      data.type = knot_ns_xfr_type_t.XFR_TYPE_AIN ∧
      env.zones_save_zone data = KNOTD_EOK ∧
      (xfr_xfrin_finalize env data).trace =
        [xfr_event.xfr_xfrin_finalize, xfr_event.zones_save_zone KNOTD_EOK,
         xfr_event.knot_ns_switch_zone c]) ∧
    (data.type ≠ knot_ns_xfr_type_t.XFR_TYPE_AIN →
      data.type ≠ knot_ns_xfr_type_t.XFR_TYPE_IIN →
      (xfr_xfrin_finalize env data).ret = KNOTD_EINVAL ∧
      (xfr_xfrin_finalize env data).data = data ∧
      (xfr_xfrin_finalize env data).trace = [xfr_event.xfr_xfrin_finalize]) := by
  refine ⟨?_, ?_, ?_⟩
  · intro c hc
    unfold xfr_xfrin_finalize at hc ⊢
    split at hc
    · rename_i ht
      dsimp only at hc
      split_ifs at hc with h
      · simp [xfr_xfrin_cleanup] at hc
        split at hc <;> simp at hc
      · simp at hc
    · rename_i ht
      dsimp only at hc
      split_ifs at hc with h
      · simp at hc
      · simp only [List.mem_cons, List.mem_singleton, List.not_mem_nil, or_false] at hc
        have h0 : env.zones_store_changesets data = KNOTD_EOK := not_not.mp h
        rcases hc with hc | hc | hc | hc
        · cases hc
        · cases hc
        · cases hc
          refine ⟨ht, h0, ?_⟩
          simp only [ht]
          rw [if_neg h, h0]
        · cases hc
    · simp at hc
  · intro c hc
    unfold xfr_xfrin_finalize at hc ⊢
    split at hc
    · rename_i ht
      dsimp only at hc
      split_ifs at hc with h
      · simp [xfr_xfrin_cleanup] at hc
        split at hc <;> simp at hc
      · simp only [List.mem_cons, List.mem_singleton, List.not_mem_nil, or_false] at hc
        have h0 : env.zones_save_zone data = KNOTD_EOK := not_not.mp h
        rcases hc with hc | hc | hc
        · cases hc
        · cases hc
        · cases hc
          refine ⟨ht, h0, ?_⟩
          simp only [ht]
          rw [if_neg h, h0]
    · rename_i ht
      dsimp only at hc
      split_ifs at hc with h
      · simp at hc
      · simp at hc
    · simp at hc
  · intro h1 h2
    unfold xfr_xfrin_finalize
    split
    · rename_i ht
      exact absurd ht h1
    · rename_i ht
      exact absurd ht h2
    · exact ⟨rfl, rfl, rfl⟩

/-- C21: `xfr_answer_ixfr` for every environment and task. When the serials
are loaded and `zones_xfr_load_changesets` returns `chsload` for them:
`knot_ns_answer_axfr` is called exactly when `chsload` is `KNOTD_ERANGE` or
`KNOTD_ENOENT`, and then the task has the type `XFR_TYPE_AOUT` (and the
prefix `A`) and the result is that of `xfr_answer_axfr` for this task; for
any other `chsload` that is not `KNOTD_EOK` the result is `KNOT_ERROR`, the
RCODE is FORMERR for `KNOTD_EMALF` and SERVFAIL otherwise, and neither
answering function is called; `knot_ns_answer_ixfr` is called exactly when
`chsload` is `KNOTD_EOK`, and its result is returned. When the serials are
not loaded, the changesets are not loaded and nothing is answered. -/
theorem xfr_answer_ixfr_fallback (env : xfr_answer_env) (xfr : knot_ns_xfr_t) :
    (∀ serial_from serial_to,
      env.ns_ixfr_load_serials xfr = (KNOT_EOK, serial_from, serial_to) →
      ((∃ c, xfr_answer_event.knot_ns_answer_axfr c ∈ (xfr_answer_ixfr env xfr).trace) ↔
        (env.zones_xfr_load_changesets xfr serial_from serial_to = KNOTD_ERANGE ∨
          env.zones_xfr_load_changesets xfr serial_from serial_to = KNOTD_ENOENT)) ∧
      ((env.zones_xfr_load_changesets xfr serial_from serial_to = KNOTD_ERANGE ∨
          env.zones_xfr_load_changesets xfr serial_from serial_to = KNOTD_ENOENT) →
        (xfr_answer_ixfr env xfr).xfr.type = knot_ns_xfr_type_t.XFR_TYPE_AOUT ∧
        (xfr_answer_ixfr env xfr).xfr =
          { xfr with type := knot_ns_xfr_type_t.XFR_TYPE_AOUT,
                     msgpref := msgpref_set_A xfr.msgpref } ∧
        (xfr_answer_ixfr env xfr).ret =
          (xfr_answer_axfr env
            { xfr with type := knot_ns_xfr_type_t.XFR_TYPE_AOUT,
                       msgpref := msgpref_set_A xfr.msgpref }).ret ∧
        (xfr_answer_ixfr env xfr).trace =
          [xfr_answer_event.ns_ixfr_load_serials KNOT_EOK,
           xfr_answer_event.zones_xfr_load_changesets
             (env.zones_xfr_load_changesets xfr serial_from serial_to)] ++
          (xfr_answer_axfr env
            { xfr with type := knot_ns_xfr_type_t.XFR_TYPE_AOUT,
                       msgpref := msgpref_set_A xfr.msgpref }).trace) ∧
      (env.zones_xfr_load_changesets xfr serial_from serial_to ≠ KNOTD_EOK →
        env.zones_xfr_load_changesets xfr serial_from serial_to ≠ KNOTD_ERANGE →
        env.zones_xfr_load_changesets xfr serial_from serial_to ≠ KNOTD_ENOENT →
        (xfr_answer_ixfr env xfr).ret = KNOT_ERROR ∧
        (xfr_answer_ixfr env xfr).xfr =
          { xfr with rcode :=
              if env.zones_xfr_load_changesets xfr serial_from serial_to = KNOTD_EMALF
              then KNOT_RCODE_FORMERR else KNOT_RCODE_SERVFAIL } ∧
        (xfr_answer_ixfr env xfr).trace =
          [xfr_answer_event.ns_ixfr_load_serials KNOT_EOK,
           xfr_answer_event.zones_xfr_load_changesets
             (env.zones_xfr_load_changesets xfr serial_from serial_to)]) ∧
      ((∃ c, xfr_answer_event.knot_ns_answer_ixfr c ∈ (xfr_answer_ixfr env xfr).trace) ↔
        env.zones_xfr_load_changesets xfr serial_from serial_to = KNOTD_EOK) ∧
      (env.zones_xfr_load_changesets xfr serial_from serial_to = KNOTD_EOK →
        xfr_answer_ixfr env xfr =
          { ret := env.knot_ns_answer_ixfr xfr, xfr := xfr,
            trace := [xfr_answer_event.ns_ixfr_load_serials KNOT_EOK,
                      xfr_answer_event.zones_xfr_load_changesets KNOTD_EOK,
                      xfr_answer_event.knot_ns_answer_ixfr (env.knot_ns_answer_ixfr xfr)] })) ∧
    ((env.ns_ixfr_load_serials xfr).1 ≠ KNOT_EOK →
      xfr_answer_ixfr env xfr =
        { ret := (env.ns_ixfr_load_serials xfr).1, xfr := xfr,
          trace := [xfr_answer_event.ns_ixfr_load_serials (env.ns_ixfr_load_serials xfr).1] }) := by
  refine ⟨?_, ?_⟩
  · intro serial_from serial_to hs
    have h1 : ¬ (env.ns_ixfr_load_serials xfr).1 ≠ KNOT_EOK := by rw [hs]; exact fun h => h rfl
    unfold xfr_answer_ixfr
    dsimp only
    rw [if_neg h1, hs]
    dsimp only
    generalize env.zones_xfr_load_changesets xfr serial_from serial_to = l
    by_cases h2 : l ≠ KNOTD_EOK
    · rw [if_pos h2]
      by_cases h3 : l = KNOTD_ERANGE ∨ l = KNOTD_ENOENT
      · rw [if_pos h3]
        refine ⟨?_, ?_, ?_, ?_, ?_⟩
        · simp [xfr_answer_axfr, h3]
        · intro _
          refine ⟨?_, ?_, ?_, ?_⟩ <;> rfl
        · intro n0 n1 n2
          rcases h3 with h3 | h3
          · exact absurd h3 n1
          · exact absurd h3 n2
        · simp [xfr_answer_axfr, h2]
        · intro h
          exact absurd h h2
      · rw [if_neg h3]
        refine ⟨?_, ?_, ?_, ?_, ?_⟩
        · simp [h3]
        · intro h
          exact absurd h h3
        · intro _ _ _
          refine ⟨rfl, ?_, rfl⟩
          split_ifs <;> rfl
        · simp [h2]
        · intro h
          exact absurd h h2
    · rw [if_neg h2]
      have h0 : l = KNOTD_EOK := not_not.mp h2
      subst h0
      refine ⟨?_, ?_, ?_, ?_, ?_⟩
      · simp [KNOTD_EOK, KNOTD_ERANGE, KNOTD_ENOENT]
      · intro h
        simp [KNOTD_EOK, KNOTD_ERANGE, KNOTD_ENOENT] at h
      · intro n0
        exact absurd rfl n0
      · simp
      · intro _
        rfl
  · intro h1
    unfold xfr_answer_ixfr
    dsimp only
    rw [if_pos h1]

/-- C21, witness: with the sample surroundings the serials 1 and 2 are
loaded; when the load of the changesets returns `KNOTD_ERANGE` the task
becomes an AXFR/OUT and `knot_ns_answer_axfr` answers it, when it returns
`KNOTD_EMALF` the result is `KNOT_ERROR` with FORMERR. -/
theorem xfr_answer_ixfr_fallback_witness :
    (xfr_answer_ixfr (sample_xfr_answer_env KNOTD_ERANGE) (sample_xfr [])).xfr.type
      = knot_ns_xfr_type_t.XFR_TYPE_AOUT ∧
    (xfr_answer_ixfr (sample_xfr_answer_env KNOTD_ERANGE) (sample_xfr [])).trace
      = [xfr_answer_event.ns_ixfr_load_serials KNOT_EOK,
         xfr_answer_event.zones_xfr_load_changesets KNOTD_ERANGE,
         xfr_answer_event.knot_ns_answer_axfr KNOT_EOK] ∧
    (xfr_answer_ixfr (sample_xfr_answer_env KNOTD_EMALF) (sample_xfr [])).ret = KNOT_ERROR ∧
    (xfr_answer_ixfr (sample_xfr_answer_env KNOTD_EMALF) (sample_xfr [])).xfr.rcode
      = KNOT_RCODE_FORMERR :=
  have h1 := ((xfr_answer_ixfr_fallback (sample_xfr_answer_env KNOTD_ERANGE)
    (sample_xfr [])).1 1 2 rfl).2.1 (Or.inl rfl)
  have h2 := ((xfr_answer_ixfr_fallback (sample_xfr_answer_env KNOTD_EMALF)
    (sample_xfr [])).1 1 2 rfl).2.2.1 (by decide) (by decide) (by decide)
  ⟨h1.1, h1.2.2.2, h2.1, by rw [h2.2.1]; rfl⟩

/-- C28: an IXFR/IN of the zone `example.` is refused
(`knot_ns_process_ixfrin` returns `KNOT_EXFRREFUSED`), the replacement AXFR
query of 30 octets is created and `send` sends 10 octets of it. The
fallback attempt failed and no packet-processing function returned a
positive result, but `xfr_xfrin_finalize` runs: the changesets are stored
and applied, and `xfr_xfrin_cleanup` does not run. -/
theorem xfr_process_event_short_send_finalizes :
    (xfr_process_event (sample_xfr_env_short_send 0 KNOT_EXFRREFUSED) (sample_xfr []) 65535).map
        (fun r => (r.ret, r.data.type, r.trace)) =
      some (KNOTD_ECONNREFUSED, knot_ns_xfr_type_t.XFR_TYPE_IIN,
        [xfr_event.tcp_recv 512,
         xfr_event.knot_ns_process_ixfrin KNOT_EXFRREFUSED,
         xfr_event.xfrin_create_axfr_query KNOT_EOK,
         xfr_event.send 10 30,
         xfr_event.xfr_xfrin_finalize,
         xfr_event.zones_store_changesets KNOTD_EOK,
         xfr_event.zones_apply_changesets KNOT_EOK,
         xfr_event.knot_free_changesets,
         xfr_event.zones_timers_update]) := by
  decide

/-! ## Theorems: adding to a changeset (`changesets.c`) -/

/-- C23, counterexample: without memory for the list node
`knot_changeset_add_rrset` returns `KNOT_ENOMEM`, not `KNOT_EOK`, and the
add list is the old one, without the RRset. -/
theorem knot_changeset_add_rrset_no_memory :
    knot_changeset_add_rrset sample_changeset_env_no_memory sample_changeset_add sample_dnskey
        KNOT_CHANGESET_ADD = (KNOT_ENOMEM, sample_changeset_add) ∧
    KNOT_ENOMEM ≠ KNOT_EOK ∧
    sample_changeset_add.add ≠ sample_changeset_add.add ++ [sample_dnskey] := by
  decide

/-- C23 (amended): when the list node is allocated,
`knot_changeset_add_rrset` returns `KNOT_EOK` and keeps the lists ordered:
with the part `KNOT_CHANGESET_ADD` the new add list is the old one followed
by the RRset and the remove list is unchanged, with any other part the new
remove list is the old one followed by the RRset and the add list is
unchanged. Without the node it returns `KNOT_ENOMEM` and the changeset is
unchanged. -/
theorem knot_changeset_add_rrset_appends (env : changeset_env) (chgs : knot_changeset_t)
    (rrset : knot_rrset_t) (part : Nat) :
    (env.alloc = true → part = KNOT_CHANGESET_ADD →
      (knot_changeset_add_rrset env chgs rrset part).1 = KNOT_EOK ∧
      (knot_changeset_add_rrset env chgs rrset part).2.add = chgs.add ++ [rrset] ∧
      (knot_changeset_add_rrset env chgs rrset part).2.remove = chgs.remove) ∧
    (env.alloc = true → part ≠ KNOT_CHANGESET_ADD →
      (knot_changeset_add_rrset env chgs rrset part).1 = KNOT_EOK ∧
      (knot_changeset_add_rrset env chgs rrset part).2.remove = chgs.remove ++ [rrset] ∧
      (knot_changeset_add_rrset env chgs rrset part).2.add = chgs.add) ∧
    (env.alloc = false →
      knot_changeset_add_rrset env chgs rrset part = (KNOT_ENOMEM, chgs)) := by
  refine ⟨?_, ?_, ?_⟩
  · intro ha hp
    simp [knot_changeset_add_rrset, ha, hp]
  · intro ha hp
    simp [knot_changeset_add_rrset, ha, hp]
  · intro ha
    simp [knot_changeset_add_rrset, ha]

/-- C29, counterexample: the add list ends with an A RRset and the RR is a
DNSKEY, which does not match it; without memory for the list node the RR is
not appended, the list is unchanged and the result is `KNOT_ENOMEM`. -/
theorem knot_changeset_add_rr_no_memory :
    knot_changeset_rrsets_match sample_changeset_env_no_memory sample_rrset sample_dnskey
      = false ∧
    knot_changeset_add_rr sample_changeset_env_no_memory sample_changeset_add sample_dnskey
        KNOT_CHANGESET_ADD = some (KNOT_ENOMEM, sample_changeset_add) ∧
    sample_changeset_add.add = [sample_rrset] ∧
    sample_changeset_add.add ≠ [sample_rrset, sample_dnskey] := by
  decide

/-- The result of `knot_changeset_add_rrset` when the node is allocated. -/
theorem knot_changeset_add_rrset_alloc (env : changeset_env) (chgs : knot_changeset_t)
    (rrset : knot_rrset_t) (part : Nat) (ha : env.alloc = true) :
    knot_changeset_add_rrset env chgs rrset part =
      (KNOT_EOK, if part = KNOT_CHANGESET_ADD then { chgs with add := chgs.add ++ [rrset] }
                 else { chgs with remove := chgs.remove ++ [rrset] }) := by
  unfold knot_changeset_add_rrset
  rw [if_neg (by rw [ha]; exact Bool.noConfusion)]
  split_ifs <;> rfl

/-- The result of `knot_changeset_add_rrset` when the node is not
allocated. -/
theorem knot_changeset_add_rrset_enomem (env : changeset_env) (chgs : knot_changeset_t)
    (rrset : knot_rrset_t) (part : Nat) (ha : env.alloc = false) :
    knot_changeset_add_rrset env chgs rrset part = (KNOT_ENOMEM, chgs) := by
  unfold knot_changeset_add_rrset
  rw [if_pos ha]

/-- The result of `knot_changeset_add_rr` on a list that is `init` followed
by `tail`. -/
theorem knot_changeset_add_rr_eval (env : changeset_env) (chgs : knot_changeset_t)
    (rr : knot_rrset_t) (part : Nat) (init : List knot_rrset_t) (tail : knot_rrset_t)
    (h : knot_changeset_part_list chgs part = init ++ [tail]) :
    knot_changeset_add_rr env chgs rr part = some
      (if knot_changeset_rrsets_match env tail rr = true then
        ((if (env.knot_rrset_merge tail rr).1 = KNOT_EOK then KNOT_EOK else KNOT_ERROR),
         (if part = KNOT_CHANGESET_ADD then
            { chgs with add := init ++ [(env.knot_rrset_merge tail rr).2] }
          else { chgs with remove := init ++ [(env.knot_rrset_merge tail rr).2] }))
       else knot_changeset_add_rrset env chgs rr part) := by
  have hl : (knot_changeset_part_list chgs part).getLast? = some tail := by
    rw [h]; simp
  have hd : (knot_changeset_part_list chgs part).dropLast = init := by
    rw [h]; simp
  unfold knot_changeset_add_rr
  simp only [hl, hd]
  by_cases hmatch : knot_changeset_rrsets_match env tail rr = true
  · rw [if_pos hmatch, if_pos hmatch]
    by_cases hr : (env.knot_rrset_merge tail rr).1 = KNOT_EOK
    · rw [if_neg (not_not.mpr hr), if_pos hr]
    · rw [if_pos hr, if_neg hr]
  · rw [if_neg hmatch, if_neg hmatch]

/-- C29 (amended): `knot_changeset_add_rr` on a non-empty list, `init`
followed by `tail`, looks only at `tail`. If the owner, type and class of
`tail` are those of the RR (and, for an RRSIG, the types covered are equal),
`knot_rrset_merge` merges the RR into `tail` and the list keeps its length:
it is `init` followed by the merged RRset. Otherwise, when the list node is
allocated, the RR is appended as the new last element; without the node the
changeset is unchanged and the result is `KNOT_ENOMEM`. In every case the
list grows by at most one, `init` stays in front, and the other list is not
modified. -/
theorem knot_changeset_add_rr_tail (env : changeset_env) (chgs : knot_changeset_t)
    (rr : knot_rrset_t) (part : Nat) (init : List knot_rrset_t) (tail : knot_rrset_t)
    (h : knot_changeset_part_list chgs part = init ++ [tail]) :
    ∃ ret new, knot_changeset_add_rr env chgs rr part = some (ret, new) ∧
      ((tail.owner = rr.owner ∧ tail.type = rr.type ∧ tail.rclass = rr.rclass ∧
          (tail.type = KNOT_RRTYPE_RRSIG →
            env.knot_rrset_rdata_rrsig_type_covered tail
              = env.knot_rrset_rdata_rrsig_type_covered rr)) →
        knot_changeset_part_list new part = init ++ [(env.knot_rrset_merge tail rr).2] ∧
        (knot_changeset_part_list new part).length
          = (knot_changeset_part_list chgs part).length ∧
        ret = (if (env.knot_rrset_merge tail rr).1 = KNOT_EOK then KNOT_EOK else KNOT_ERROR)) ∧
      (¬ (tail.owner = rr.owner ∧ tail.type = rr.type ∧ tail.rclass = rr.rclass ∧
          (tail.type = KNOT_RRTYPE_RRSIG →
            env.knot_rrset_rdata_rrsig_type_covered tail
              = env.knot_rrset_rdata_rrsig_type_covered rr)) →
        (env.alloc = true →
          knot_changeset_part_list new part = init ++ [tail, rr] ∧ ret = KNOT_EOK) ∧
        (env.alloc = false → new = chgs ∧ ret = KNOT_ENOMEM)) ∧
      (knot_changeset_part_list new part).length
        ≤ (knot_changeset_part_list chgs part).length + 1 ∧
      init <+: knot_changeset_part_list new part ∧
      (part = KNOT_CHANGESET_ADD → new.remove = chgs.remove) ∧
      (part ≠ KNOT_CHANGESET_ADD → new.add = chgs.add) := by
  have hm : knot_changeset_rrsets_match env tail rr = true ↔
      (tail.owner = rr.owner ∧ tail.type = rr.type ∧ tail.rclass = rr.rclass ∧
        (tail.type = KNOT_RRTYPE_RRSIG →
          env.knot_rrset_rdata_rrsig_type_covered tail
            = env.knot_rrset_rdata_rrsig_type_covered rr)) := by
    simp only [knot_changeset_rrsets_match, knot_rrset_equal_header, Bool.and_eq_true,
      Bool.or_eq_true, decide_eq_true_eq]
    constructor
    · rintro ⟨⟨a, b, c⟩, d⟩
      refine ⟨a, b, c, ?_⟩
      intro ht
      rcases d with d | d
      · exact absurd ht d
      · exact d
    · rintro ⟨a, b, c, d⟩
      refine ⟨⟨a, b, c⟩, ?_⟩
      by_cases ht : tail.type = KNOT_RRTYPE_RRSIG
      · exact Or.inr (d ht)
      · exact Or.inl ht
  rw [knot_changeset_add_rr_eval env chgs rr part init tail h]
  by_cases hmatch : knot_changeset_rrsets_match env tail rr = true
  · have hc := hm.1 hmatch
    rw [if_pos hmatch]
    have hnew : knot_changeset_part_list
        (if part = KNOT_CHANGESET_ADD then
            { chgs with add := init ++ [(env.knot_rrset_merge tail rr).2] }
          else { chgs with remove := init ++ [(env.knot_rrset_merge tail rr).2] }) part
        = init ++ [(env.knot_rrset_merge tail rr).2] := by
      by_cases hp : part = KNOT_CHANGESET_ADD
      · simp [knot_changeset_part_list, hp]
      · simp [knot_changeset_part_list, hp]
    refine ⟨_, _, rfl, ?_, ?_, ?_, ?_, ?_, ?_⟩
    · intro _
      refine ⟨hnew, ?_, rfl⟩
      rw [hnew, h]
      simp
    · intro hn
      exact absurd hc hn
    · rw [hnew, h]
      simp
    · rw [hnew]
      exact List.prefix_append _ _
    · intro hp
      rw [if_pos hp]
    · intro hp
      rw [if_neg hp]
  · have hc : ¬ _ := fun x => hmatch (hm.2 x)
    rw [if_neg hmatch]
    cases ha : env.alloc
    · rw [knot_changeset_add_rrset_enomem env chgs rr part ha]
      refine ⟨_, _, rfl, ?_, ?_, ?_, ?_, ?_, ?_⟩
      · intro hy
        exact absurd hy hc
      · intro _
        exact ⟨fun hx => Bool.noConfusion hx, fun _ => ⟨rfl, rfl⟩⟩
      · exact Nat.le_succ _
      · rw [h]
        exact List.prefix_append _ _
      · intro _
        rfl
      · intro _
        rfl
    · rw [knot_changeset_add_rrset_alloc env chgs rr part ha]
      have hnew : knot_changeset_part_list
          (if part = KNOT_CHANGESET_ADD then { chgs with add := chgs.add ++ [rr] }
            else { chgs with remove := chgs.remove ++ [rr] }) part
          = init ++ [tail, rr] := by
        by_cases hp : part = KNOT_CHANGESET_ADD
        · simp [knot_changeset_part_list, hp] at h ⊢
          simp [h]
        · simp [knot_changeset_part_list, hp] at h ⊢
          simp [h]
      refine ⟨_, _, rfl, ?_, ?_, ?_, ?_, ?_, ?_⟩
      · intro hy
        exact absurd hy hc
      · intro _
        exact ⟨fun _ => ⟨hnew, rfl⟩, fun hx => Bool.noConfusion hx⟩
      · rw [hnew, h]
        simp
      · rw [hnew]
        exact List.prefix_append _ _
      · intro hp
        rw [if_pos hp]
      · intro hp
        rw [if_neg hp]

/-- C29, witness: a second address is added to
the add list of the sample changeset, which ends with the A RRset. -/
theorem knot_changeset_add_rr_tail_witness :
    knot_changeset_part_list sample_changeset_add KNOT_CHANGESET_ADD = [] ++ [sample_rrset] ∧
    ∃ ret new, knot_changeset_add_rr sample_changeset_env sample_changeset_add
        { sample_rrset with rrs := [[192, 0, 2, 2]] } KNOT_CHANGESET_ADD = some (ret, new) ∧
      (knot_changeset_part_list new KNOT_CHANGESET_ADD).length
        ≤ (knot_changeset_part_list sample_changeset_add KNOT_CHANGESET_ADD).length + 1 :=
  ⟨by decide,
   (knot_changeset_add_rr_tail sample_changeset_env sample_changeset_add
      { sample_rrset with rrs := [[192, 0, 2, 2]] } KNOT_CHANGESET_ADD [] sample_rrset
      (by decide)).imp
    (fun _ hx => hx.imp (fun _ hy => ⟨hy.1, hy.2.2.2.1⟩))⟩

/-! ## Theorems: the command line of nsupdate (`nsupdate_params.c`) -/

/-- C24: the command line `nsupdate -p 53` uses only an option of the usage
line, with a well-formed argument, and `getopt` returns `p` (112) for it
with the argument `53`; `nsupdate_params_parse` has no case for `p`, prints
the usage line, which lists `[-p port]`, and returns `KNOT_ENOTSUP`, not
`KNOT_EOK`. The command line `nsupdate -d -v -t 10 -r 2 first.txt
second.txt` is accepted, and its two file names are in `qfiles` in the order
of the command line. -/
theorem nsupdate_params_parse_port_not_supported :
    (sample_getopt sample_argv_port nsupdate_optstring).opts = [(112, cstr "53")] ∧
    nsupdate_params_parse sample_nsupdate_env (some sample_params) (some sample_argv_port)
      = { ret := KNOT_ENOTSUP,
          params := some (nsupdate_params_init sample_nsupdate_env),
          out := [cstr "Usage: nsupdate [-d] [-v] [-p port] [-t timeout] [-r retries] [filename]\n"] } ∧
    KNOT_ENOTSUP ≠ KNOT_EOK ∧
    nsupdate_params_parse sample_nsupdate_env (some sample_params) (some sample_argv_files)
      = { ret := KNOT_EOK,
          params := some { qfiles := [cstr "first.txt", cstr "second.txt"], port := 53,
                           protocol := 1, udp_size := 512, retries := 2, wait := 10,
                           verbose := true },
          out := [] } := by
  decide

/-! ## Theorems: the table of domain names (`dname-table.c`) -/

/-- The names of a table after an insertion: the new name and the old
ones. -/
theorem dnslib_dname_table_insert_perm (cmp : List Nat → List Nat → Int) (d : List Nat)
    (t : dnslib_dname_table_t) :
    (dnslib_dname_table_inorder (dnslib_dname_table_insert cmp d t)).Perm
      (d :: dnslib_dname_table_inorder t) := by
  induction t with
  | leaf => simp [dnslib_dname_table_insert, dnslib_dname_table_inorder]
  | node l x r ihl ihr =>
    unfold dnslib_dname_table_insert
    split_ifs
    · simp only [dnslib_dname_table_inorder]
      exact (List.Perm.append_right _ ihl)
    · simp only [dnslib_dname_table_inorder]
      have h1 : (dnslib_dname_table_inorder l ++
          x :: dnslib_dname_table_inorder (dnslib_dname_table_insert cmp d r)).Perm
          (dnslib_dname_table_inorder l ++ x :: d :: dnslib_dname_table_inorder r) :=
        List.Perm.append_left _ (List.Perm.cons _ ihr)
      refine h1.trans ?_
      have h2 : (dnslib_dname_table_inorder l ++ x :: d :: dnslib_dname_table_inorder r).Perm
          (dnslib_dname_table_inorder l ++ d :: x :: dnslib_dname_table_inorder r) :=
        List.Perm.append_left _ (List.Perm.swap _ _ _)
      refine h2.trans ?_
      exact List.perm_middle

/-- A name of a table after an insertion is the new name or an old one. -/
theorem dnslib_dname_table_insert_mem (cmp : List Nat → List Nat → Int) (d y : List Nat)
    (t : dnslib_dname_table_t)
    (hy : y ∈ dnslib_dname_table_inorder (dnslib_dname_table_insert cmp d t)) :
    y = d ∨ y ∈ dnslib_dname_table_inorder t := by
  have h := (List.Perm.mem_iff (dnslib_dname_table_insert_perm cmp d t)).1 hy
  simpa using h

/-- An insertion keeps the order of the table. -/
theorem dnslib_dname_table_insert_ordered (cmp : List Nat → List Nat → Int) (d : List Nat)
    (t : dnslib_dname_table_t) (h : dnslib_dname_table_ordered cmp t = true) :
    dnslib_dname_table_ordered cmp (dnslib_dname_table_insert cmp d t) = true := by
  induction t with
  | leaf => simp [dnslib_dname_table_insert, dnslib_dname_table_ordered,
      dnslib_dname_table_inorder]
  | node l x r ihl ihr =>
    simp only [dnslib_dname_table_ordered, Bool.and_eq_true, List.all_eq_true,
      decide_eq_true_eq] at h
    obtain ⟨⟨⟨h1, h2⟩, h3⟩, h4⟩ := h
    unfold dnslib_dname_table_insert
    split_ifs with hc
    · simp only [dnslib_dname_table_ordered, Bool.and_eq_true, List.all_eq_true,
        decide_eq_true_eq]
      refine ⟨⟨⟨?_, h2⟩, ihl h3⟩, h4⟩
      intro y hy
      rcases dnslib_dname_table_insert_mem cmp d y l hy with hy | hy
      · rw [hy]
        exact hc
      · exact h1 y hy
    · simp only [dnslib_dname_table_ordered, Bool.and_eq_true, List.all_eq_true,
        decide_eq_true_eq]
      refine ⟨⟨⟨h1, ?_⟩, h3⟩, ihr h4⟩
      intro y hy
      rcases dnslib_dname_table_insert_mem cmp d y r hy with hy | hy
      · rw [hy]
        exact not_lt.mp hc
      · exact h2 y hy

/-- The in-order walk of an ordered table is sorted, for a comparison that
is a total preorder. -/
theorem dnslib_dname_table_inorder_pairwise (cmp : List Nat → List Nat → Int)
    (hanti : ∀ a b, 0 ≤ cmp a b → cmp b a ≤ 0)
    (htrans : ∀ a b c, cmp a b ≤ 0 → cmp b c ≤ 0 → cmp a c ≤ 0)
    (t : dnslib_dname_table_t) (h : dnslib_dname_table_ordered cmp t = true) :
    (dnslib_dname_table_inorder t).Pairwise (fun a b => cmp a b ≤ 0) := by
  induction t with
  | leaf => simp [dnslib_dname_table_inorder]
  | node l x r ihl ihr =>
    simp only [dnslib_dname_table_ordered, Bool.and_eq_true, List.all_eq_true,
      decide_eq_true_eq] at h
    obtain ⟨⟨⟨h1, h2⟩, h3⟩, h4⟩ := h
    simp only [dnslib_dname_table_inorder]
    rw [List.pairwise_append]
    refine ⟨ihl h3, ?_, ?_⟩
    · rw [List.pairwise_cons]
      exact ⟨fun b hb => hanti b x (h2 b hb), ihr h4⟩
    · intro a ha b hb
      rcases List.mem_cons.1 hb with hb | hb
      · rw [hb]
        exact le_of_lt (h1 a ha)
      · exact htrans a x b (le_of_lt (h1 a ha)) (hanti b x (h2 b hb))

/-- Adding names to a table that is not `NULL`: every call returns
`DNSLIB_EOK` and the table is the old one with the names inserted in
turn. -/
theorem dnslib_dname_table_add_dnames_eq (cmp : List Nat → List Nat → Int)
    (names : List (List Nat)) (t : dnslib_dname_table_t) :
    dnslib_dname_table_add_dnames cmp (some t) names =
      (List.replicate names.length DNSLIB_EOK,
       some (names.foldl (fun t d => dnslib_dname_table_insert cmp d t) t)) := by
  induction names generalizing t with
  | nil => rfl
  | cons d rest ih =>
    simp only [dnslib_dname_table_add_dnames, dnslib_dname_table_add_dname, ih,
      List.length_cons, List.replicate_succ, List.foldl_cons]

/-- The names of a table after several insertions, and its order. -/
theorem dnslib_dname_table_foldl_spec (cmp : List Nat → List Nat → Int)
    (names : List (List Nat)) (t : dnslib_dname_table_t)
    (h : dnslib_dname_table_ordered cmp t = true) :
    (dnslib_dname_table_inorder
      (names.foldl (fun t d => dnslib_dname_table_insert cmp d t) t)).Perm
        (dnslib_dname_table_inorder t ++ names) ∧
    dnslib_dname_table_ordered cmp
      (names.foldl (fun t d => dnslib_dname_table_insert cmp d t) t) = true := by
  induction names generalizing t with
  | nil => simp [h]
  | cons d rest ih =>
    simp only [List.foldl_cons]
    obtain ⟨p, o⟩ := ih (dnslib_dname_table_insert cmp d t)
      (dnslib_dname_table_insert_ordered cmp d t h)
    refine ⟨?_, o⟩
    refine p.trans ?_
    refine (List.Perm.append_right rest (dnslib_dname_table_insert_perm cmp d t)).trans ?_
    simp only [List.cons_append]
    exact List.perm_middle.symm

/-- C25: for a comparison `dnslib_dname_compare` that is a total preorder
(of two names one is not greater than the other, and "not greater" is
transitive) and every sequence of names added to an empty table with
`dnslib_dname_table_add_dname`: every call returns `DNSLIB_EOK`, and
`dnslib_dname_table_tree_inorder_apply` visits exactly as many names as were
added, the names added with their duplicates, in non-decreasing order of the
comparison. -/
theorem dnslib_dname_table_inorder_sorted (dnslib_dname_compare : List Nat → List Nat → Int)
    (hanti : ∀ a b, 0 ≤ dnslib_dname_compare a b → dnslib_dname_compare b a ≤ 0)
    (htrans : ∀ a b c, dnslib_dname_compare a b ≤ 0 → dnslib_dname_compare b c ≤ 0 →
      dnslib_dname_compare a c ≤ 0)
    (names : List (List Nat)) :
    (dnslib_dname_table_add_dnames dnslib_dname_compare (some dnslib_dname_table_new)
        names).1 = List.replicate names.length DNSLIB_EOK ∧
    (dnslib_dname_table_tree_inorder_apply
      (dnslib_dname_table_add_dnames dnslib_dname_compare (some dnslib_dname_table_new)
        names).2).length = names.length ∧
    (dnslib_dname_table_tree_inorder_apply
      (dnslib_dname_table_add_dnames dnslib_dname_compare (some dnslib_dname_table_new)
        names).2).Perm names ∧
    (dnslib_dname_table_tree_inorder_apply
      (dnslib_dname_table_add_dnames dnslib_dname_compare (some dnslib_dname_table_new)
        names).2).Pairwise (fun a b => dnslib_dname_compare a b ≤ 0) := by
  rw [dnslib_dname_table_add_dnames_eq]
  obtain ⟨p, o⟩ := dnslib_dname_table_foldl_spec dnslib_dname_compare names
    dnslib_dname_table_new rfl
  simp only [dnslib_dname_table_new, dnslib_dname_table_inorder, List.nil_append] at p
  simp only [dnslib_dname_table_tree_inorder_apply]
  exact ⟨trivial, p.length_eq, p,
    dnslib_dname_table_inorder_pairwise dnslib_dname_compare hanti htrans _ o⟩

/-- The sample comparison of a name with itself is 0. -/
theorem sample_dname_compare_self (a : List Nat) : sample_dname_compare a a = 0 := by
  induction a with
  | nil => rfl
  | cons x xs ih => simp [sample_dname_compare, ih]

/-- The sample comparison has the values -1, 0 and 1, and swapping the names
changes the sign. -/
theorem sample_dname_compare_swap (a b : List Nat) :
    sample_dname_compare b a = - sample_dname_compare a b ∧
    (sample_dname_compare a b = -1 ∨ sample_dname_compare a b = 0 ∨
      sample_dname_compare a b = 1) := by
  induction a generalizing b with
  | nil =>
    cases b with
    | nil => simp [sample_dname_compare]
    | cons y ys => simp [sample_dname_compare]
  | cons x xs ih =>
    cases b with
    | nil => simp [sample_dname_compare]
    | cons y ys =>
      simp only [sample_dname_compare]
      rcases Nat.lt_trichotomy x y with h | h | h
      · have h2 : ¬ y < x := by omega
        simp [h, h2]
      · subst h
        simp only [lt_self_iff_false, if_false]
        exact ih ys
      · have h2 : ¬ x < y := by omega
        simp [h, h2]

/-- The sample comparison is transitive. -/
theorem sample_dname_compare_trans (a b c : List Nat)
    (h1 : sample_dname_compare a b ≤ 0) (h2 : sample_dname_compare b c ≤ 0) :
    sample_dname_compare a c ≤ 0 := by
  induction a generalizing b c with
  | nil =>
    cases c with
    | nil => simp [sample_dname_compare]
    | cons z zs => simp [sample_dname_compare]
  | cons x xs ih =>
    cases b with
    | nil => simp [sample_dname_compare] at h1
    | cons y ys =>
      cases c with
      | nil => simp [sample_dname_compare] at h2
      | cons z zs =>
        simp only [sample_dname_compare] at h1 h2 ⊢
        by_cases hxy : x < y
        · have hxz : x < z := by
            by_cases hyz : y < z
            · omega
            · by_cases hzy : z < y
              · simp [hyz, hzy] at h2
              · omega
          simp [hxz]
        · by_cases hyx : y < x
          · simp [hxy, hyx] at h1
          · have hxy2 : x = y := by omega
            subst hxy2
            simp only [hxy, if_false] at h1
            by_cases hxz : x < z
            · simp [hxz]
            · by_cases hzx : z < x
              · simp [hxz, hzx] at h2
              · simp only [hxz, hzx, if_false] at h2 ⊢
                exact ih ys zs h1 h2

/-- C25, witness: the sample comparison is
a total preorder, and the four sample names, one of them twice, are visited
as four names. -/
theorem dnslib_dname_table_inorder_sorted_witness :
    (∀ a b, 0 ≤ sample_dname_compare a b → sample_dname_compare b a ≤ 0) ∧
    (∀ a b c, sample_dname_compare a b ≤ 0 → sample_dname_compare b c ≤ 0 →
      sample_dname_compare a c ≤ 0) ∧
    (dnslib_dname_table_tree_inorder_apply
      (dnslib_dname_table_add_dnames sample_dname_compare (some dnslib_dname_table_new)
        sample_dnames).2).length = sample_dnames.length ∧
    (dnslib_dname_table_tree_inorder_apply
      (dnslib_dname_table_add_dnames sample_dname_compare (some dnslib_dname_table_new)
        sample_dnames).2).Pairwise (fun a b => sample_dname_compare a b ≤ 0) :=
  have h1 : ∀ a b, 0 ≤ sample_dname_compare a b → sample_dname_compare b a ≤ 0 := by
    intro a b h
    rw [(sample_dname_compare_swap a b).1]
    omega
  ⟨h1, sample_dname_compare_trans,
   (dnslib_dname_table_inorder_sorted sample_dname_compare h1 sample_dname_compare_trans
      sample_dnames).2.1,
   (dnslib_dname_table_inorder_sorted sample_dname_compare h1 sample_dname_compare_trans
      sample_dnames).2.2.2⟩

/-! ## Theorems: `update_answer` (`update.c`) -/

/-- C26, counterexample: an UPDATE whose question has the type A, for a zone
with a master. The check of the question type comes first: the RCODE is
FORMERR, not NOTIMPL. -/
theorem update_answer_master_zone_formerr :
    zone_master (some sample_slave_zone) = some 1 ∧
    update_answer sample_update_answer_env 512 (sample_qdata 1 sample_slave_zone)
      = { ret := NS_PROC_FAIL,
          qdata := { sample_qdata 1 sample_slave_zone with rcode := KNOT_RCODE_FORMERR },
          pkt_size := 512, trace := [] } ∧
    KNOT_RCODE_FORMERR ≠ KNOT_RCODE_NOTIMPL := by
  decide

/-- C26 (amended): `update_answer` calls `zone_update_enqueue` only if the
question type is SOA, the zone exists, the zone has no master, the query
passes the check of the update ACL and the TSIG, and the zone has contents.
For a question of type SOA and a zone with a master it sets the RCODE
NOTIMPL and returns `NS_PROC_FAIL` without enqueuing. After a successful
enqueue the size of the response is 0 and the result is `NS_PROC_DONE`;
after a failed one the result is `NS_PROC_FAIL`. -/
theorem update_answer_enqueue (env : update_answer_env) (pkt_size : Nat)
    (qdata : query_data) :
    (∀ c, update_answer_event.zone_update_enqueue c ∈
        (update_answer env pkt_size qdata).trace →
      qdata.query.qtype = KNOT_RRTYPE_SOA ∧
      ∃ zone, qdata.zone = some zone ∧ zone_master (some zone) = none ∧
        (env.ns_need_auth zone qdata).1 = true ∧ zone.contents ≠ none ∧
        c = env.zone_update_enqueue zone qdata.query) ∧
    (qdata.query.qtype = KNOT_RRTYPE_SOA → zone_master qdata.zone ≠ none →
      (update_answer env pkt_size qdata).qdata.rcode = KNOT_RCODE_NOTIMPL ∧
      (update_answer env pkt_size qdata).ret = NS_PROC_FAIL ∧
      (update_answer env pkt_size qdata).pkt_size = pkt_size ∧
      (update_answer env pkt_size qdata).trace = []) ∧
    (update_answer_event.zone_update_enqueue KNOT_EOK ∈
        (update_answer env pkt_size qdata).trace →
      (update_answer env pkt_size qdata).pkt_size = 0 ∧
      (update_answer env pkt_size qdata).ret = NS_PROC_DONE) ∧
    (∀ c, update_answer_event.zone_update_enqueue c ∈
        (update_answer env pkt_size qdata).trace → c ≠ KNOT_EOK →
      (update_answer env pkt_size qdata).pkt_size = pkt_size ∧
      (update_answer env pkt_size qdata).ret = NS_PROC_FAIL) := by
  unfold update_answer
  by_cases hq : qdata.query.qtype ≠ KNOT_RRTYPE_SOA
  · rw [if_pos hq]
    refine ⟨?_, ?_, ?_, ?_⟩
    · intro c hc
      simp at hc
    · intro h
      exact absurd h hq
    · intro hc
      simp at hc
    · intro c hc
      simp at hc
  · rw [if_neg hq]
    have hq2 : qdata.query.qtype = KNOT_RRTYPE_SOA := not_not.mp hq
    cases hz : qdata.zone with
    | none =>
      dsimp only
      refine ⟨?_, ?_, ?_, ?_⟩
      · intro c hc
        simp at hc
      · intro _ hm
        simp [zone_master] at hm
      · intro hc
        simp at hc
      · intro c hc
        simp at hc
    | some zone =>
      dsimp only
      by_cases hm : zone_master (some zone) ≠ none
      · rw [if_pos hm]
        refine ⟨?_, ?_, ?_, ?_⟩
        · intro c hc
          simp at hc
        · intro _ _
          exact ⟨rfl, rfl, rfl, rfl⟩
        · intro hc
          simp at hc
        · intro c hc
          simp at hc
      · rw [if_neg hm]
        have hm2 : zone_master (some zone) = none := not_not.mp hm
        by_cases ha : (env.ns_need_auth zone qdata).1 = false
        · rw [if_pos ha]
          refine ⟨?_, ?_, ?_, ?_⟩
          · intro c hc
            simp at hc
          · intro _ h
            exact absurd h hm
          · intro hc
            simp at hc
          · intro c hc
            simp at hc
        · rw [if_neg ha]
          have ha2 : (env.ns_need_auth zone qdata).1 = true := by simpa using ha
          by_cases hcn : zone.contents = none
          · rw [if_pos hcn]
            refine ⟨?_, ?_, ?_, ?_⟩
            · intro c hc
              simp at hc
            · intro _ h
              exact absurd h hm
            · intro hc
              simp at hc
            · intro c hc
              simp at hc
          · rw [if_neg hcn]
            by_cases he : env.zone_update_enqueue zone qdata.query ≠ KNOT_EOK
            · rw [if_pos he]
              refine ⟨?_, ?_, ?_, ?_⟩
              · intro c hc
                simp at hc
                exact ⟨hq2, zone, rfl, hm2, ha2, hcn, hc⟩
              · intro _ h
                exact absurd h hm
              · intro hc
                simp at hc
                exact absurd hc.symm he
              · intro c _ _
                exact ⟨rfl, rfl⟩
            · rw [if_neg he]
              have he2 : env.zone_update_enqueue zone qdata.query = KNOT_EOK := not_not.mp he
              refine ⟨?_, ?_, ?_, ?_⟩
              · intro c hc
                simp at hc
                exact ⟨hq2, zone, rfl, hm2, ha2, hcn, hc⟩
              · intro _ h
                exact absurd h hm
              · intro _
                exact ⟨rfl, rfl⟩
              · intro c hc hne
                simp at hc
                rw [hc, he2] at hne
                exact absurd rfl hne

/-! ## Theorems: a control query that names no command -/

/-- The chunks of a trace of chunks. -/
theorem remote_trace_chunks_send (l : List (List Nat)) :
    remote_trace_chunks (l.map remote_event.send_chunk) = l := by
  induction l with
  | nil => rfl
  | cons d rest ih => simp [remote_trace_chunks, ih]

/-- The pieces that the response part of `remote_answer` hands to
`remote_send_chunk` are, concatenated, the first `rlen` octets of the
response buffer. -/
theorem remote_answer_response_flatten (env : remote_env) (ret : Int)
    (args0 : remote_cmdargs_t) :
    (remote_answer_response env ret args0).flatten
      = buf_read (remote_answer_prepare env ret args0).resp 0
          (remote_answer_prepare env ret args0).rlen := by
  by_cases h0 : (remote_answer_prepare env ret args0).rlen = 0
  · rw [remote_answer_prepare_response, h0]
    simp [remote_answer_chunks, buf_read]
  · obtain ⟨h1, _, h3, h4, h5⟩ := remote_answer_chunks_spec
      (remote_answer_prepare env ret args0).resp (remote_answer_prepare env ret args0).rlen
      16384 (by decide) (remote_answer_prepare env ret args0).rlen 0 (by omega)
    have h5b := h5 (Nat.pos_of_ne_zero h0)
    rw [remote_answer_prepare_response]
    generalize hl : remote_answer_chunks (remote_answer_prepare env ret args0).resp
      (remote_answer_prepare env ret args0).rlen 16384
      (remote_answer_prepare env ret args0).rlen 0 = l at h1 h3 h4 h5b
    generalize (remote_answer_prepare env ret args0).rlen = L at h1 h3 h4 h5b
    generalize (remote_answer_prepare env ret args0).resp = resp at h1 h3 h4
    have hr : 0 < L - l.1 := by omega
    have hmod : (L - l.1) % 65536 = L - l.1 := Nat.mod_eq_of_lt (by omega)
    rw [List.flatten_append, h3, if_pos hr, hmod, List.flatten_cons, List.flatten_nil,
      List.append_nil]
    have e : L = 16384 * l.2.length + (L - l.1) := by omega
    conv_rhs => rw [e, buf_read_add]
    rw [h1]

/-- Reading back a text from the start of a buffer. -/
theorem buf_read_append (a b : List Nat) : buf_read (a ++ b) 0 a.length = a := by
  apply List.ext_getElem
  · rw [buf_read_length]
  · intro i h1 h2
    simp only [buf_read, List.getElem_map, List.getElem_range, Nat.zero_add]
    rw [List.getD_eq_getElem?_getD, List.getElem?_append_left h2, List.getElem?_eq_getElem h2]
    rfl

/-- What `strlcpy` writes is the C string, when it fits. -/
theorem buf_read_strlcpy (dst src : List Nat) (size : Nat) (h : strlen src < size) :
    buf_read (strlcpy dst src size) 0 (strlen src) = c_str src := by
  unfold strlcpy strlen at *
  have e : (c_str src).take (size - 1) = c_str src := List.take_of_length_le (by omega)
  simp only [e, List.append_assoc]
  exact buf_read_append _ _

/-- The table walk finds no handler for a command that is none of the
names. -/
theorem remote_cmd_lookup_none (cmd : List Nat) :
    ∀ tbl : List remote_cmd_t, (∀ c ∈ tbl, cmd ≠ c.name) → remote_cmd_lookup tbl cmd = none := by
  intro tbl
  induction tbl with
  | nil => intro _; rfl
  | cons c rest ih =>
    intro h
    simp only [remote_cmd_lookup, if_neg (h c (List.mem_cons_self _ _))]
    exact ih (fun x hx => h x (List.mem_cons_of_mem _ hx))

/-- C27, counterexample: the query `start.knot.` names no command, and when
the argument block cannot be allocated `remote_answer` returns
`KNOT_ENOMEM`, not `KNOT_EOK`, and sends no text. The leftmost label of the
second query, `stop` followed by a NUL octet, is none of the eight names,
but `strndup` and `strcmp` read it as the C string `stop`, and the handler
`remote_c_stop` is called. -/
theorem remote_answer_unknown_command_cases :
    sample_ctl_query_start.qclass = KNOT_CLASS_CH ∧
    knot_dname_is_sub sample_ctl_query_start.qname remote_realm = true ∧
    remote_answer sample_remote_env_no_memory 3 (some sample_server)
        (some sample_ctl_query_start)
      = { ret := KNOT_ENOMEM, server := some sample_server, trace := [] } ∧
    KNOT_ENOMEM ≠ KNOT_EOK ∧
    sample_ctl_query_stop_nul.qclass = KNOT_CLASS_CH ∧
    knot_dname_is_sub sample_ctl_query_stop_nul.qname remote_realm = true ∧
    (sample_ctl_query_stop_nul.qname.drop 1).take (sample_ctl_query_stop_nul.qname.headD 0)
      = [115, 116, 111, 112, 0] ∧
    [115, 116, 111, 112, 0] ∉ remote_cmd_tbl.map (fun c => c.name) ∧
    remote_trace_cmds (remote_answer sample_remote_env 3 (some sample_server)
        (some sample_ctl_query_stop_nul)).trace = [remote_cmdf_t.remote_c_stop] := by
  decide

/-- C27 (amended): `remote_answer` is called with a valid socket and a
server for a query that passes the class and realm checks, the argument
block is allocated, and the leftmost label, read as a C string (its octets
before the first NUL octet), is none of the eight names of `remote_cmd_tbl`
(the comparison is exact and case-sensitive). Then no handler is invoked,
`remote_answer` returns `KNOT_EOK`, and the response text, the chunks sent
put together, is what "Prepare response" copies of the error string of
`KNOT_EOK`: the string itself when it is shorter than the buffer. -/
theorem remote_answer_unknown_command (env : remote_env) (sock : Int) (srv : server_t)
    (p : knot_pkt_t) (hsock : 0 ≤ sock) (hmalloc : env.malloc = true)
    (hclass : p.qclass = KNOT_CLASS_CH)
    (hsub : knot_dname_is_sub p.qname remote_realm = true)
    (hcmd : ∀ c ∈ remote_cmd_tbl, remote_answer_cmd p.qname ≠ c.name) :
    remote_trace_cmds (remote_answer env sock (some srv) (some p)).trace = [] ∧
    (remote_answer env sock (some srv) (some p)).ret = KNOT_EOK ∧
    (remote_answer env sock (some srv) (some p)).server = some srv ∧
    (remote_trace_chunks (remote_answer env sock (some srv) (some p)).trace).flatten
      = buf_read (strlcpy [] (env.knot_strerror KNOT_EOK) CMDARGS_BUFLEN) 0
          (strlen (env.knot_strerror KNOT_EOK)) ∧
    (strlen (env.knot_strerror KNOT_EOK) < CMDARGS_BUFLEN →
      (remote_trace_chunks (remote_answer env sock (some srv) (some p)).trace).flatten
        = c_str (env.knot_strerror KNOT_EOK)) := by
  have hl := remote_cmd_lookup_none (remote_answer_cmd p.qname) remote_cmd_tbl hcmd
  have hs : ¬ sock < 0 := not_lt.2 hsock
  have hr : remote_answer env sock (some srv) (some p)
      = { ret := KNOT_EOK, server := some srv,
          trace := (remote_answer_response env KNOT_EOK
            { arg := p.authority, argc := p.authority.length, rc := KNOT_RCODE_NOERROR,
              resp := [], rlen := 0 }).map remote_event.send_chunk } := by
    unfold remote_answer
    simp only [hs, if_false, hclass, ne_eq, not_true_eq_false, hsub, Bool.not_true,
      Bool.false_eq_true, hmalloc, Bool.true_eq_false, hl]
  have hf : (remote_trace_chunks (remote_answer env sock (some srv) (some p)).trace).flatten
      = buf_read (strlcpy [] (env.knot_strerror KNOT_EOK) CMDARGS_BUFLEN) 0
          (strlen (env.knot_strerror KNOT_EOK)) := by
    rw [hr]
    simp only [remote_trace_chunks_send, remote_answer_response_flatten]
    simp [remote_answer_prepare]
  rw [hr] at hf ⊢
  refine ⟨remote_trace_cmds_send _, rfl, rfl, hf, ?_⟩
  intro hlen
  rw [hf]
  exact buf_read_strlcpy _ _ _ hlen

/-- C27, witness: the query `start.knot.` gets
the text `OK`. -/
theorem remote_answer_unknown_command_witness :
    (0 : Int) ≤ 3 ∧ sample_remote_env.malloc = true ∧
    sample_ctl_query_start.qclass = KNOT_CLASS_CH ∧
    knot_dname_is_sub sample_ctl_query_start.qname remote_realm = true ∧
    (∀ c ∈ remote_cmd_tbl, remote_answer_cmd sample_ctl_query_start.qname ≠ c.name) ∧
    remote_trace_cmds (remote_answer sample_remote_env 3 (some sample_server)
      (some sample_ctl_query_start)).trace = [] ∧
    (remote_answer sample_remote_env 3 (some sample_server)
      (some sample_ctl_query_start)).ret = KNOT_EOK ∧
    (remote_trace_chunks (remote_answer sample_remote_env 3 (some sample_server)
      (some sample_ctl_query_start)).trace).flatten = cstr "OK" :=
  have h := remote_answer_unknown_command sample_remote_env 3 sample_server
    sample_ctl_query_start (by decide) (by decide) (by decide) (by decide) (by decide)
  ⟨by decide, by decide, by decide, by decide, by decide, h.1, h.2.1,
   (h.2.2.2.2 (by decide)).trans (by decide)⟩

/-! ## Theorems: failures of the zones of a command -/

/-- The inner loop of `remote_rdata_apply` leaves `a->rc` as it was or sets
it to SERVFAIL. -/
theorem remote_rdata_apply_rr_rc (cb : Option zone_t → zone_cb_out) :
    ∀ (dns : List (List Nat)) (db : List zone_t) (rc : Nat),
      (remote_rdata_apply_rr cb dns db rc).2.1 = rc ∨
      (remote_rdata_apply_rr cb dns db rc).2.1 = KNOT_RCODE_SERVFAIL := by
  intro dns
  induction dns with
  | nil => intro db rc; exact Or.inl rfl
  | cons dn rest ih =>
    intro db rc
    simp only [remote_rdata_apply_rr]
    rcases ih (zone_cb_apply cb db (knot_zonedb_find db dn)).2.1
      (if (zone_cb_apply cb db (knot_zonedb_find db dn)).1 ≠ KNOT_EOK
        then KNOT_RCODE_SERVFAIL else rc) with h | h
    · rw [h]
      split_ifs
      · exact Or.inr rfl
      · exact Or.inl rfl
    · exact Or.inr h

/-- The outer loop of `remote_rdata_apply` leaves `a->rc` as it was or sets
it to SERVFAIL. -/
theorem remote_rdata_apply_loop_rc (cb : Option zone_t → zone_cb_out) :
    ∀ (rrs : List knot_rrset_t) (db : List zone_t) (rc : Nat),
      (remote_rdata_apply_loop cb rrs db rc).2.1 = rc ∨
      (remote_rdata_apply_loop cb rrs db rc).2.1 = KNOT_RCODE_SERVFAIL := by
  intro rrs
  induction rrs with
  | nil => intro db rc; exact Or.inl rfl
  | cons rr rest ih =>
    intro db rc
    simp only [remote_rdata_apply_loop]
    split_ifs
    · exact ih db rc
    · rcases ih (remote_rdata_apply_rr cb rr.rrs db rc).1
        (remote_rdata_apply_rr cb rr.rrs db rc).2.1 with h | h
      · rcases remote_rdata_apply_rr_rc cb rr.rrs db rc with h2 | h2
        · exact Or.inl (h.trans h2)
        · exact Or.inr (h.trans h2)
      · exact Or.inr h

/-- `remote_rdata_apply` with a server, an argument block and a callback
returns `KNOT_EOK` and changes nothing of the argument block but `rc`, which
stays or becomes SERVFAIL. -/
theorem remote_rdata_apply_out_spec (s : server_t) (a : remote_cmdargs_t)
    (cb : Option zone_t → zone_cb_out) :
    (remote_rdata_apply_out s a cb).ret = KNOT_EOK ∧
    (remote_rdata_apply_out s a cb).args
      = { a with rc := (remote_rdata_apply_out s a cb).args.rc } ∧
    ((remote_rdata_apply_out s a cb).args.rc = a.rc ∨
      (remote_rdata_apply_out s a cb).args.rc = KNOT_RCODE_SERVFAIL) := by
  refine ⟨rfl, rfl, ?_⟩
  exact remote_rdata_apply_loop_rc cb (a.arg.take a.argc) s.zone_db a.rc

/-- The handlers `refresh`, `retransfer`, `flush` and `signzone` with
arguments return `KNOT_EOK` and leave the response text of the argument
block as it was. -/
theorem remote_call_zones (env : remote_env) (f : remote_cmdf_t) (s : server_t)
    (a : remote_cmdargs_t) (h : a.argc ≠ 0)
    (hf : f = remote_cmdf_t.remote_c_refresh ∨ f = remote_cmdf_t.remote_c_retransfer ∨
      f = remote_cmdf_t.remote_c_flush ∨ f = remote_cmdf_t.remote_c_signzone) :
    (remote_call env f s a).ret = KNOT_EOK ∧
    (remote_call env f s a).args.resp = a.resp ∧
    (remote_call env f s a).args.rlen = a.rlen := by
  rcases hf with hf | hf | hf | hf
  · subst hf
    simp only [remote_call, remote_c_refresh, if_neg h]
    exact ⟨rfl, rfl, rfl⟩
  · subst hf
    simp only [remote_call, remote_c_retransfer, if_neg h]
    exact ⟨rfl, rfl, rfl⟩
  · subst hf
    simp only [remote_call, remote_c_flush, if_neg h]
    exact ⟨rfl, rfl, rfl⟩
  · subst hf
    simp only [remote_call, remote_c_signzone, if_neg h]
    exact ⟨rfl, rfl, rfl⟩

/-- The response part of `remote_answer` reads the text and its length of
the argument block, and nothing else of it. -/
theorem remote_answer_response_congr (env : remote_env) (ret : Int)
    (a b : remote_cmdargs_t) (h1 : a.resp = b.resp) (h2 : a.rlen = b.rlen) :
    remote_answer_response env ret a = remote_answer_response env ret b := by
  have hp : (remote_answer_prepare env ret a).resp = (remote_answer_prepare env ret b).resp ∧
      (remote_answer_prepare env ret a).rlen = (remote_answer_prepare env ret b).rlen := by
    unfold remote_answer_prepare
    by_cases hc : ret ≠ KNOT_EOK ∨ b.rlen = 0
    · rw [if_pos hc, if_pos (by rw [h2]; exact hc)]
      exact ⟨by rw [h1], rfl⟩
    · rw [if_neg hc, if_neg (by rw [h2]; exact hc)]
      exact ⟨h1, h2⟩
  rw [remote_answer_prepare_response, remote_answer_prepare_response, hp.1, hp.2]

/-- The handler that the table walk finds for one of the four names. -/
theorem remote_cmd_lookup_zones (cmd : List Nat)
    (h : cmd ∈ [cstr "refresh", cstr "retransfer", cstr "flush", cstr "signzone"]) :
    ∃ f, remote_cmd_lookup remote_cmd_tbl cmd = some f ∧
      (f = remote_cmdf_t.remote_c_refresh ∨ f = remote_cmdf_t.remote_c_retransfer ∨
        f = remote_cmdf_t.remote_c_flush ∨ f = remote_cmdf_t.remote_c_signzone) := by
  simp only [List.mem_cons, List.mem_singleton, List.not_mem_nil, or_false] at h
  rcases h with h | h | h | h
  · subst h
    exact ⟨remote_cmdf_t.remote_c_refresh, by decide, Or.inl rfl⟩
  · subst h
    exact ⟨remote_cmdf_t.remote_c_retransfer, by decide, Or.inr (Or.inl rfl)⟩
  · subst h
    exact ⟨remote_cmdf_t.remote_c_flush, by decide, Or.inr (Or.inr (Or.inl rfl))⟩
  · subst h
    exact ⟨remote_cmdf_t.remote_c_signzone, by decide, Or.inr (Or.inr (Or.inr rfl))⟩

/-- The result of `remote_answer` for one of the four commands with
arguments, whatever the server. -/
theorem remote_answer_zones (env : remote_env) (sock : Int) (srv : server_t) (p : knot_pkt_t)
    (hcmd : remote_answer_cmd p.qname ∈
      [cstr "refresh", cstr "retransfer", cstr "flush", cstr "signzone"])
    (hargs : p.authority ≠ []) :
    (remote_answer (remote_env_handlers env) sock (some srv) (some p)).ret
      = (if sock < 0 then KNOT_EINVAL
         else if p.qclass ≠ KNOT_CLASS_CH then KNOT_EMALF
         else if knot_dname_is_sub p.qname remote_realm = false then KNOT_EMALF
         else if env.malloc = false then KNOT_ENOMEM
         else KNOT_EOK) ∧
    remote_trace_chunks (remote_answer (remote_env_handlers env) sock (some srv) (some p)).trace
      = (if sock < 0 then []
         else if p.qclass ≠ KNOT_CLASS_CH then []
         else if knot_dname_is_sub p.qname remote_realm = false then []
         else if env.malloc = false then []
         else remote_answer_response env KNOT_EOK
           { arg := p.authority, argc := p.authority.length, rc := KNOT_RCODE_NOERROR,
             resp := [], rlen := 0 }) := by
  obtain ⟨f, hl, hf⟩ := remote_cmd_lookup_zones _ hcmd
  have hargc : p.authority.length ≠ 0 := fun h => hargs (List.length_eq_zero.1 h)
  obtain ⟨c1, c2, c3⟩ := remote_call_zones env f srv
    { arg := p.authority, argc := p.authority.length, rc := KNOT_RCODE_NOERROR,
      resp := [], rlen := 0 } hargc hf
  unfold remote_answer
  by_cases h1 : sock < 0
  · simp [h1, remote_trace_chunks]
  · by_cases h2 : p.qclass ≠ KNOT_CLASS_CH
    · simp [h1, h2, remote_trace_chunks]
    · by_cases h3 : knot_dname_is_sub p.qname remote_realm = false
      · simp [h1, h2, h3, remote_trace_chunks]
      · have h3b : knot_dname_is_sub p.qname remote_realm = true := by simpa using h3
        by_cases h4 : env.malloc = false
        · simp [h1, h2, h3b, remote_env_handlers, h4, remote_trace_chunks]
        · have h4b : env.malloc = true := by simpa using h4
          simp only [h1, if_false, h2, h3b, Bool.not_true, Bool.false_eq_true,
            Bool.true_eq_false, remote_env_handlers, h4b, hl]
          refine ⟨c1, ?_⟩
          simp only [remote_trace_chunks, remote_trace_chunks_send]
          rw [c1]
          exact remote_answer_response_congr _ KNOT_EOK _ _ c2 c3

/-- C30: for the commands `refresh`, `retransfer`, `flush` and `signzone`
with a zone list that is not empty. `remote_rdata_apply` returns `KNOT_EOK`
whatever the callbacks return, and of the argument block it changes nothing
but `rc`, which stays or becomes SERVFAIL; so do the four handlers. The
return value of `remote_answer` and the text it sends are the same for two
runs of the same query on two servers, whose zones may fail or not. -/
theorem remote_answer_zone_failures_unseen (env : remote_env) (sock : Int)
    (s1 s2 : server_t) (p : knot_pkt_t)
    (hcmd : remote_answer_cmd p.qname ∈
      [cstr "refresh", cstr "retransfer", cstr "flush", cstr "signzone"])
    (hargs : p.authority ≠ []) :
    (∀ (s : server_t) (a : remote_cmdargs_t) (cb : Option zone_t → zone_cb_out),
      (remote_rdata_apply (some s) (some a) (some cb)).1 = KNOT_EOK ∧
      ∃ rc, (rc = a.rc ∨ rc = KNOT_RCODE_SERVFAIL) ∧
        (remote_rdata_apply (some s) (some a) (some cb)).2.2.1 = some { a with rc := rc }) ∧
    (∀ (s : server_t) (a : remote_cmdargs_t), a.argc ≠ 0 →
      (remote_c_refresh s a).ret = KNOT_EOK ∧ (remote_c_retransfer s a).ret = KNOT_EOK ∧
      (remote_c_flush s a).ret = KNOT_EOK ∧ (remote_c_signzone s a).ret = KNOT_EOK) ∧
    (remote_answer (remote_env_handlers env) sock (some s1) (some p)).ret
      = (remote_answer (remote_env_handlers env) sock (some s2) (some p)).ret ∧
    remote_trace_chunks (remote_answer (remote_env_handlers env) sock (some s1) (some p)).trace
      = remote_trace_chunks
          (remote_answer (remote_env_handlers env) sock (some s2) (some p)).trace := by
  obtain ⟨a1, a2⟩ := remote_answer_zones env sock s1 p hcmd hargs
  obtain ⟨b1, b2⟩ := remote_answer_zones env sock s2 p hcmd hargs
  refine ⟨?_, ?_, a1.trans b1.symm, a2.trans b2.symm⟩
  · intro s a cb
    refine ⟨rfl, _, remote_rdata_apply_loop_rc cb (a.arg.take a.argc) s.zone_db a.rc, rfl⟩
  · intro s a h
    refine ⟨?_, ?_, ?_, ?_⟩
    · simp only [remote_c_refresh, if_neg h]
      rfl
    · simp only [remote_c_retransfer, if_neg h]
      rfl
    · simp only [remote_c_flush, if_neg h]
      rfl
    · simp only [remote_c_signzone, if_neg h]
      rfl

/-- C30, witness: the query
`refresh.knot.` lists the zone `example.`, which is a slave zone on the
first server and a master zone on the second, where the refresh fails and
`rc` becomes SERVFAIL; both runs return `KNOT_EOK` and send `OK`. -/
theorem remote_answer_zone_failures_unseen_witness :
    remote_answer_cmd sample_ctl_query_refresh.qname ∈
      [cstr "refresh", cstr "retransfer", cstr "flush", cstr "signzone"] ∧
    sample_ctl_query_refresh.authority ≠ [] ∧
    (remote_c_refresh sample_server_slave (sample_cmdargs [sample_ns_example])).args.rc
      = KNOT_RCODE_NOERROR ∧
    (remote_c_refresh sample_server_master (sample_cmdargs [sample_ns_example])).args.rc
      = KNOT_RCODE_SERVFAIL ∧
    (remote_answer (remote_env_handlers sample_remote_env) 3 (some sample_server_slave)
        (some sample_ctl_query_refresh)).ret
      = (remote_answer (remote_env_handlers sample_remote_env) 3 (some sample_server_master)
        (some sample_ctl_query_refresh)).ret ∧
    remote_trace_chunks (remote_answer (remote_env_handlers sample_remote_env) 3
        (some sample_server_slave) (some sample_ctl_query_refresh)).trace
      = remote_trace_chunks (remote_answer (remote_env_handlers sample_remote_env) 3
        (some sample_server_master) (some sample_ctl_query_refresh)).trace :=
  ⟨by decide, by decide, by decide, by decide,
   (remote_answer_zone_failures_unseen sample_remote_env 3 sample_server_slave
      sample_server_master sample_ctl_query_refresh (by decide) (by decide)).2.2⟩

end Knot
